import Mathlib

/-!
# MPU6050 driver (`firmware/driver/device/mpu6050.c`)

A shallow embedding of the driver: the register access layer with its retry
loops, the identity check and start-up sequence, the burst decode, the
calibration loop, the bias correction and the scaling, followed by the
properties of the driver that are proved about it.

Conventions of the embedding.

* `int16_t` values are integers in `[-32768, 32767]`; a store into an
  `int16_t` object is `wrap16`.
* `float` values are the finite IEEE-754 binary32 numbers.  Every such number
  is an integer multiple of `2^-149`, and it is held as that integer
  (`binary32.units`).  Each arithmetic operation rounds the exact result to
  nearest, ties to even, with 24 significant bits.  Infinities and NaN are not
  represented: the embedding is faithful as long as magnitudes stay below
  `2^128`.
* The two-wire bus is an external collaborator.  Its behaviour is a script:
  the list of outcomes it gives to the calls still to come, one per call.
  A driver function returns `none` when the script ends before the function
  has returned.
* Everything observable the driver does (bus calls with their status, delays)
  is appended to a trace.
-/

namespace Mpu6050

/-! ## Machine integers -/

/-- Store of a C `int` into an `int16_t` object: the value modulo `2^16`,
taken in `[-32768, 32767]`. -/
def wrap16 (n : Int) : Int := (n + 32768) % 65536 - 32768

/-- The range of `int16_t`. -/
def isInt16 (n : Int) : Prop := -32768 ≤ n ∧ n ≤ 32767

instance (n : Int) : Decidable (isInt16 n) := by
  unfold isInt16; infer_instance

/-- Modelled from the spec: `vector3d_16_t` of `vector_space.h`, a RawTriple
of three signed 16-bit integers (x, y, z). -/
structure vector3d_16_t where
  x : Int
  y : Int
  z : Int
deriving DecidableEq, Repr

/-- All three components are `int16_t` values. -/
def vector3d_16_t.inRange (v : vector3d_16_t) : Prop :=
  isInt16 v.x ∧ isInt16 v.y ∧ isInt16 v.z

instance (v : vector3d_16_t) : Decidable v.inRange := by
  unfold vector3d_16_t.inRange; infer_instance

/-! ## binary32 arithmetic -/

/-- Helper of `bit_length`, with fuel. -/
def bit_length_aux : Nat → Nat → Nat
  | 0, _ => 0
  | fuel + 1, n => if n = 0 then 0 else bit_length_aux fuel (n / 2) + 1

/-- Number of binary digits of `n` (0 for 0). -/
def bit_length (n : Nat) : Nat := bit_length_aux n n

/-- Round the rational `n / d` (`d > 0`) to 24 significant binary digits on
the integer grid, to nearest, ties to even.  On the grid of units of `2^-149`
this is binary32 rounding: values below `2^24` units (subnormals and the first
normal binade) are spaced by one unit, a value with `b > 24` binary digits is
spaced by `2^(b-24)` units. -/
def f32_round_ratio (n : Int) (d : Nat) : Int :=
  let a := n.natAbs
  let shift := bit_length (a / d) - 24
  let D := d * 2 ^ shift
  let q := a / D
  let r := a % D
  let m := if 2 * r < D then q else if D < 2 * r then q + 1
    else if q % 2 = 0 then q else q + 1
  if n < 0 then -((m * 2 ^ shift : Nat) : Int) else ((m * 2 ^ shift : Nat) : Int)

/-- The value 1.0 in units of `2^-149`. -/
def f32_one : Nat := 2 ^ 149

/-- A finite `float` (binary32) value: `units * 2^-149`. -/
structure binary32 where
  units : Int
deriving DecidableEq, Repr

/-- Conversion `(float)n` of an integer. -/
def f32_of_int (n : Int) : binary32 := ⟨f32_round_ratio (n * f32_one) 1⟩

/-- The `float` sum `a + b`. -/
def f32_add (a b : binary32) : binary32 := ⟨f32_round_ratio (a.units + b.units) 1⟩

/-- The `float` product `a * b`. -/
def f32_mul (a b : binary32) : binary32 :=
  ⟨f32_round_ratio (a.units * b.units) f32_one⟩

/-- The `float` quotient `a / b` for `b ≠ 0`. -/
def f32_div (a b : binary32) : binary32 :=
  if b.units < 0 then ⟨f32_round_ratio (-(a.units * f32_one)) b.units.natAbs⟩
  else ⟨f32_round_ratio (a.units * f32_one) b.units.natAbs⟩

/-- Conversion `(int16_t)f`: the fractional part is discarded (truncation
toward zero) and the integer is stored in 16 bits.  C leaves the conversion
undefined when the truncated value is outside the `int16_t` range; the
embedding wraps it, as the store of an `int` does. -/
def f32_to_int16 (f : binary32) : Int := wrap16 (Int.tdiv f.units f32_one)

/-- Modelled from the spec: `vector3d_f_t` of `vector_space.h`, a ScaledTriple
of three floating-point values (x, y, z). -/
structure vector3d_f_t where
  x : binary32
  y : binary32
  z : binary32
deriving DecidableEq, Repr

/-! ## Constants -/

/-- The macros of `mpu6050.h` the driver refers to.  The header is not among
the analysed sources, so their values are parameters of the embedding. -/
structure Mpu6050Header where
  MPU6050_DEVICE_ADDRESS : Nat
  MPU6050_PWR_MGMT_1 : Nat
  MPU6050_ACCEL_CONFIG : Nat
  MPU6050_GYRO_CONFIG : Nat
  MPU6050_ACCEL_XOUT_H : Nat
  MPU6050A_4g : binary32
  MPU6050G_2000dps : binary32

/-- The macro `#define MPU6050_ACCEL_SCALE MPU6050A_4g`. -/
def MPU6050_ACCEL_SCALE (c : Mpu6050Header) : binary32 := c.MPU6050A_4g

/-- The macro `#define MPU6050_GYRO_SCALE MPU6050G_2000dps`. -/
def MPU6050_GYRO_SCALE (c : Mpu6050Header) : binary32 := c.MPU6050G_2000dps

/-- The macro `#define CALIBRATE_SAMPLING_COUNT 10000`. -/
def CALIBRATE_SAMPLING_COUNT : Nat := 10000

/-! ## Bus transport and driver state -/

/-- Modelled from the spec: the outcome of a Bus Transport call, `{OK, TIMEOUT}`. -/
inductive I2cStatus where
  | OK
  | I2C_TIMEOUT
deriving DecidableEq, Repr

/-- One scripted bus outcome: the status the call returns and the bytes found
in the caller's buffer when it returns.  For a timed-out read these bytes are
whatever the buffer holds then (its previous, possibly indeterminate, content
or a partial transfer); for a write they are ignored. -/
structure I2cOutcome where
  status : I2cStatus
  buffer : List Nat
deriving DecidableEq, Repr

/-- What the driver does to its environment. -/
inductive Event where
  | i2c_read (device_address register_address data_count : Nat) (status : I2cStatus)
  | i2c_write (device_address register_address data : Nat) (status : I2cStatus)
  | delay_ms (ms : Nat)
deriving DecidableEq, Repr

/-- The state the driver runs in: the bus script, the trace so far, and the
two file-scope offsets `mpu6050_accel_offset`, `mpu6050_gyro_offset`. -/
structure State where
  bus : List I2cOutcome
  trace : List Event
  mpu6050_accel_offset : vector3d_16_t
  mpu6050_gyro_offset : vector3d_16_t
deriving DecidableEq, Repr

/-- Element `i` of a `uint8_t` buffer. -/
def byte (buffer : List Nat) (i : Nat) : Nat := buffer.getD i 0 % 256

/-- Modelled from the spec: Bus Transport
`bus_read(device_address, register_address, buffer, count) -> {OK, TIMEOUT}`
(`i2c_read` of `i2c.c`).  Takes the next scripted outcome, logs the call. -/
def i2c_read (device_address register_address data_count : Nat) (s : State) :
    Option (I2cStatus × List Nat × State) :=
  match s.bus with
  | [] => none
  | o :: rest =>
    some (o.status, o.buffer,
      { s with bus := rest,
               trace := s.trace ++
                 [Event.i2c_read device_address register_address data_count o.status] })

/-- Modelled from the spec: Bus Transport
`bus_write(device_address, register_address, value) -> {OK, TIMEOUT}`
(`i2c_write` of `i2c.c`).  Takes the next scripted outcome, logs the call. -/
def i2c_write (device_address register_address data : Nat) (s : State) :
    Option (I2cStatus × State) :=
  match s.bus with
  | [] => none
  | o :: rest =>
    some (o.status,
      { s with bus := rest,
               trace := s.trace ++
                 [Event.i2c_write device_address register_address data o.status] })

/-- Modelled from the spec: the fixed settling delay (`delay_ms` of `delay.h`);
its only effect here is the trace entry. -/
def delay_ms (ms : Nat) (s : State) : State :=
  { s with trace := s.trace ++ [Event.delay_ms ms] }

/-! ## Register access -/

/-- The loop of `mpu6050_read`: `while(i2c_read(...) == I2C_TIMEOUT);`,
unrolled at most `fuel` times. -/
def mpu6050_read_loop (c : Mpu6050Header) (register_adress data_count : Nat) :
    Nat → State → Option (List Nat × State)
  | 0, _ => none
  | fuel + 1, s =>
    match i2c_read c.MPU6050_DEVICE_ADDRESS register_adress data_count s with
    | none => none
    | some (status, data, s1) =>
      if status = I2cStatus.I2C_TIMEOUT then
        mpu6050_read_loop c register_adress data_count fuel s1
      else some (data, s1)

/-- The function `mpu6050_read(register_adress, data, data_count)`; returns the buffer.
The parameter `register_adress` is a `uint8_t`.  Every iteration consumes one
scripted outcome, so the length of the script bounds the number of iterations
that can be observed. -/
def mpu6050_read (c : Mpu6050Header) (register_adress data_count : Nat) (s : State) :
    Option (List Nat × State) :=
  mpu6050_read_loop c (register_adress % 256) data_count s.bus.length s

/-- The loop of `mpu6050_write`: `while(i2c_write(...) == I2C_TIMEOUT);`,
unrolled at most `fuel` times. -/
def mpu6050_write_loop (c : Mpu6050Header) (register_address data : Nat) :
    Nat → State → Option State
  | 0, _ => none
  | fuel + 1, s =>
    match i2c_write c.MPU6050_DEVICE_ADDRESS register_address data s with
    | none => none
    | some (status, s1) =>
      if status = I2cStatus.I2C_TIMEOUT then
        mpu6050_write_loop c register_address data fuel s1
      else some s1

/-- The function `mpu6050_write(register_address, data)`; both parameters are `uint8_t`. -/
def mpu6050_write (c : Mpu6050Header) (register_address data : Nat) (s : State) :
    Option State :=
  mpu6050_write_loop c (register_address % 256) (data % 256) s.bus.length s

/-! ## Device lifecycle -/

/-- The function `mpu6050_read_who_am_i()`: one `i2c_read` of register `0x75` into the
local `data`, whose status is discarded; returns `data`. -/
def mpu6050_read_who_am_i (c : Mpu6050Header) (s : State) : Option (Nat × State) :=
  match i2c_read c.MPU6050_DEVICE_ADDRESS 0x75 1 s with
  | none => none
  | some (_, data, s1) => some (byte data 0, s1)

/-- The function `mpu6050_reset()`. -/
def mpu6050_reset (c : Mpu6050Header) (s : State) : Option State :=
  match mpu6050_write c c.MPU6050_PWR_MGMT_1 0x80 s with
  | none => none
  | some s1 => some (delay_ms 1000 s1)

/-- The function `mpu6050_wakeup()`. -/
def mpu6050_wakeup (c : Mpu6050Header) (s : State) : Option State :=
  match mpu6050_write c c.MPU6050_PWR_MGMT_1 0x00 s with
  | none => none
  | some s1 => some (delay_ms 1000 s1)

/-! ## Sample acquisition -/

/-- The function `mpu6050_read_unscaled_data(accel_raw_data, gyro_raw_data)`: returns the
two triples written through the pointers. -/
def mpu6050_read_unscaled_data (c : Mpu6050Header) (s : State) :
    Option (vector3d_16_t × vector3d_16_t × State) :=
  match mpu6050_read c c.MPU6050_ACCEL_XOUT_H 14 s with
  | none => none
  | some (buffer, s1) =>
    some (
      { x := wrap16 ((byte buffer 0 <<< 8 ||| byte buffer 1 : Nat) : Int),
        y := wrap16 ((byte buffer 2 <<< 8 ||| byte buffer 3 : Nat) : Int),
        z := wrap16 ((byte buffer 4 <<< 8 ||| byte buffer 5 : Nat) : Int) },
      { x := wrap16 ((byte buffer 8 <<< 8 ||| byte buffer 9 : Nat) : Int),
        y := wrap16 ((byte buffer 10 <<< 8 ||| byte buffer 11 : Nat) : Int),
        z := wrap16 ((byte buffer 12 <<< 8 ||| byte buffer 13 : Nat) : Int) },
      s1)

/-! ## Calibration -/

/-- One `cache += (float)sample / count` statement. -/
def average_step (count : Nat) (cache : binary32) (sample : Int) : binary32 :=
  f32_add cache (f32_div (f32_of_int sample) (f32_of_int count))

/-- The `for` loop of `mpu6050_calibrate`, `remaining` iterations to go, with
the current content of the two caches. -/
def mpu6050_calibrate_loop (c : Mpu6050Header) (count : Nat) :
    Nat → vector3d_f_t → vector3d_f_t → State → Option (vector3d_f_t × vector3d_f_t × State)
  | 0, accel_average_cache, gyro_average_cache, s =>
    some (accel_average_cache, gyro_average_cache, s)
  | remaining + 1, accel_average_cache, gyro_average_cache, s =>
    match mpu6050_read_unscaled_data c s with
    | none => none
    | some (accel_new_sampling_data, gyro_new_sampling_data, s1) =>
      mpu6050_calibrate_loop c count remaining
        { x := average_step count accel_average_cache.x accel_new_sampling_data.x,
          y := average_step count accel_average_cache.y accel_new_sampling_data.y,
          z := average_step count accel_average_cache.z accel_new_sampling_data.z }
        { x := average_step count gyro_average_cache.x gyro_new_sampling_data.x,
          y := average_step count gyro_average_cache.y gyro_new_sampling_data.y,
          z := average_step count gyro_average_cache.z gyro_new_sampling_data.z }
        s1

/-- The body of `mpu6050_calibrate` for a sampling count `count`.  The locals
`accel_average_cache` and `gyro_average_cache` are declared without an
initialiser, so what they hold when the loop starts is indeterminate: it is an
argument. -/
def mpu6050_calibrate_with (c : Mpu6050Header) (count : Nat)
    (accel_average_cache gyro_average_cache : vector3d_f_t) (s : State) : Option State :=
  match mpu6050_calibrate_loop c count count accel_average_cache gyro_average_cache s with
  | none => none
  | some (accel_average, gyro_average, s1) =>
    some { s1 with
      mpu6050_accel_offset :=
        { x := wrap16 (f32_to_int16 accel_average.x - 0),
          y := wrap16 (f32_to_int16 accel_average.y - 0),
          z := wrap16 (f32_to_int16 accel_average.z - 8192) },
      mpu6050_gyro_offset :=
        { x := f32_to_int16 gyro_average.x,
          y := f32_to_int16 gyro_average.y,
          z := f32_to_int16 gyro_average.z } }

/-- The function `mpu6050_calibrate()`. -/
def mpu6050_calibrate (c : Mpu6050Header)
    (accel_average_cache gyro_average_cache : vector3d_f_t) (s : State) : Option State :=
  mpu6050_calibrate_with c CALIBRATE_SAMPLING_COUNT accel_average_cache gyro_average_cache s

/-- The function `mpu6050_init()`; the two caches are the indeterminate initial content of
the locals of the `mpu6050_calibrate` call it makes. -/
def mpu6050_init (c : Mpu6050Header)
    (accel_average_cache gyro_average_cache : vector3d_f_t) (s : State) :
    Option (Int × State) :=
  match mpu6050_read_who_am_i c s with
  | none => none
  | some (who, s1) =>
    if who ≠ 0x68 then some (1, s1)
    else
      match mpu6050_reset c s1 with
      | none => none
      | some s2 =>
        match mpu6050_wakeup c s2 with
        | none => none
        | some s3 =>
          match mpu6050_write c c.MPU6050_ACCEL_CONFIG 0x08 s3 with
          | none => none
          | some s4 =>
            match mpu6050_write c c.MPU6050_GYRO_CONFIG 0x18 s4 with
            | none => none
            | some s5 =>
              match mpu6050_calibrate c accel_average_cache gyro_average_cache
                  (delay_ms 1000 s5) with
              | none => none
              | some s6 => some (0, s6)

/-! ## Correction and scaling -/

/-- The function `mpu6050_fix_bias(accel_unscaled_data, gyro_unscaled_data)`: returns the
two triples as they are after the call, and the state. -/
def mpu6050_fix_bias (accel_unscaled_data gyro_unscaled_data : vector3d_16_t) (s : State) :
    vector3d_16_t × vector3d_16_t × State :=
  ({ x := wrap16 (accel_unscaled_data.x - s.mpu6050_accel_offset.x),
     y := wrap16 (accel_unscaled_data.y - s.mpu6050_accel_offset.y),
     z := wrap16 (accel_unscaled_data.z - s.mpu6050_accel_offset.z) },
   { x := wrap16 (gyro_unscaled_data.x - s.mpu6050_gyro_offset.x),
     y := wrap16 (gyro_unscaled_data.y - s.mpu6050_gyro_offset.y),
     z := wrap16 (gyro_unscaled_data.z - s.mpu6050_gyro_offset.z) },
   s)

/-- The function `mpu6050_accel_convert_to_scale(accel_unscaled_data, accel_scaled_data)`:
returns the content of both pointed-to objects after the call. -/
def mpu6050_accel_convert_to_scale (c : Mpu6050Header)
    (accel_unscaled_data : vector3d_16_t) (_accel_scaled_data : vector3d_f_t) :
    vector3d_16_t × vector3d_f_t :=
  (accel_unscaled_data,
   { x := f32_mul (f32_of_int accel_unscaled_data.x) (MPU6050_ACCEL_SCALE c),
     y := f32_mul (f32_of_int accel_unscaled_data.y) (MPU6050_ACCEL_SCALE c),
     z := f32_mul (f32_of_int accel_unscaled_data.z) (MPU6050_ACCEL_SCALE c) })

/-- The function `mpu6050_gyro_convert_to_scale(gyro_unscaled_data, gyro_scaled_data)`:
returns the content of both pointed-to objects after the call. -/
def mpu6050_gyro_convert_to_scale (c : Mpu6050Header)
    (gyro_unscaled_data : vector3d_16_t) (_gyro_scaled_data : vector3d_f_t) :
    vector3d_16_t × vector3d_f_t :=
  (gyro_unscaled_data,
   { x := f32_mul (f32_of_int gyro_unscaled_data.x) (MPU6050_GYRO_SCALE c),
     y := f32_mul (f32_of_int gyro_unscaled_data.y) (MPU6050_GYRO_SCALE c),
     z := f32_mul (f32_of_int gyro_unscaled_data.z) (MPU6050_GYRO_SCALE c) })

/-! ## Vocabulary of the specification -/

/-- The spec's `(hi<<8)|lo` read as a two's-complement signed 16-bit integer. -/
def s16 (hi lo : Nat) : Int :=
  if (hi <<< 8 ||| lo) < 32768 then ((hi <<< 8 ||| lo : Nat) : Int)
  else ((hi <<< 8 ||| lo : Nat) : Int) - 65536

/-- The 14-byte burst payload with the given bytes. -/
def payload (b : Fin 14 → Fin 256) : List Nat :=
  [(b 0).val, (b 1).val, (b 2).val, (b 3).val, (b 4).val, (b 5).val, (b 6).val,
   (b 7).val, (b 8).val, (b 9).val, (b 10).val, (b 11).val, (b 12).val, (b 13).val]

/-- A bus outcome that is a timeout leaving `buffer` behind. -/
def timeout_outcome (buffer : List Nat) : I2cOutcome := ⟨I2cStatus.I2C_TIMEOUT, buffer⟩

/-- A bus outcome that is a success delivering `buffer`. -/
def ok_outcome (buffer : List Nat) : I2cOutcome := ⟨I2cStatus.OK, buffer⟩

/-- Number of outcomes of a script that are not timeouts. -/
def answered (bus : List I2cOutcome) : Nat :=
  (bus.filter (fun o => decide (o.status ≠ I2cStatus.I2C_TIMEOUT))).length

/-- Whether an event is a bus call that timed out. -/
def Event.timedOut : Event → Bool
  | Event.i2c_read _ _ _ status => decide (status = I2cStatus.I2C_TIMEOUT)
  | Event.i2c_write _ _ _ status => decide (status = I2cStatus.I2C_TIMEOUT)
  | Event.delay_ms _ => false

/-- The trace without the bus calls that timed out. -/
def completed (trace : List Event) : List Event :=
  trace.filter (fun e => !e.timedOut)

/-- The spec's wrapping signed 16-bit difference: `r` is the `int16_t` value
congruent to `a - o` modulo `2^16`. -/
def isWrappedDifference (r a o : Int) : Prop :=
  isInt16 r ∧ (r - (a - o)) % 65536 = 0

/-- A binary32 value in units of `2^-149` is one that rounding leaves unchanged. -/
def f32_representable (k : Int) : Prop := f32_round_ratio k 1 = k

/-- The content of a cache after `n` statements `cache += (float)sample / count`
with the same `sample`. -/
def accumulate (count : Nat) (sample : Int) : Nat → binary32 → binary32
  | 0, cache => cache
  | n + 1, cache => accumulate count sample n (average_step count cache sample)

/-- The accumulation of `accumulate` on the units alone: `n` additions of the
same `term`, each rounded. -/
def accumulate_units (term : Int) : Nat → Int → Int
  | 0, units => units
  | n + 1, units => accumulate_units term n (f32_round_ratio (units + term) 1)

/-- A cache triple holding 0.0 on every axis. -/
def zero_cache : vector3d_f_t := ⟨⟨0⟩, ⟨0⟩, ⟨0⟩⟩

/-- Sample Acquisition is a constant stub: every answered request delivers the
payload `b`. -/
def constant_bus (b : Fin 14 → Fin 256) (bus : List I2cOutcome) : Prop :=
  ∀ o ∈ bus, o.status ≠ I2cStatus.I2C_TIMEOUT → o.buffer = payload b

instance (b : Fin 14 → Fin 256) (bus : List I2cOutcome) : Decidable (constant_bus b bus) := by
  unfold constant_bus; infer_instance

/-- The state at start-up: objects at file scope without an initialiser are
zero-initialised, so both stored offsets are (0, 0, 0); nothing has been done
on the bus yet. -/
def startup_state (bus : List I2cOutcome) : State :=
  ⟨bus, [], ⟨0, 0, 0⟩, ⟨0, 0, 0⟩⟩

/-- High byte of the 16-bit two's-complement representation of `v`. -/
def big_endian_hi (v : Int) : Fin 256 :=
  ⟨(v % 65536).toNat / 256 % 256, Nat.mod_lt _ (by decide)⟩

/-- Low byte of the 16-bit two's-complement representation of `v`. -/
def big_endian_lo (v : Int) : Fin 256 :=
  ⟨(v % 65536).toNat % 256, Nat.mod_lt _ (by decide)⟩

/-- The burst payload that lays the six values out big-endian (high byte then
low byte) at offsets 0-5 and 8-13, with the two temperature bytes at 6-7. -/
def layout (accel gyro : vector3d_16_t) (t6 t7 : Fin 256) (i : Fin 14) : Fin 256 :=
  match i.val with
  | 0 => big_endian_hi accel.x
  | 1 => big_endian_lo accel.x
  | 2 => big_endian_hi accel.y
  | 3 => big_endian_lo accel.y
  | 4 => big_endian_hi accel.z
  | 5 => big_endian_lo accel.z
  | 6 => t6
  | 7 => t7
  | 8 => big_endian_hi gyro.x
  | 9 => big_endian_lo gyro.x
  | 10 => big_endian_hi gyro.y
  | 11 => big_endian_lo gyro.y
  | 12 => big_endian_hi gyro.z
  | _ => big_endian_lo gyro.z

/-- The two triples `mpu6050_read_unscaled_data` writes for a delivered
buffer. -/
def decode_buffer (buffer : List Nat) : vector3d_16_t × vector3d_16_t :=
  ({ x := wrap16 ((byte buffer 0 <<< 8 ||| byte buffer 1 : Nat) : Int),
     y := wrap16 ((byte buffer 2 <<< 8 ||| byte buffer 3 : Nat) : Int),
     z := wrap16 ((byte buffer 4 <<< 8 ||| byte buffer 5 : Nat) : Int) },
   { x := wrap16 ((byte buffer 8 <<< 8 ||| byte buffer 9 : Nat) : Int),
     y := wrap16 ((byte buffer 10 <<< 8 ||| byte buffer 11 : Nat) : Int),
     z := wrap16 ((byte buffer 12 <<< 8 ||| byte buffer 13 : Nat) : Int) })

/-- The run of samples a bus script delivers: the decoded payloads of its
answered requests, in order. -/
def delivered (bus : List I2cOutcome) : List (vector3d_16_t × vector3d_16_t) :=
  (bus.filter (fun o => decide (o.status ≠ I2cStatus.I2C_TIMEOUT))).map
    (fun o => decode_buffer o.buffer)

/-- The content of a cache after one statement `cache += (float)sample / count`
for each sample of a run, in order. -/
def running_sum (count : Nat) (cache : binary32) (samples : List Int) : binary32 :=
  samples.foldl (average_step count) cache

/-- The spec's arithmetic mean of a run of samples. -/
def arithmetic_mean (samples : List Int) : ℚ :=
  (samples.sum : ℚ) / (samples.length : ℚ)

/-- The value `(float)sample / count` that one statement of the loop adds to a
cache, in units of `2^-149`. -/
def average_term (count : Nat) (sample : Int) : Int :=
  (f32_div (f32_of_int sample) (f32_of_int count)).units

/-- The integer part of a `float`, toward zero: the value the conversion
`(int16_t)f` has before it is stored in 16 bits, so that `f32_to_int16 f` is
`wrap16 (f32_trunc f)`. -/
def f32_trunc (f : binary32) : Int := Int.tdiv f.units f32_one

/-- The `float` running mean of a run of samples, as the loop accumulates it
from a cache holding 0.0, with its fractional part discarded. -/
def axis_mean (count : Nat) (samples : List Int) : Int :=
  f32_trunc (running_sum count ⟨0⟩ samples)

/-- The mean magnitude of a run of samples: the arithmetic mean of the absolute
values. -/
def mean_magnitude (samples : List Int) : ℚ :=
  arithmetic_mean (samples.map (fun x => |x|))

/-- The tolerance of a running mean against the spec's arithmetic mean: `m` is
less than `1 + mean_magnitude / 1600` away from the arithmetic mean of the run,
and its magnitude is at most `1601 / 1600` of the mean magnitude; when the mean
magnitude is at most 32746, `m` is an `int16_t` value, which a 16-bit store
leaves unchanged. -/
def near_mean (m : Int) (samples : List Int) : Prop :=
  |(m : ℚ) - arithmetic_mean samples| < 1 + mean_magnitude samples / 1600 ∧
  |(m : ℚ)| ≤ mean_magnitude samples * 1601 / 1600 ∧
  (mean_magnitude samples ≤ 32746 → isInt16 m)

instance (m : Int) (samples : List Int) : Decidable (near_mean m samples) := by
  unfold near_mean; infer_instance

/-- Whether `sample / N` is a binary fraction `p / 2^q` with `N * |p| < 2^24`:
then the term `sample / N` and every partial sum of at most `N` such terms is
a `float`, so that the running sum of a constant sample involves no rounding.
This is the case for `N = 1`, and for `N = 10000` when the sample is a
multiple of 625. -/
def exact_average (N : Nat) (sample : Int) : Prop :=
  ∃ q < 24, (N : Int) ∣ sample * 2 ^ q ∧ |sample| * 2 ^ q < 2 ^ 24

instance (N : Nat) (sample : Int) : Decidable (exact_average N sample) := by
  unfold exact_average; infer_instance

/-- What a calibration of `N` samples on a constant sample guarantees of one
stored offset component, `claimed` being the value the spec names for it and
`sample` the value of the constant sample on that axis.  The stored value is
an `int16_t`; its difference `d` to the claimed value, taken as a 16-bit
two's-complement difference, is less than `1 + |sample| / 1600` counts, and
`sample + d` is at most `1601 / 1600` of the sample in magnitude, so that the
stored value does not overshoot the sample by more than `|sample| / 1600`;
when the claimed value is at least 22 counts inside the `int16_t` range, `d` is
the plain difference; the stored value is the claimed
one (as stored in 16 bits) when the sample is 0 on the axis, when the run has
one sample, when the average involves no rounding, and at the repository's
count when the sample is the gravity reference 8192. -/
def calibrated_axis (N : Nat) (stored claimed sample : Int) : Prop :=
  isInt16 stored ∧
  1600 * |wrap16 (stored - claimed)| < 1600 + |sample| ∧
  1600 * |sample + wrap16 (stored - claimed)| ≤ 1601 * |sample| ∧
  (isInt16 (claimed - 22) ∧ isInt16 (claimed + 22) →
    wrap16 (stored - claimed) = stored - claimed) ∧
  ((sample = 0 ∨ N = 1 ∨ exact_average N sample ∨
      (N = CALIBRATE_SAMPLING_COUNT ∧ sample = 8192)) →
    stored = wrap16 claimed)

instance (N : Nat) (stored claimed sample : Int) :
    Decidable (calibrated_axis N stored claimed sample) := by
  unfold calibrated_axis; infer_instance

/-- What a calibration of `N` samples on a constant sample guarantees of one
component of that sample after the bias correction, `expected` being the
reading the spec names for it.  The residual `r`, corrected less expected, is
less than `1 + |sample| / 1600` counts in magnitude, `sample - r` is at most
`1601 / 1600` of the sample in magnitude, and the corrected value is the
expected one when the sample is 0 on the axis, when the
run has one sample, when the average involves no rounding, and at the
repository's count when the sample is the gravity reference 8192. -/
def corrected_axis (N : Nat) (corrected expected sample : Int) : Prop :=
  1600 * |corrected - expected| < 1600 + |sample| ∧
  1600 * |sample - (corrected - expected)| ≤ 1601 * |sample| ∧
  ((sample = 0 ∨ N = 1 ∨ exact_average N sample ∨
      (N = CALIBRATE_SAMPLING_COUNT ∧ sample = 8192)) →
    corrected = expected)

instance (N : Nat) (corrected expected sample : Int) :
    Decidable (corrected_axis N corrected expected sample) := by
  unfold corrected_axis; infer_instance

/-! ## Integer lemmas -/

theorem wrap16_of_inRange (n : Int) (h : isInt16 n) : wrap16 n = n := by
  unfold isInt16 at h
  unfold wrap16
  omega

theorem wrap16_inRange (n : Int) : isInt16 (wrap16 n) := by
  unfold isInt16 wrap16
  omega

theorem wrap16_eq_s16 (hi lo : Nat) (hhi : hi < 256) (hlo : lo < 256) :
    wrap16 ((hi <<< 8 ||| lo : Nat) : Int) = s16 hi lo := by
  have h1 : hi <<< 8 < 2 ^ 16 := by
    rw [Nat.shiftLeft_eq]
    omega
  have h2 : lo < 2 ^ 16 := by omega
  have h3 : hi <<< 8 ||| lo < 2 ^ 16 := Nat.or_lt_two_pow h1 h2
  unfold s16 wrap16
  split <;> omega

theorem byte_of_lt (buffer : List Nat) (i : Nat) (h : buffer.getD i 0 < 256) :
    byte buffer i = buffer.getD i 0 := by
  unfold byte
  exact Nat.mod_eq_of_lt h

/-! ## Register access lemmas -/

theorem mpu6050_read_loop_retry (c : Mpu6050Header) (reg cnt : Nat) (o : I2cOutcome)
    (ho : o.status ≠ I2cStatus.I2C_TIMEOUT) (rest : List I2cOutcome)
    (ao go : vector3d_16_t) :
    ∀ (ts : List (List Nat)) (fuel : Nat) (tr : List Event), ts.length < fuel →
      mpu6050_read_loop c reg cnt fuel ⟨ts.map timeout_outcome ++ o :: rest, tr, ao, go⟩ =
        some (o.buffer,
          ⟨rest,
           tr ++ List.replicate ts.length
               (Event.i2c_read c.MPU6050_DEVICE_ADDRESS reg cnt I2cStatus.I2C_TIMEOUT) ++
             [Event.i2c_read c.MPU6050_DEVICE_ADDRESS reg cnt o.status], ao, go⟩) := by
  intro ts
  induction ts with
  | nil =>
    intro fuel tr hf
    cases fuel with
    | zero => simp at hf
    | succ f => simp [mpu6050_read_loop, i2c_read, ho]
  | cons t ts ih =>
    intro fuel tr hf
    cases fuel with
    | zero => simp at hf
    | succ f =>
      have hf2 : ts.length < f := by simpa using hf
      simp only [mpu6050_read_loop, i2c_read, List.map_cons, List.cons_append, timeout_outcome,
        if_true]
      have := ih f (tr ++ [Event.i2c_read c.MPU6050_DEVICE_ADDRESS reg cnt
        I2cStatus.I2C_TIMEOUT]) hf2
      simp only [timeout_outcome] at this
      rw [this]
      simp [List.replicate_succ, List.append_assoc]

theorem mpu6050_write_loop_retry (c : Mpu6050Header) (reg data : Nat) (o : I2cOutcome)
    (ho : o.status ≠ I2cStatus.I2C_TIMEOUT) (rest : List I2cOutcome)
    (ao go : vector3d_16_t) :
    ∀ (ts : List (List Nat)) (fuel : Nat) (tr : List Event), ts.length < fuel →
      mpu6050_write_loop c reg data fuel ⟨ts.map timeout_outcome ++ o :: rest, tr, ao, go⟩ =
        some
          ⟨rest,
           tr ++ List.replicate ts.length
               (Event.i2c_write c.MPU6050_DEVICE_ADDRESS reg data I2cStatus.I2C_TIMEOUT) ++
             [Event.i2c_write c.MPU6050_DEVICE_ADDRESS reg data o.status], ao, go⟩ := by
  intro ts
  induction ts with
  | nil =>
    intro fuel tr hf
    cases fuel with
    | zero => simp at hf
    | succ f => simp [mpu6050_write_loop, i2c_write, ho]
  | cons t ts ih =>
    intro fuel tr hf
    cases fuel with
    | zero => simp at hf
    | succ f =>
      have hf2 : ts.length < f := by simpa using hf
      simp only [mpu6050_write_loop, i2c_write, List.map_cons, List.cons_append,
        timeout_outcome, if_true]
      have := ih f (tr ++ [Event.i2c_write c.MPU6050_DEVICE_ADDRESS reg data
        I2cStatus.I2C_TIMEOUT]) hf2
      simp only [timeout_outcome] at this
      rw [this]
      simp [List.replicate_succ, List.append_assoc]

theorem mpu6050_read_loop_all_timeouts (c : Mpu6050Header) (reg cnt : Nat)
    (ao go : vector3d_16_t) :
    ∀ (ts : List (List Nat)) (fuel : Nat) (tr : List Event),
      mpu6050_read_loop c reg cnt fuel ⟨ts.map timeout_outcome, tr, ao, go⟩ = none := by
  intro ts
  induction ts with
  | nil =>
    intro fuel tr
    cases fuel <;> simp [mpu6050_read_loop, i2c_read]
  | cons t ts ih =>
    intro fuel tr
    cases fuel with
    | zero => simp [mpu6050_read_loop]
    | succ f =>
      simp only [mpu6050_read_loop, i2c_read, List.map_cons, timeout_outcome, if_true]
      have := ih f (tr ++ [Event.i2c_read c.MPU6050_DEVICE_ADDRESS reg cnt
        I2cStatus.I2C_TIMEOUT])
      simp only [timeout_outcome] at this
      exact this

theorem mpu6050_write_loop_all_timeouts (c : Mpu6050Header) (reg data : Nat)
    (ao go : vector3d_16_t) :
    ∀ (ts : List (List Nat)) (fuel : Nat) (tr : List Event),
      mpu6050_write_loop c reg data fuel ⟨ts.map timeout_outcome, tr, ao, go⟩ = none := by
  intro ts
  induction ts with
  | nil =>
    intro fuel tr
    cases fuel <;> simp [mpu6050_write_loop, i2c_write]
  | cons t ts ih =>
    intro fuel tr
    cases fuel with
    | zero => simp [mpu6050_write_loop]
    | succ f =>
      simp only [mpu6050_write_loop, i2c_write, List.map_cons, timeout_outcome, if_true]
      have := ih f (tr ++ [Event.i2c_write c.MPU6050_DEVICE_ADDRESS reg data
        I2cStatus.I2C_TIMEOUT])
      simp only [timeout_outcome] at this
      exact this

theorem mpu6050_read_retry (c : Mpu6050Header) (reg cnt : Nat) (ts : List (List Nat))
    (data : List Nat) (rest : List I2cOutcome) (tr : List Event) (ao go : vector3d_16_t) :
    mpu6050_read c reg cnt ⟨ts.map timeout_outcome ++ ok_outcome data :: rest, tr, ao, go⟩ =
      some (data,
        ⟨rest,
         tr ++ List.replicate ts.length
             (Event.i2c_read c.MPU6050_DEVICE_ADDRESS (reg % 256) cnt I2cStatus.I2C_TIMEOUT) ++
           [Event.i2c_read c.MPU6050_DEVICE_ADDRESS (reg % 256) cnt I2cStatus.OK], ao, go⟩) := by
  unfold mpu6050_read
  have h := mpu6050_read_loop_retry c (reg % 256) cnt (ok_outcome data) (by simp [ok_outcome]) rest ao go
    ts (ts.map timeout_outcome ++ ok_outcome data :: rest).length tr (by simp)
  simpa [ok_outcome] using h

theorem mpu6050_write_retry (c : Mpu6050Header) (reg v : Nat) (ts : List (List Nat))
    (data : List Nat) (rest : List I2cOutcome) (tr : List Event) (ao go : vector3d_16_t) :
    mpu6050_write c reg v ⟨ts.map timeout_outcome ++ ok_outcome data :: rest, tr, ao, go⟩ =
      some
        ⟨rest,
         tr ++ List.replicate ts.length
             (Event.i2c_write c.MPU6050_DEVICE_ADDRESS (reg % 256) (v % 256) I2cStatus.I2C_TIMEOUT) ++
           [Event.i2c_write c.MPU6050_DEVICE_ADDRESS (reg % 256) (v % 256) I2cStatus.OK], ao, go⟩ := by
  unfold mpu6050_write
  have h := mpu6050_write_loop_retry c (reg % 256) (v % 256) (ok_outcome data) (by simp [ok_outcome]) rest ao go
    ts (ts.map timeout_outcome ++ ok_outcome data :: rest).length tr (by simp)
  simpa [ok_outcome] using h

/-! ## Sample acquisition: the burst decode -/

theorem mpu6050_read_unscaled_data_eq (c : Mpu6050Header) (b : Fin 14 → Fin 256)
    (ts : List (List Nat)) (rest : List I2cOutcome) (tr : List Event)
    (ao go : vector3d_16_t) :
    mpu6050_read_unscaled_data c
        ⟨ts.map timeout_outcome ++ ok_outcome (payload b) :: rest, tr, ao, go⟩ =
      some (⟨s16 (b 0) (b 1), s16 (b 2) (b 3), s16 (b 4) (b 5)⟩,
        ⟨s16 (b 8) (b 9), s16 (b 10) (b 11), s16 (b 12) (b 13)⟩,
        ⟨rest,
         tr ++ List.replicate ts.length
             (Event.i2c_read c.MPU6050_DEVICE_ADDRESS (c.MPU6050_ACCEL_XOUT_H % 256) 14
               I2cStatus.I2C_TIMEOUT) ++
           [Event.i2c_read c.MPU6050_DEVICE_ADDRESS (c.MPU6050_ACCEL_XOUT_H % 256) 14 I2cStatus.OK],
         ao, go⟩) := by
  have hb : ∀ i : Nat, ∀ h : i < 14, byte (payload b) i = (b ⟨i, h⟩).val := by
    intro i h
    have hlt : ∀ j : Fin 14, (b j).val < 256 := fun j => (b j).isLt
    interval_cases i <;> exact byte_of_lt _ _ (hlt _)
  unfold mpu6050_read_unscaled_data
  rw [mpu6050_read_retry]
  simp only [hb 0 (by decide), hb 1 (by decide), hb 2 (by decide), hb 3 (by decide),
    hb 4 (by decide), hb 5 (by decide), hb 8 (by decide), hb 9 (by decide),
    hb 10 (by decide), hb 11 (by decide), hb 12 (by decide), hb 13 (by decide)]
  simp only [wrap16_eq_s16 _ _ (b _).isLt (b _).isLt]
  rfl

/-- C1: for every 14-byte burst payload `b` (delivered after any number of
timed-out attempts), `mpu6050_read_unscaled_data` returns
accel = (s16(b0,b1), s16(b2,b3), s16(b4,b5)) and
gyro = (s16(b8,b9), s16(b10,b11), s16(b12,b13)); and two payloads that differ
only at offsets 6 and 7 decode to the same pair of triples. -/
theorem C1_read_unscaled_data_decodes_big_endian (c : Mpu6050Header) (b : Fin 14 → Fin 256)
    (ts : List (List Nat)) (rest : List I2cOutcome) (tr : List Event)
    (ao go : vector3d_16_t) :
    (mpu6050_read_unscaled_data c
        ⟨ts.map timeout_outcome ++ ok_outcome (payload b) :: rest, tr, ao, go⟩).map
        (fun r => (r.1, r.2.1)) =
      some (⟨s16 (b 0) (b 1), s16 (b 2) (b 3), s16 (b 4) (b 5)⟩,
        ⟨s16 (b 8) (b 9), s16 (b 10) (b 11), s16 (b 12) (b 13)⟩) ∧
    ∀ b2 : Fin 14 → Fin 256, (∀ i : Fin 14, i ≠ 6 → i ≠ 7 → b2 i = b i) →
      (mpu6050_read_unscaled_data c
          ⟨ts.map timeout_outcome ++ ok_outcome (payload b2) :: rest, tr, ao, go⟩).map
          (fun r => (r.1, r.2.1)) =
        (mpu6050_read_unscaled_data c
          ⟨ts.map timeout_outcome ++ ok_outcome (payload b) :: rest, tr, ao, go⟩).map
          (fun r => (r.1, r.2.1)) := by
  refine ⟨?_, ?_⟩
  · rw [mpu6050_read_unscaled_data_eq]
    rfl
  · intro b2 h
    rw [mpu6050_read_unscaled_data_eq, mpu6050_read_unscaled_data_eq]
    simp only [Option.map_some, h 0 (by decide) (by decide), h 1 (by decide) (by decide),
      h 2 (by decide) (by decide), h 3 (by decide) (by decide), h 4 (by decide) (by decide),
      h 5 (by decide) (by decide), h 8 (by decide) (by decide), h 9 (by decide) (by decide),
      h 10 (by decide) (by decide), h 11 (by decide) (by decide),
      h 12 (by decide) (by decide), h 13 (by decide) (by decide)]

/-- Witness of C1: the payload 0x12 0x34 ... with temperature bytes 0xAA 0xBB
against the same payload with temperature bytes 0. -/
theorem C1_read_unscaled_data_decodes_big_endian_witness :
    (mpu6050_read_unscaled_data ⟨0xD0, 0x6B, 0x1C, 0x1B, 0x3B, ⟨0⟩, ⟨0⟩⟩
        ⟨[ok_outcome (payload (fun i => if i = 6 then 0xAA else if i = 7 then 0xBB
            else if i = 0 then 0x12 else 0x34))], [], ⟨0, 0, 0⟩, ⟨0, 0, 0⟩⟩).map
        (fun r => (r.1, r.2.1)) =
      (mpu6050_read_unscaled_data ⟨0xD0, 0x6B, 0x1C, 0x1B, 0x3B, ⟨0⟩, ⟨0⟩⟩
        ⟨[ok_outcome (payload (fun i => if i = 0 then 0x12 else if i = 6 then 0
            else if i = 7 then 0 else 0x34))], [], ⟨0, 0, 0⟩, ⟨0, 0, 0⟩⟩).map
        (fun r => (r.1, r.2.1)) :=
  (C1_read_unscaled_data_decodes_big_endian ⟨0xD0, 0x6B, 0x1C, 0x1B, 0x3B, ⟨0⟩, ⟨0⟩⟩
    (fun i => if i = 0 then 0x12 else if i = 6 then 0 else if i = 7 then 0 else 0x34)
    [] [] [] ⟨0, 0, 0⟩ ⟨0, 0, 0⟩).2
    (fun i => if i = 6 then 0xAA else if i = 7 then 0xBB else if i = 0 then 0x12 else 0x34)
    (by decide)

/-! ## Bias correction -/

theorem wrap16_isWrappedDifference (a o : Int) : isWrappedDifference (wrap16 (a - o)) a o := by
  unfold isWrappedDifference isInt16 wrap16
  omega

/-- C2: `mpu6050_fix_bias` replaces each accelerometer component by the
wrapping signed 16-bit difference (component - accelerometer offset
component), each gyroscope component by (component - gyroscope offset
component), and leaves the state, hence both stored offsets, unchanged. -/
theorem C2_fix_bias_subtracts_offsets (a g : vector3d_16_t) (s : State) :
    isWrappedDifference (mpu6050_fix_bias a g s).1.x a.x s.mpu6050_accel_offset.x ∧
    isWrappedDifference (mpu6050_fix_bias a g s).1.y a.y s.mpu6050_accel_offset.y ∧
    isWrappedDifference (mpu6050_fix_bias a g s).1.z a.z s.mpu6050_accel_offset.z ∧
    isWrappedDifference (mpu6050_fix_bias a g s).2.1.x g.x s.mpu6050_gyro_offset.x ∧
    isWrappedDifference (mpu6050_fix_bias a g s).2.1.y g.y s.mpu6050_gyro_offset.y ∧
    isWrappedDifference (mpu6050_fix_bias a g s).2.1.z g.z s.mpu6050_gyro_offset.z ∧
    (mpu6050_fix_bias a g s).2.2.mpu6050_accel_offset = s.mpu6050_accel_offset ∧
    (mpu6050_fix_bias a g s).2.2.mpu6050_gyro_offset = s.mpu6050_gyro_offset ∧
    (mpu6050_fix_bias a g s).2.2 = s := by
  refine ⟨?_, ?_, ?_, ?_, ?_, ?_, rfl, rfl, rfl⟩ <;>
    exact wrap16_isWrappedDifference _ _

theorem wrap16_twice (a o : Int) : wrap16 (wrap16 (a - o) - o) = wrap16 (a - 2 * o) := by
  unfold wrap16
  omega

theorem wrap16_twice_eq_once_iff (a o : Int) (ho : isInt16 o) :
    wrap16 (wrap16 (a - o) - o) = wrap16 (a - o) ↔ o = 0 := by
  unfold isInt16 at ho
  unfold wrap16
  omega

/-- C10: `mpu6050_fix_bias` is not idempotent.  With stored offsets that are
`int16_t` values, applying it twice yields on each component the wrapping
signed 16-bit value of raw - 2 * offset, and this equals the result of a
single application on that component if and only if that offset component
is 0. -/
theorem C10_fix_bias_twice_double_subtracts (a g : vector3d_16_t) (s : State)
    (hao : s.mpu6050_accel_offset.inRange) (hgo : s.mpu6050_gyro_offset.inRange) :
    let once := mpu6050_fix_bias a g s
    let twice := mpu6050_fix_bias once.1 once.2.1 once.2.2
    (twice.1.x = wrap16 (a.x - 2 * s.mpu6050_accel_offset.x) ∧
     twice.1.y = wrap16 (a.y - 2 * s.mpu6050_accel_offset.y) ∧
     twice.1.z = wrap16 (a.z - 2 * s.mpu6050_accel_offset.z) ∧
     twice.2.1.x = wrap16 (g.x - 2 * s.mpu6050_gyro_offset.x) ∧
     twice.2.1.y = wrap16 (g.y - 2 * s.mpu6050_gyro_offset.y) ∧
     twice.2.1.z = wrap16 (g.z - 2 * s.mpu6050_gyro_offset.z)) ∧
    ((twice.1.x = once.1.x ↔ s.mpu6050_accel_offset.x = 0) ∧
     (twice.1.y = once.1.y ↔ s.mpu6050_accel_offset.y = 0) ∧
     (twice.1.z = once.1.z ↔ s.mpu6050_accel_offset.z = 0) ∧
     (twice.2.1.x = once.2.1.x ↔ s.mpu6050_gyro_offset.x = 0) ∧
     (twice.2.1.y = once.2.1.y ↔ s.mpu6050_gyro_offset.y = 0) ∧
     (twice.2.1.z = once.2.1.z ↔ s.mpu6050_gyro_offset.z = 0)) := by
  obtain ⟨hax, hay, haz⟩ := hao
  obtain ⟨hgx, hgy, hgz⟩ := hgo
  refine ⟨⟨?_, ?_, ?_, ?_, ?_, ?_⟩, ⟨?_, ?_, ?_, ?_, ?_, ?_⟩⟩
  · exact wrap16_twice _ _
  · exact wrap16_twice _ _
  · exact wrap16_twice _ _
  · exact wrap16_twice _ _
  · exact wrap16_twice _ _
  · exact wrap16_twice _ _
  · exact wrap16_twice_eq_once_iff _ _ hax
  · exact wrap16_twice_eq_once_iff _ _ hay
  · exact wrap16_twice_eq_once_iff _ _ haz
  · exact wrap16_twice_eq_once_iff _ _ hgx
  · exact wrap16_twice_eq_once_iff _ _ hgy
  · exact wrap16_twice_eq_once_iff _ _ hgz

/-- Witness of C10: raw accel (100, -200, 300), raw gyro (5, 0, -5), stored
offsets (10, 0, -8192) and (1, 0, 32767). -/
theorem C10_fix_bias_twice_double_subtracts_witness :
    (⟨10, 0, -8192⟩ : vector3d_16_t).inRange ∧ (⟨1, 0, 32767⟩ : vector3d_16_t).inRange ∧
    (let once := mpu6050_fix_bias ⟨100, -200, 300⟩ ⟨5, 0, -5⟩
        ⟨[], [], ⟨10, 0, -8192⟩, ⟨1, 0, 32767⟩⟩
     let twice := mpu6050_fix_bias once.1 once.2.1 once.2.2
     (twice.1.x = wrap16 (100 - 2 * 10) ∧
      twice.1.y = wrap16 (-200 - 2 * 0) ∧
      twice.1.z = wrap16 (300 - 2 * (-8192)) ∧
      twice.2.1.x = wrap16 (5 - 2 * 1) ∧
      twice.2.1.y = wrap16 (0 - 2 * 0) ∧
      twice.2.1.z = wrap16 (-5 - 2 * 32767)) ∧
     ((twice.1.x = once.1.x ↔ (10 : Int) = 0) ∧
      (twice.1.y = once.1.y ↔ (0 : Int) = 0) ∧
      (twice.1.z = once.1.z ↔ (-8192 : Int) = 0) ∧
      (twice.2.1.x = once.2.1.x ↔ (1 : Int) = 0) ∧
      (twice.2.1.y = once.2.1.y ↔ (0 : Int) = 0) ∧
      (twice.2.1.z = once.2.1.z ↔ (32767 : Int) = 0))) :=
  ⟨by decide, by decide,
    C10_fix_bias_twice_double_subtracts ⟨100, -200, 300⟩ ⟨5, 0, -5⟩
      ⟨[], [], ⟨10, 0, -8192⟩, ⟨1, 0, 32767⟩⟩ (by decide) (by decide)⟩

/-! ## Register access: the retry policy -/

/-- C7: when the bus answers a request with `k` timeouts and then a
non-timeout outcome, `mpu6050_read` (and likewise `mpu6050_write`) issues
exactly `k + 1` requests, all with the same device address, register address
and count (or value), and returns right after the first non-timeout outcome,
leaving the rest of the script untouched; on a script of timeouts only it does
not return. -/
theorem C7_register_access_retries_until_answered (c : Mpu6050Header)
    (register_address data_count value : Nat) (timeouts : List (List Nat))
    (data : List Nat) (rest : List I2cOutcome) (tr : List Event) (ao go : vector3d_16_t) :
    mpu6050_read c register_address data_count
        ⟨timeouts.map timeout_outcome ++ ok_outcome data :: rest, tr, ao, go⟩ =
      some (data,
        ⟨rest,
         tr ++ List.replicate timeouts.length
             (Event.i2c_read c.MPU6050_DEVICE_ADDRESS (register_address % 256) data_count
               I2cStatus.I2C_TIMEOUT) ++
           [Event.i2c_read c.MPU6050_DEVICE_ADDRESS (register_address % 256) data_count I2cStatus.OK],
         ao, go⟩) ∧
    mpu6050_write c register_address value
        ⟨timeouts.map timeout_outcome ++ ok_outcome data :: rest, tr, ao, go⟩ =
      some
        ⟨rest,
         tr ++ List.replicate timeouts.length
             (Event.i2c_write c.MPU6050_DEVICE_ADDRESS (register_address % 256) (value % 256)
               I2cStatus.I2C_TIMEOUT) ++
           [Event.i2c_write c.MPU6050_DEVICE_ADDRESS (register_address % 256) (value % 256) I2cStatus.OK],
         ao, go⟩ ∧
    (List.replicate timeouts.length
        (Event.i2c_read c.MPU6050_DEVICE_ADDRESS (register_address % 256) data_count
          I2cStatus.I2C_TIMEOUT) ++
      [Event.i2c_read c.MPU6050_DEVICE_ADDRESS (register_address % 256) data_count
        I2cStatus.OK]).length = timeouts.length + 1 ∧
    mpu6050_read c register_address data_count
        ⟨timeouts.map timeout_outcome, tr, ao, go⟩ = none ∧
    mpu6050_write c register_address value
        ⟨timeouts.map timeout_outcome, tr, ao, go⟩ = none := by
  refine ⟨mpu6050_read_retry _ _ _ _ _ _ _ _ _, mpu6050_write_retry _ _ _ _ _ _ _ _ _, ?_,
    ?_, ?_⟩
  · simp
  · exact mpu6050_read_loop_all_timeouts _ _ _ _ _ _ _ _
  · exact mpu6050_write_loop_all_timeouts _ _ _ _ _ _ _ _

/-! ## Scripts in which the bus answers -/

theorem answered_cons_ok (data : List Nat) (bus : List I2cOutcome) :
    answered (ok_outcome data :: bus) = answered bus + 1 := by
  simp [answered, ok_outcome]

theorem answered_cons_timeout (data : List Nat) (bus : List I2cOutcome) :
    answered (timeout_outcome data :: bus) = answered bus := by
  simp [answered, timeout_outcome]

theorem answered_replicate_ok (data : List Nat) (n : Nat) :
    answered (List.replicate n (ok_outcome data)) = n := by
  induction n with
  | zero => simp [answered]
  | succ n ih => rw [List.replicate_succ, answered_cons_ok, ih]

theorem answered_split (bus : List I2cOutcome) (h : 1 ≤ answered bus) :
    ∃ (ts : List (List Nat)) (data : List Nat) (rest : List I2cOutcome),
      bus = ts.map timeout_outcome ++ ok_outcome data :: rest ∧
      answered bus = answered rest + 1 := by
  induction bus with
  | nil => simp [answered] at h
  | cons o bus ih =>
    obtain ⟨status, buffer⟩ := o
    cases status with
    | OK =>
      exact ⟨[], buffer, bus, by simp [ok_outcome], answered_cons_ok buffer bus⟩
    | I2C_TIMEOUT =>
      have h2 : 1 ≤ answered bus := by
        have := answered_cons_timeout buffer bus
        simp only [timeout_outcome] at this
        omega
      obtain ⟨ts, data, rest, hbus, hcount⟩ := ih h2
      refine ⟨buffer :: ts, data, rest, ?_, ?_⟩
      · simp [hbus, timeout_outcome]
      · have := answered_cons_timeout buffer bus
        simp only [timeout_outcome] at this
        omega

theorem completed_append (tr1 tr2 : List Event) :
    completed (tr1 ++ tr2) = completed tr1 ++ completed tr2 := by
  simp [completed]

theorem completed_replicate_timedOut (e : Event) (h : e.timedOut = true) (k : Nat) :
    completed (List.replicate k e) = [] := by
  induction k with
  | zero => rfl
  | succ k ih =>
    rw [List.replicate_succ]
    have : completed (e :: List.replicate k e) = completed (List.replicate k e) := by
      simp [completed, h]
    rw [this, ih]

theorem completed_retry (tr : List Event) (k : Nat) (e1 e2 : Event)
    (h1 : e1.timedOut = true) (h2 : e2.timedOut = false) :
    completed (tr ++ List.replicate k e1 ++ [e2]) = completed tr ++ [e2] := by
  rw [completed_append, completed_append, completed_replicate_timedOut e1 h1]
  simp [completed, h2]

theorem mpu6050_write_answered (c : Mpu6050Header) (reg v : Nat) (s : State)
    (h : 1 ≤ answered s.bus) :
    ∃ s1, mpu6050_write c reg v s = some s1 ∧
      answered s.bus = answered s1.bus + 1 ∧
      completed s1.trace = completed s.trace ++
        [Event.i2c_write c.MPU6050_DEVICE_ADDRESS (reg % 256) (v % 256) I2cStatus.OK] ∧
      s1.mpu6050_accel_offset = s.mpu6050_accel_offset ∧
      s1.mpu6050_gyro_offset = s.mpu6050_gyro_offset := by
  obtain ⟨bus, tr, ao, go⟩ := s
  obtain ⟨ts, data, rest, hbus, hcount⟩ := answered_split bus h
  subst hbus
  refine ⟨_, mpu6050_write_retry c reg v ts data rest tr ao go, hcount, ?_, rfl, rfl⟩
  exact completed_retry tr _ _ _ rfl rfl

theorem mpu6050_read_unscaled_data_answered (c : Mpu6050Header) (s : State)
    (h : 1 ≤ answered s.bus) :
    ∃ a g s1, mpu6050_read_unscaled_data c s = some (a, g, s1) ∧
      answered s.bus = answered s1.bus + 1 ∧
      completed s1.trace = completed s.trace ++
        [Event.i2c_read c.MPU6050_DEVICE_ADDRESS (c.MPU6050_ACCEL_XOUT_H % 256) 14 I2cStatus.OK] ∧
      s1.mpu6050_accel_offset = s.mpu6050_accel_offset ∧
      s1.mpu6050_gyro_offset = s.mpu6050_gyro_offset := by
  obtain ⟨bus, tr, ao, go⟩ := s
  obtain ⟨ts, data, rest, hbus, hcount⟩ := answered_split bus h
  subst hbus
  unfold mpu6050_read_unscaled_data
  rw [mpu6050_read_retry]
  exact ⟨_, _, _, rfl, hcount, completed_retry tr _ _ _ rfl rfl, rfl, rfl⟩

theorem mpu6050_calibrate_loop_answered (c : Mpu6050Header) (count : Nat) :
    ∀ (n : Nat) (accel_cache gyro_cache : vector3d_f_t) (s : State), n ≤ answered s.bus →
      ∃ accel_average gyro_average s1,
        mpu6050_calibrate_loop c count n accel_cache gyro_cache s =
          some (accel_average, gyro_average, s1) ∧
        answered s.bus = answered s1.bus + n ∧
        completed s1.trace = completed s.trace ++ List.replicate n
          (Event.i2c_read c.MPU6050_DEVICE_ADDRESS (c.MPU6050_ACCEL_XOUT_H % 256) 14 I2cStatus.OK) ∧
        s1.mpu6050_accel_offset = s.mpu6050_accel_offset ∧
        s1.mpu6050_gyro_offset = s.mpu6050_gyro_offset := by
  intro n
  induction n with
  | zero =>
    intro accel_cache gyro_cache s _
    exact ⟨accel_cache, gyro_cache, s, rfl, rfl, by simp, rfl, rfl⟩
  | succ n ih =>
    intro accel_cache gyro_cache s h
    obtain ⟨a, g, s1, hread, hcount, htrace, hao, hgo⟩ :=
      mpu6050_read_unscaled_data_answered c s (by omega)
    obtain ⟨A, G, s2, hloop, hcount2, htrace2, hao2, hgo2⟩ := ih
      { x := average_step count accel_cache.x a.x,
        y := average_step count accel_cache.y a.y,
        z := average_step count accel_cache.z a.z }
      { x := average_step count gyro_cache.x g.x,
        y := average_step count gyro_cache.y g.y,
        z := average_step count gyro_cache.z g.z }
      s1 (by omega)
    refine ⟨A, G, s2, ?_, by omega, ?_, hao2.trans hao, hgo2.trans hgo⟩
    · simp only [mpu6050_calibrate_loop, hread]
      exact hloop
    · rw [htrace2, htrace, List.replicate_succ, List.append_assoc]
      rfl

theorem mpu6050_calibrate_answered (c : Mpu6050Header)
    (accel_cache gyro_cache : vector3d_f_t) (s : State)
    (h : CALIBRATE_SAMPLING_COUNT ≤ answered s.bus) :
    ∃ s1, mpu6050_calibrate c accel_cache gyro_cache s = some s1 ∧
      completed s1.trace = completed s.trace ++ List.replicate CALIBRATE_SAMPLING_COUNT
        (Event.i2c_read c.MPU6050_DEVICE_ADDRESS (c.MPU6050_ACCEL_XOUT_H % 256) 14 I2cStatus.OK) := by
  obtain ⟨A, G, s1, hloop, _, htrace, _, _⟩ :=
    mpu6050_calibrate_loop_answered c CALIBRATE_SAMPLING_COUNT CALIBRATE_SAMPLING_COUNT
      accel_cache gyro_cache s h
  simp only [mpu6050_calibrate, mpu6050_calibrate_with, hloop]
  exact ⟨_, rfl, htrace⟩

/-! ## Device lifecycle -/

theorem mpu6050_read_who_am_i_eq (c : Mpu6050Header) (s : State) (who : Nat) (s1 : State)
    (h : mpu6050_read_who_am_i c s = some (who, s1)) :
    ∃ o rest, s.bus = o :: rest ∧ who = byte o.buffer 0 ∧
      s1 = { s with bus := rest,
                    trace := s.trace ++
                      [Event.i2c_read c.MPU6050_DEVICE_ADDRESS 0x75 1 o.status] } := by
  obtain ⟨bus, tr, ao, go⟩ := s
  cases bus with
  | nil => simp [mpu6050_read_who_am_i, i2c_read] at h
  | cons o rest =>
    simp only [mpu6050_read_who_am_i, i2c_read, Option.some.injEq, Prod.mk.injEq] at h
    exact ⟨o, rest, rfl, h.1.symm, h.2.symm⟩

theorem mpu6050_init_mismatch (c : Mpu6050Header) (a g : vector3d_f_t) (s : State)
    (who : Nat) (s1 : State) (hid : mpu6050_read_who_am_i c s = some (who, s1))
    (hwho : who ≠ 0x68) : mpu6050_init c a g s = some (1, s1) := by
  simp [mpu6050_init, hid, hwho]

theorem mpu6050_init_proceeds (c : Mpu6050Header) (a g : vector3d_f_t) (s : State)
    (who : Nat) (s1 : State) (hid : mpu6050_read_who_am_i c s = some (who, s1))
    (hwho : who = 0x68) (hbus : 4 + CALIBRATE_SAMPLING_COUNT ≤ answered s1.bus) :
    ∃ s5 s6,
      completed s5.trace = completed s1.trace ++
        [Event.i2c_write c.MPU6050_DEVICE_ADDRESS (c.MPU6050_PWR_MGMT_1 % 256) 0x80 I2cStatus.OK,
         Event.delay_ms 1000,
         Event.i2c_write c.MPU6050_DEVICE_ADDRESS (c.MPU6050_PWR_MGMT_1 % 256) 0x00 I2cStatus.OK,
         Event.delay_ms 1000,
         Event.i2c_write c.MPU6050_DEVICE_ADDRESS (c.MPU6050_ACCEL_CONFIG % 256) 0x08 I2cStatus.OK,
         Event.i2c_write c.MPU6050_DEVICE_ADDRESS (c.MPU6050_GYRO_CONFIG % 256) 0x18 I2cStatus.OK,
         Event.delay_ms 1000] ∧
      s5.mpu6050_accel_offset = s1.mpu6050_accel_offset ∧
      s5.mpu6050_gyro_offset = s1.mpu6050_gyro_offset ∧
      mpu6050_calibrate c a g s5 = some s6 ∧
      completed s6.trace = completed s5.trace ++ List.replicate CALIBRATE_SAMPLING_COUNT
        (Event.i2c_read c.MPU6050_DEVICE_ADDRESS (c.MPU6050_ACCEL_XOUT_H % 256) 14 I2cStatus.OK) ∧
      mpu6050_init c a g s = some (0, s6) := by
  obtain ⟨t1, hw1, hc1, ht1, hao1, hgo1⟩ :=
    mpu6050_write_answered c c.MPU6050_PWR_MGMT_1 0x80 s1 (by omega)
  have hc1d : answered (delay_ms 1000 t1).bus = answered t1.bus := rfl
  obtain ⟨t2, hw2, hc2, ht2, hao2, hgo2⟩ :=
    mpu6050_write_answered c c.MPU6050_PWR_MGMT_1 0x00 (delay_ms 1000 t1) (by omega)
  have hc2d : answered (delay_ms 1000 t2).bus = answered t2.bus := rfl
  obtain ⟨t3, hw3, hc3, ht3, hao3, hgo3⟩ :=
    mpu6050_write_answered c c.MPU6050_ACCEL_CONFIG 0x08 (delay_ms 1000 t2) (by omega)
  obtain ⟨t4, hw4, hc4, ht4, hao4, hgo4⟩ :=
    mpu6050_write_answered c c.MPU6050_GYRO_CONFIG 0x18 t3 (by omega)
  have hc4d : answered (delay_ms 1000 t4).bus = answered t4.bus := rfl
  obtain ⟨s6, hcal, htr6⟩ := mpu6050_calibrate_answered c a g (delay_ms 1000 t4) (by omega)
  have hdelay : ∀ t : State, completed (delay_ms 1000 t).trace =
      completed t.trace ++ [Event.delay_ms 1000] := by
    intro t
    simp [delay_ms, completed, Event.timedOut]
  refine ⟨delay_ms 1000 t4, s6, ?_, ?_, ?_, hcal, htr6, ?_⟩
  · rw [hdelay, ht4, ht3, hdelay, ht2, hdelay, ht1]
    simp
  · exact hao4.trans (hao3.trans (hao2.trans hao1))
  · exact hgo4.trans (hgo3.trans (hgo2.trans hgo1))
  · simp [mpu6050_init, hid, hwho, mpu6050_reset, mpu6050_wakeup, hw1, hw2, hw3, hw4, hcal]

theorem mpu6050_init_result (c : Mpu6050Header) (a g : vector3d_f_t) (s : State)
    (who : Nat) (s1 : State) (hid : mpu6050_read_who_am_i c s = some (who, s1))
    (r : Int) (s6 : State) (h : mpu6050_init c a g s = some (r, s6)) :
    (who ≠ 0x68 ∧ r = 1) ∨ (who = 0x68 ∧ r = 0) := by
  by_cases hwho : who = 0x68
  · right
    refine ⟨hwho, ?_⟩
    simp only [mpu6050_init, hid, hwho, ne_eq, not_true_eq_false, if_false] at h
    split at h
    · simp at h
    · split at h
      · simp at h
      · split at h
        · simp at h
        · split at h
          · simp at h
          · split at h
            · simp at h
            · simp only [Option.some.injEq, Prod.mk.injEq] at h
              exact h.1.symm
  · left
    refine ⟨hwho, ?_⟩
    rw [mpu6050_init_mismatch c a g s who s1 hid hwho] at h
    simp only [Option.some.injEq, Prod.mk.injEq] at h
    exact h.1.symm

/-- C3: let `who` be the byte the identity register read returns.
`mpu6050_init` returns 1 if `who` is not 0x68, and then the only thing it has
done is that one read of register 0x75: no register write, no delay, no sample
read, and the stored offsets are unchanged.  If `who` is 0x68 it returns 0 (as
soon as the bus answers the transactions that follow); whenever it returns,
the value is 1 exactly when `who` is not 0x68 and 0 exactly when it is. -/
theorem C3_init_fails_iff_identity_mismatch (c : Mpu6050Header) (a g : vector3d_f_t)
    (s : State) (who : Nat) (s1 : State)
    (hid : mpu6050_read_who_am_i c s = some (who, s1)) :
    (who ≠ 0x68 → mpu6050_init c a g s = some (1, s1)) ∧
    (who = 0x68 → 4 + CALIBRATE_SAMPLING_COUNT ≤ answered s1.bus →
      ∃ s6, mpu6050_init c a g s = some (0, s6)) ∧
    (∀ r s6, mpu6050_init c a g s = some (r, s6) →
      (r = 1 ↔ who ≠ 0x68) ∧ (r = 0 ↔ who = 0x68)) ∧
    (∃ status, s1.trace = s.trace ++
      [Event.i2c_read c.MPU6050_DEVICE_ADDRESS 0x75 1 status]) ∧
    s1.mpu6050_accel_offset = s.mpu6050_accel_offset ∧
    s1.mpu6050_gyro_offset = s.mpu6050_gyro_offset := by
  refine ⟨mpu6050_init_mismatch c a g s who s1 hid, ?_, ?_, ?_⟩
  · intro hwho hbus
    obtain ⟨_, s6, _, _, _, _, _, hinit⟩ := mpu6050_init_proceeds c a g s who s1 hid hwho hbus
    exact ⟨s6, hinit⟩
  · intro r s6 h
    rcases mpu6050_init_result c a g s who s1 hid r s6 h with ⟨hw, hr⟩ | ⟨hw, hr⟩
    · subst hr
      exact ⟨⟨fun _ => hw, fun _ => rfl⟩, ⟨fun h0 => absurd h0 (by decide), fun h1 => absurd h1 hw⟩⟩
    · subst hr
      exact ⟨⟨fun h0 => absurd h0 (by decide), fun h1 => absurd hw h1⟩, ⟨fun _ => hw, fun _ => rfl⟩⟩
  · obtain ⟨o, rest, _, _, hs1⟩ := mpu6050_read_who_am_i_eq c s who s1 hid
    subst hs1
    exact ⟨⟨o.status, rfl⟩, rfl, rfl⟩

/-- Witness of C3: the identity read answers 0x42; `mpu6050_init` returns 1
with only that read in the trace. -/
theorem C3_init_fails_iff_identity_mismatch_witness :
    mpu6050_read_who_am_i ⟨0xD0, 0x6B, 0x1C, 0x1B, 0x3B, ⟨0⟩, ⟨0⟩⟩
        ⟨[ok_outcome [0x42]], [], ⟨1, 2, 3⟩, ⟨4, 5, 6⟩⟩ =
      some (0x42, ⟨[], [Event.i2c_read 0xD0 0x75 1 I2cStatus.OK], ⟨1, 2, 3⟩, ⟨4, 5, 6⟩⟩) ∧
    mpu6050_init ⟨0xD0, 0x6B, 0x1C, 0x1B, 0x3B, ⟨0⟩, ⟨0⟩⟩ ⟨⟨0⟩, ⟨0⟩, ⟨0⟩⟩ ⟨⟨0⟩, ⟨0⟩, ⟨0⟩⟩
        ⟨[ok_outcome [0x42]], [], ⟨1, 2, 3⟩, ⟨4, 5, 6⟩⟩ =
      some (1, ⟨[], [Event.i2c_read 0xD0 0x75 1 I2cStatus.OK], ⟨1, 2, 3⟩, ⟨4, 5, 6⟩⟩) :=
  ⟨by decide,
    (C3_init_fails_iff_identity_mismatch ⟨0xD0, 0x6B, 0x1C, 0x1B, 0x3B, ⟨0⟩, ⟨0⟩⟩
      ⟨⟨0⟩, ⟨0⟩, ⟨0⟩⟩ ⟨⟨0⟩, ⟨0⟩, ⟨0⟩⟩
      ⟨[ok_outcome [0x42]], [], ⟨1, 2, 3⟩, ⟨4, 5, 6⟩⟩ 0x42
      ⟨[], [Event.i2c_read 0xD0 0x75 1 I2cStatus.OK], ⟨1, 2, 3⟩, ⟨4, 5, 6⟩⟩
      (by decide)).1 (by decide)⟩

/-- C5: when the identity byte read is 0x68 and the bus answers the
transactions that follow, `mpu6050_init` performs, in this order (timed-out
attempts, which are retried, left aside): a write of 0x80 (bit 7, reset, set)
to the power-management register, a 1000 ms delay, a write of 0x00 (bit 6,
sleep, clear) to the power-management register, a 1000 ms delay, a write of
0x08 to the accelerometer-config register, a write of 0x18 to the gyro-config
register, a 1000 ms delay, and then one run of `mpu6050_calibrate`
(`CALIBRATE_SAMPLING_COUNT` sample reads); it then returns 0. -/
theorem C5_init_sequence (c : Mpu6050Header) (a g : vector3d_f_t) (s : State)
    (who : Nat) (s1 : State) (hid : mpu6050_read_who_am_i c s = some (who, s1))
    (hwho : who = 0x68) (hbus : 4 + CALIBRATE_SAMPLING_COUNT ≤ answered s1.bus) :
    ∃ s5 s6,
      completed s5.trace = completed s1.trace ++
        [Event.i2c_write c.MPU6050_DEVICE_ADDRESS (c.MPU6050_PWR_MGMT_1 % 256) 0x80 I2cStatus.OK,
         Event.delay_ms 1000,
         Event.i2c_write c.MPU6050_DEVICE_ADDRESS (c.MPU6050_PWR_MGMT_1 % 256) 0x00 I2cStatus.OK,
         Event.delay_ms 1000,
         Event.i2c_write c.MPU6050_DEVICE_ADDRESS (c.MPU6050_ACCEL_CONFIG % 256) 0x08 I2cStatus.OK,
         Event.i2c_write c.MPU6050_DEVICE_ADDRESS (c.MPU6050_GYRO_CONFIG % 256) 0x18 I2cStatus.OK,
         Event.delay_ms 1000] ∧
      s5.mpu6050_accel_offset = s1.mpu6050_accel_offset ∧
      s5.mpu6050_gyro_offset = s1.mpu6050_gyro_offset ∧
      mpu6050_calibrate c a g s5 = some s6 ∧
      completed s6.trace = completed s5.trace ++ List.replicate CALIBRATE_SAMPLING_COUNT
        (Event.i2c_read c.MPU6050_DEVICE_ADDRESS (c.MPU6050_ACCEL_XOUT_H % 256) 14 I2cStatus.OK) ∧
      mpu6050_init c a g s = some (0, s6) ∧
      Nat.testBit 0x80 7 = true ∧ Nat.testBit 0x00 6 = false ∧
      (0x08 >>> 3) % 4 = 1 ∧ (0x18 >>> 3) % 4 = 3 := by
  obtain ⟨s5, s6, h1, h2, h3, h4, h5, h6⟩ := mpu6050_init_proceeds c a g s who s1 hid hwho hbus
  exact ⟨s5, s6, h1, h2, h3, h4, h5, h6, by decide, by decide, by decide, by decide⟩

/-- Witness of C5: the identity read answers 0x68 and the bus then answers
10004 transactions. -/
theorem C5_init_sequence_witness :
    mpu6050_read_who_am_i ⟨0xD0, 0x6B, 0x1C, 0x1B, 0x3B, ⟨0⟩, ⟨0⟩⟩
        ⟨ok_outcome [0x68] :: List.replicate 10004 (ok_outcome []), [], ⟨0, 0, 0⟩, ⟨0, 0, 0⟩⟩ =
      some (0x68, ⟨List.replicate 10004 (ok_outcome []),
        [Event.i2c_read 0xD0 0x75 1 I2cStatus.OK], ⟨0, 0, 0⟩, ⟨0, 0, 0⟩⟩) ∧
    4 + CALIBRATE_SAMPLING_COUNT ≤ answered (List.replicate 10004 (ok_outcome [])) ∧
    ∃ s6, mpu6050_init ⟨0xD0, 0x6B, 0x1C, 0x1B, 0x3B, ⟨0⟩, ⟨0⟩⟩
        ⟨⟨0⟩, ⟨0⟩, ⟨0⟩⟩ ⟨⟨0⟩, ⟨0⟩, ⟨0⟩⟩
        ⟨ok_outcome [0x68] :: List.replicate 10004 (ok_outcome []), [], ⟨0, 0, 0⟩, ⟨0, 0, 0⟩⟩ =
      some (0, s6) :=
  ⟨rfl, by rw [answered_replicate_ok]; decide,
    match C5_init_sequence ⟨0xD0, 0x6B, 0x1C, 0x1B, 0x3B, ⟨0⟩, ⟨0⟩⟩
      ⟨⟨0⟩, ⟨0⟩, ⟨0⟩⟩ ⟨⟨0⟩, ⟨0⟩, ⟨0⟩⟩
      ⟨ok_outcome [0x68] :: List.replicate 10004 (ok_outcome []), [], ⟨0, 0, 0⟩, ⟨0, 0, 0⟩⟩
      0x68
      ⟨List.replicate 10004 (ok_outcome []),
        [Event.i2c_read 0xD0 0x75 1 I2cStatus.OK], ⟨0, 0, 0⟩, ⟨0, 0, 0⟩⟩
      rfl rfl (by rw [answered_replicate_ok]; decide) with
    | ⟨_, s6, h⟩ => ⟨s6, h.2.2.2.2.2.1⟩⟩

/-- C6 (divergence of the code): the identity read of `mpu6050_init` is not
retried.  On a bus whose first outcome is a timeout that leaves the
byte 0x00 in the buffer and which would then answer every request, the
identity byte being 0x68, `mpu6050_init` issues a single read of register
0x75 and returns 1; on the same bus without the timeout it returns 0. -/
theorem C6_identity_read_not_retried (c : Mpu6050Header) (a g : vector3d_f_t) :
    mpu6050_init c a g
        ⟨timeout_outcome [0x00] :: List.replicate 10005 (ok_outcome [0x68]), [],
          ⟨0, 0, 0⟩, ⟨0, 0, 0⟩⟩ =
      some (1, ⟨List.replicate 10005 (ok_outcome [0x68]),
        [Event.i2c_read c.MPU6050_DEVICE_ADDRESS 0x75 1 I2cStatus.I2C_TIMEOUT],
        ⟨0, 0, 0⟩, ⟨0, 0, 0⟩⟩) ∧
    ∃ s6, mpu6050_init c a g
        ⟨List.replicate 10005 (ok_outcome [0x68]), [], ⟨0, 0, 0⟩, ⟨0, 0, 0⟩⟩ = some (0, s6) := by
  refine ⟨?_, ?_⟩
  · exact mpu6050_init_mismatch c a g _ 0x00 _ rfl (by decide)
  · have hid : mpu6050_read_who_am_i c
        ⟨List.replicate 10005 (ok_outcome [0x68]), [], ⟨0, 0, 0⟩, ⟨0, 0, 0⟩⟩ =
        some (0x68, ⟨List.replicate 10004 (ok_outcome [0x68]),
          [Event.i2c_read c.MPU6050_DEVICE_ADDRESS 0x75 1 I2cStatus.OK],
          ⟨0, 0, 0⟩, ⟨0, 0, 0⟩⟩) := rfl
    obtain ⟨_, s6, _, _, _, _, _, hinit⟩ := mpu6050_init_proceeds c a g _ 0x68 _ hid rfl
      (by rw [answered_replicate_ok]; decide)
    exact ⟨s6, hinit⟩

/-! ## binary32 rounding lemmas -/

theorem bit_length_aux_le_iff : ∀ (fuel n : Nat), n ≤ fuel →
    ∀ k, bit_length_aux fuel n ≤ k ↔ n < 2 ^ k := by
  intro fuel
  induction fuel with
  | zero =>
    intro n hn k
    have : n = 0 := by omega
    subst this
    simp [bit_length_aux]
  | succ fuel ih =>
    intro n hn k
    by_cases h0 : n = 0
    · subst h0
      simp [bit_length_aux]
    · simp only [bit_length_aux, h0, if_false]
      cases k with
      | zero =>
        simp
        omega
      | succ k =>
        have hdiv : n / 2 ≤ fuel := by omega
        rw [Nat.add_le_add_iff_right, ih (n / 2) hdiv k, pow_succ]
        omega

theorem bit_length_le_iff (n k : Nat) : bit_length n ≤ k ↔ n < 2 ^ k :=
  bit_length_aux_le_iff n n (le_refl n) k

theorem bit_length_double (n : Nat) (h : 0 < n) : bit_length (2 * n) = bit_length n + 1 := by
  apply le_antisymm
  · rw [bit_length_le_iff, pow_succ]
    have := (bit_length_le_iff n (bit_length n)).1 (le_refl _)
    omega
  · have h1 : ¬ (bit_length (2 * n) ≤ bit_length n) := by
      rw [bit_length_le_iff]
      intro hlt
      cases hb : bit_length n with
      | zero =>
        have := (bit_length_le_iff n 0).1 (by omega)
        simp at this
        omega
      | succ b =>
        rw [hb, pow_succ] at hlt
        have h2 : n < 2 ^ b := by omega
        have := (bit_length_le_iff n b).2 h2
        omega
    omega

theorem f32_round_ratio_double (m : Int) :
    f32_round_ratio (2 * m) 1 = 2 * f32_round_ratio m 1 := by
  by_cases hm : m = 0
  · subst hm
    decide
  have ha : 0 < m.natAbs := Int.natAbs_pos.2 hm
  have habs : (2 * m).natAbs = 2 * m.natAbs := by
    rw [Int.natAbs_mul]; rfl
  have hbl := bit_length_double m.natAbs ha
  have hsign : (2 * m < 0) ↔ (m < 0) := by omega
  unfold f32_round_ratio
  simp only [habs, Nat.div_one, hbl, one_mul]
  by_cases hb : 24 ≤ bit_length m.natAbs
  · have hs : bit_length m.natAbs + 1 - 24 = (bit_length m.natAbs - 24) + 1 := by omega
    rw [hs]
    generalize bit_length m.natAbs - 24 = s
    have hD : 2 ^ (s + 1) = 2 * 2 ^ s := by rw [pow_succ]; ring
    rw [hD, Nat.mul_div_mul_left _ _ (by norm_num : 0 < 2), Nat.mul_mod_mul_left]
    have hc1 : (2 * (2 * (m.natAbs % 2 ^ s)) < 2 * 2 ^ s) ↔ (2 * (m.natAbs % 2 ^ s) < 2 ^ s) := by
      omega
    have hc2 : (2 * 2 ^ s < 2 * (2 * (m.natAbs % 2 ^ s))) ↔ (2 ^ s < 2 * (m.natAbs % 2 ^ s)) := by
      omega
    simp only [hc1, hc2, hsign]
    split_ifs <;> push_cast <;> ring
  · have hs : bit_length m.natAbs + 1 - 24 = 0 := by omega
    have hs2 : bit_length m.natAbs - 24 = 0 := by omega
    rw [hs, hs2]
    simp only [pow_zero, Nat.mod_one, Nat.div_one, mul_zero, Nat.lt_one_iff, if_true, mul_one,
      hsign]
    split_ifs <;> push_cast <;> ring

theorem f32_round_ratio_mul_cancel (m : Int) (d : Nat) (hd : 0 < d) :
    f32_round_ratio (m * d) d = f32_round_ratio m 1 := by
  have habs : (m * (d : Int)).natAbs = m.natAbs * d := by
    rw [Int.natAbs_mul]; simp
  have hsign : (m * (d : Int) < 0) ↔ (m < 0) := by
    have hd2 : (0 : Int) < d := by exact_mod_cast hd
    constructor
    · intro h
      by_contra hm
      push_neg at hm
      have := mul_nonneg hm hd2.le
      omega
    · intro h
      exact mul_neg_of_neg_of_pos h hd2
  unfold f32_round_ratio
  simp only [habs, Nat.mul_div_cancel _ hd, Nat.div_one, one_mul, hsign]
  generalize bit_length m.natAbs - 24 = s
  have hq : m.natAbs * d / (d * 2 ^ s) = m.natAbs / 2 ^ s := by
    rw [Nat.mul_comm m.natAbs d, Nat.mul_div_mul_left _ _ hd]
  have hr : m.natAbs * d % (d * 2 ^ s) = d * (m.natAbs % 2 ^ s) := by
    rw [Nat.mul_comm m.natAbs d, Nat.mul_mod_mul_left]
  rw [hq, hr]
  have hc1 : (2 * (d * (m.natAbs % 2 ^ s)) < d * 2 ^ s) ↔ (2 * (m.natAbs % 2 ^ s) < 2 ^ s) := by
    rw [show 2 * (d * (m.natAbs % 2 ^ s)) = d * (2 * (m.natAbs % 2 ^ s)) by ring]
    exact Nat.mul_lt_mul_left hd
  have hc2 : (d * 2 ^ s < 2 * (d * (m.natAbs % 2 ^ s))) ↔ (2 ^ s < 2 * (m.natAbs % 2 ^ s)) := by
    rw [show 2 * (d * (m.natAbs % 2 ^ s)) = d * (2 * (m.natAbs % 2 ^ s)) by ring]
    exact Nat.mul_lt_mul_left hd
  simp only [hc1, hc2]

theorem f32_representable_of_dvd (k : Int) (h : 2 ^ (bit_length k.natAbs - 24) ∣ k.natAbs) :
    f32_representable k := by
  unfold f32_representable f32_round_ratio
  simp only [Nat.div_one, one_mul]
  generalize bit_length k.natAbs - 24 = s at h
  have hr : k.natAbs % 2 ^ s = 0 := Nat.mod_eq_zero_of_dvd h
  have hpos : 0 < 2 ^ s := by positivity
  simp only [hr, mul_zero, hpos, if_true]
  rw [Nat.div_mul_cancel h]
  split_ifs with hneg
  · omega
  · omega

theorem f32_representable_int (n : Int) (h : n.natAbs < 2 ^ 24) :
    f32_representable (n * (2 ^ 149 : Nat)) := by
  apply f32_representable_of_dvd
  have habs : (n * ((2 ^ 149 : Nat) : Int)).natAbs = n.natAbs * 2 ^ 149 := by
    rw [Int.natAbs_mul]; simp
  rw [habs]
  have hlt : n.natAbs * 2 ^ 149 < 2 ^ (24 + 149) := by
    rw [pow_add]
    exact Nat.mul_lt_mul_of_pos_right h (by positivity)
  have hbl := (bit_length_le_iff _ _).2 hlt
  have hs : bit_length (n.natAbs * 2 ^ 149) - 24 ≤ 149 := by omega
  exact Dvd.dvd.mul_left (pow_dvd_pow 2 hs) _

theorem natAbs_signed (b : Prop) [Decidable b] (k : Nat) :
    (if b then -((k : Nat) : Int) else ((k : Nat) : Int)).natAbs = k := by
  split_ifs <;> simp

theorem f32_round_ratio_representable (n : Int) (d : Nat) :
    f32_representable (f32_round_ratio n d) := by
  apply f32_representable_of_dvd
  -- the rounded magnitude is m * 2^s with m ≤ 2^24
  have key : ∃ m s : Nat, (f32_round_ratio n d).natAbs = m * 2 ^ s ∧ m ≤ 2 ^ 24 := by
    have hq : n.natAbs / (d * 2 ^ (bit_length (n.natAbs / d) - 24)) < 2 ^ 24 := by
      rw [← Nat.div_div_eq_div_mul]
      have h1 : n.natAbs / d < 2 ^ (bit_length (n.natAbs / d)) :=
        (bit_length_le_iff _ _).1 (le_refl _)
      by_cases hb : 24 ≤ bit_length (n.natAbs / d)
      · have h2 : 2 ^ bit_length (n.natAbs / d) =
            2 ^ 24 * 2 ^ (bit_length (n.natAbs / d) - 24) := by
          rw [← pow_add]
          congr 1
          omega
        rw [h2] at h1
        exact Nat.div_lt_of_lt_mul (by rw [Nat.mul_comm]; exact h1)
      · have hs0 : bit_length (n.natAbs / d) - 24 = 0 := by omega
        rw [hs0, pow_zero, Nat.div_one]
        have h3 : (2 : Nat) ^ bit_length (n.natAbs / d) ≤ 2 ^ 24 :=
          Nat.pow_le_pow_right (by norm_num) (by omega)
        omega
    refine ⟨_, bit_length (n.natAbs / d) - 24, natAbs_signed (n < 0) _, ?_⟩
    split_ifs <;> omega
  obtain ⟨m, s, hms, hm⟩ := key
  rw [hms]
  rcases Nat.lt_or_ge m (2 ^ 24) with hlt | hge
  · have hlt2 : m * 2 ^ s < 2 ^ (24 + s) := by
      rw [pow_add]
      exact Nat.mul_lt_mul_of_pos_right hlt (by positivity)
    have hbl := (bit_length_le_iff _ _).2 hlt2
    have hs : bit_length (m * 2 ^ s) - 24 ≤ s := by omega
    exact Dvd.dvd.mul_left (pow_dvd_pow 2 hs) _
  · have hm2 : m = 2 ^ 24 := by omega
    subst hm2
    rw [← pow_add]
    apply pow_dvd_pow
    have hlt2 : 2 ^ (24 + s) < 2 ^ (24 + s + 1) := by
      exact Nat.pow_lt_pow_right (by norm_num) (by omega)
    have hbl := (bit_length_le_iff _ _).2 hlt2
    omega

theorem f32_of_int_exact (n : Int) (h : n.natAbs < 2 ^ 24) :
    f32_of_int n = ⟨n * f32_one⟩ := by
  have := f32_representable_int n h
  unfold f32_representable at this
  unfold f32_of_int f32_one
  rw [this]

theorem natAbs_lt_of_isInt16 (n : Int) (h : isInt16 n) : n.natAbs < 2 ^ 24 := by
  unfold isInt16 at h
  omega

theorem f32_mul_of_int (x : Int) (A : binary32) (h : x.natAbs < 2 ^ 24) :
    f32_mul (f32_of_int x) A = ⟨f32_round_ratio (x * A.units) 1⟩ := by
  rw [f32_of_int_exact x h]
  unfold f32_mul
  have hre : x * (f32_one : Int) * A.units = (x * A.units) * ((f32_one : Nat) : Int) := by ring
  simp only [hre]
  rw [f32_round_ratio_mul_cancel _ _ (by unfold f32_one; positivity)]

theorem f32_mul_two (y : binary32) (hy : f32_representable y.units) :
    f32_mul (f32_of_int 2) y = ⟨2 * y.units⟩ := by
  rw [f32_mul_of_int 2 y (by decide), f32_round_ratio_double]
  unfold f32_representable at hy
  rw [hy]

theorem f32_mul_of_int_double (x : Int) (A : binary32) (h : x.natAbs < 2 ^ 24)
    (h2 : (2 * x).natAbs < 2 ^ 24) :
    f32_mul (f32_of_int (2 * x)) A = f32_mul (f32_of_int 2) (f32_mul (f32_of_int x) A) ∧
    (f32_mul (f32_of_int (2 * x)) A).units = 2 * (f32_mul (f32_of_int x) A).units := by
  have hd : f32_mul (f32_of_int (2 * x)) A = ⟨2 * (f32_mul (f32_of_int x) A).units⟩ := by
    rw [f32_mul_of_int (2 * x) A h2, f32_mul_of_int x A h]
    have hre : 2 * x * A.units = 2 * (x * A.units) := by ring
    rw [hre, f32_round_ratio_double]
  refine ⟨?_, ?_⟩
  · rw [hd, f32_mul_two]
    rw [f32_mul_of_int x A h]
    exact f32_round_ratio_representable _ _
  · rw [hd]

/-! ## Scaling -/

/-- C8: `mpu6050_accel_convert_to_scale` returns (x*A, y*A, z*A) for the one
constant A = `MPU6050_ACCEL_SCALE` and `mpu6050_gyro_convert_to_scale` returns
(x*G, y*G, z*G) for the one constant G = `MPU6050_GYRO_SCALE` (`float`
products of the converted raw axis and the constant); each output axis is
determined by the same input axis alone, whatever the other axes and the
previous content of the output are; the raw triple is left unchanged. -/
theorem C8_convert_to_scale_multiplies_each_axis (c : Mpu6050Header) (r : vector3d_16_t)
    (out : vector3d_f_t) :
    (mpu6050_accel_convert_to_scale c r out).2 =
      ⟨f32_mul (f32_of_int r.x) (MPU6050_ACCEL_SCALE c),
       f32_mul (f32_of_int r.y) (MPU6050_ACCEL_SCALE c),
       f32_mul (f32_of_int r.z) (MPU6050_ACCEL_SCALE c)⟩ ∧
    (mpu6050_gyro_convert_to_scale c r out).2 =
      ⟨f32_mul (f32_of_int r.x) (MPU6050_GYRO_SCALE c),
       f32_mul (f32_of_int r.y) (MPU6050_GYRO_SCALE c),
       f32_mul (f32_of_int r.z) (MPU6050_GYRO_SCALE c)⟩ ∧
    (mpu6050_accel_convert_to_scale c r out).1 = r ∧
    (mpu6050_gyro_convert_to_scale c r out).1 = r ∧
    (∀ (r2 : vector3d_16_t) (out2 : vector3d_f_t),
      (r2.x = r.x → (mpu6050_accel_convert_to_scale c r2 out2).2.x =
        (mpu6050_accel_convert_to_scale c r out).2.x) ∧
      (r2.y = r.y → (mpu6050_accel_convert_to_scale c r2 out2).2.y =
        (mpu6050_accel_convert_to_scale c r out).2.y) ∧
      (r2.z = r.z → (mpu6050_accel_convert_to_scale c r2 out2).2.z =
        (mpu6050_accel_convert_to_scale c r out).2.z) ∧
      (r2.x = r.x → (mpu6050_gyro_convert_to_scale c r2 out2).2.x =
        (mpu6050_gyro_convert_to_scale c r out).2.x) ∧
      (r2.y = r.y → (mpu6050_gyro_convert_to_scale c r2 out2).2.y =
        (mpu6050_gyro_convert_to_scale c r out).2.y) ∧
      (r2.z = r.z → (mpu6050_gyro_convert_to_scale c r2 out2).2.z =
        (mpu6050_gyro_convert_to_scale c r out).2.z)) := by
  refine ⟨rfl, rfl, rfl, rfl, ?_⟩
  intro r2 out2
  refine ⟨?_, ?_, ?_, ?_, ?_, ?_⟩ <;>
    · intro h
      simp only [mpu6050_accel_convert_to_scale, mpu6050_gyro_convert_to_scale, h]

/-- Witness of C8: raw (4096, 0, -8192) against raw (4096, 7, 9), with the
scale constants 2^-13 and 1.0. -/
theorem C8_convert_to_scale_multiplies_each_axis_witness :
    (mpu6050_accel_convert_to_scale ⟨0xD0, 0x6B, 0x1C, 0x1B, 0x3B, ⟨2 ^ 136⟩, ⟨2 ^ 149⟩⟩
        ⟨4096, 7, 9⟩ ⟨⟨1⟩, ⟨2⟩, ⟨3⟩⟩).2.x =
      (mpu6050_accel_convert_to_scale ⟨0xD0, 0x6B, 0x1C, 0x1B, 0x3B, ⟨2 ^ 136⟩, ⟨2 ^ 149⟩⟩
        ⟨4096, 0, -8192⟩ ⟨⟨0⟩, ⟨0⟩, ⟨0⟩⟩).2.x :=
  ((C8_convert_to_scale_multiplies_each_axis
      ⟨0xD0, 0x6B, 0x1C, 0x1B, 0x3B, ⟨2 ^ 136⟩, ⟨2 ^ 149⟩⟩ ⟨4096, 0, -8192⟩
      ⟨⟨0⟩, ⟨0⟩, ⟨0⟩⟩).2.2.2.2 ⟨4096, 7, 9⟩ ⟨⟨1⟩, ⟨2⟩, ⟨3⟩⟩).1 rfl

/-- C9: scaling is linear under doubling.  For every raw triple `r` of
`int16_t` values whose double is still a triple of `int16_t` values, each
component of the scaled output for `2*r` equals the `float` product of 2 and
the same component of the scaled output for `r`, and its value is exactly
twice that value; for the accelerometer and for the gyroscope conversion. -/
theorem C9_scaling_linear_under_doubling (c : Mpu6050Header) (r : vector3d_16_t)
    (out : vector3d_f_t) (hr : r.inRange)
    (h2 : (⟨2 * r.x, 2 * r.y, 2 * r.z⟩ : vector3d_16_t).inRange) :
    let doubled : vector3d_16_t := ⟨2 * r.x, 2 * r.y, 2 * r.z⟩
    let two := f32_of_int 2
    let sa := (mpu6050_accel_convert_to_scale c r out).2
    let sa2 := (mpu6050_accel_convert_to_scale c doubled out).2
    let sg := (mpu6050_gyro_convert_to_scale c r out).2
    let sg2 := (mpu6050_gyro_convert_to_scale c doubled out).2
    (sa2 = ⟨f32_mul two sa.x, f32_mul two sa.y, f32_mul two sa.z⟩ ∧
     sg2 = ⟨f32_mul two sg.x, f32_mul two sg.y, f32_mul two sg.z⟩) ∧
    (sa2.x.units = 2 * sa.x.units ∧ sa2.y.units = 2 * sa.y.units ∧
     sa2.z.units = 2 * sa.z.units ∧ sg2.x.units = 2 * sg.x.units ∧
     sg2.y.units = 2 * sg.y.units ∧ sg2.z.units = 2 * sg.z.units) := by
  obtain ⟨hx, hy, hz⟩ := hr
  obtain ⟨hx2, hy2, hz2⟩ := h2
  have kx := natAbs_lt_of_isInt16 _ hx
  have ky := natAbs_lt_of_isInt16 _ hy
  have kz := natAbs_lt_of_isInt16 _ hz
  have kx2 := natAbs_lt_of_isInt16 _ hx2
  have ky2 := natAbs_lt_of_isInt16 _ hy2
  have kz2 := natAbs_lt_of_isInt16 _ hz2
  have ax := f32_mul_of_int_double r.x (MPU6050_ACCEL_SCALE c) kx kx2
  have ay := f32_mul_of_int_double r.y (MPU6050_ACCEL_SCALE c) ky ky2
  have az := f32_mul_of_int_double r.z (MPU6050_ACCEL_SCALE c) kz kz2
  have gx := f32_mul_of_int_double r.x (MPU6050_GYRO_SCALE c) kx kx2
  have gy := f32_mul_of_int_double r.y (MPU6050_GYRO_SCALE c) ky ky2
  have gz := f32_mul_of_int_double r.z (MPU6050_GYRO_SCALE c) kz kz2
  simp only [mpu6050_accel_convert_to_scale, mpu6050_gyro_convert_to_scale]
  refine ⟨⟨?_, ?_⟩, ax.2, ay.2, az.2, gx.2, gy.2, gz.2⟩
  · rw [ax.1, ay.1, az.1]
  · rw [gx.1, gy.1, gz.1]

/-- Witness of C9: the raw triple (4096, -3, 16383) with scale constants
2^-13 and 1.0. -/
theorem C9_scaling_linear_under_doubling_witness :
    (⟨4096, -3, 16383⟩ : vector3d_16_t).inRange ∧
    (⟨2 * 4096, 2 * (-3), 2 * 16383⟩ : vector3d_16_t).inRange ∧
    (mpu6050_accel_convert_to_scale ⟨0xD0, 0x6B, 0x1C, 0x1B, 0x3B, ⟨2 ^ 136⟩, ⟨2 ^ 149⟩⟩
        ⟨2 * 4096, 2 * (-3), 2 * 16383⟩ ⟨⟨0⟩, ⟨0⟩, ⟨0⟩⟩).2.x.units =
      2 * (mpu6050_accel_convert_to_scale ⟨0xD0, 0x6B, 0x1C, 0x1B, 0x3B, ⟨2 ^ 136⟩, ⟨2 ^ 149⟩⟩
        ⟨4096, -3, 16383⟩ ⟨⟨0⟩, ⟨0⟩, ⟨0⟩⟩).2.x.units :=
  ⟨by decide, by decide,
    (C9_scaling_linear_under_doubling ⟨0xD0, 0x6B, 0x1C, 0x1B, 0x3B, ⟨2 ^ 136⟩, ⟨2 ^ 149⟩⟩
      ⟨4096, -3, 16383⟩ ⟨⟨0⟩, ⟨0⟩, ⟨0⟩⟩ (by decide) (by decide)).2.1⟩

/-! ## Rounding error -/

theorem f32_round_ratio_zero (d : Nat) (hd : 0 < d) : f32_round_ratio 0 d = 0 := by
  simp [f32_round_ratio, bit_length, bit_length_aux, hd]

/-- Rounding moves a value by at most half the spacing of its binade. -/
theorem f32_round_ratio_half_spacing (n : Int) (d : Nat) (hd : 0 < d) :
    2 * |f32_round_ratio n d * d - n| ≤
      ((d * 2 ^ (bit_length (n.natAbs / d) - 24) : Nat) : Int) := by
  unfold f32_round_ratio
  simp only []
  generalize bit_length (n.natAbs / d) - 24 = sh
  have hD : 0 < d * 2 ^ sh := Nat.mul_pos hd (by positivity)
  generalize hDdef : d * 2 ^ sh = D at hD
  have hdm : D * (n.natAbs / D) + n.natAbs % D = n.natAbs := Nat.div_add_mod _ _
  have hr : n.natAbs % D < D := Nat.mod_lt _ hD
  generalize n.natAbs / D = q at hdm
  generalize n.natAbs % D = r at hdm hr
  have key : ∀ m : Nat, (m = q ∧ 2 * r ≤ D) ∨ (m = q + 1 ∧ D ≤ 2 * r) →
      2 * |(if n < 0 then -((m * 2 ^ sh : Nat) : Int) else ((m * 2 ^ sh : Nat) : Int)) * d - n|
        ≤ (D : Int) := by
    intro m hm
    have hmD : ((m * 2 ^ sh : Nat) : Int) * d = (m : Int) * D := by
      rw [← hDdef]
      push_cast
      ring
    have hcast : ((D : Int)) * q + r = (n.natAbs : Int) := by exact_mod_cast hdm
    by_cases hneg : n < 0
    · have hn : n = -(n.natAbs : Int) := by omega
      simp only [hneg, if_true]
      rw [neg_mul, hmD]
      rcases hm with ⟨rfl, h2⟩ | ⟨rfl, h2⟩
      · have : -((m : Int) * D) - n = r := by rw [hn, ← hcast]; ring
        rw [this, abs_of_nonneg (by positivity)]
        exact_mod_cast h2
      · have : -(((q + 1 : Nat) : Int) * D) - n = -((D : Int) - r) := by
          rw [hn, ← hcast]; push_cast; ring
        rw [this, abs_neg, abs_of_nonneg (by omega)]
        omega
    · have hn : n = (n.natAbs : Int) := by omega
      simp only [hneg, if_false]
      rw [hmD]
      rcases hm with ⟨rfl, h2⟩ | ⟨rfl, h2⟩
      · have : (m : Int) * D - n = -(r : Int) := by rw [hn, ← hcast]; ring
        rw [this, abs_neg, abs_of_nonneg (by positivity)]
        exact_mod_cast h2
      · have : ((q + 1 : Nat) : Int) * D - n = (D : Int) - r := by
          rw [hn, ← hcast]; push_cast; ring
        rw [this, abs_of_nonneg (by omega)]
        omega
  apply key
  split_ifs <;> omega

/-- Rounding has relative error at most `2^-24`, for a sum (`d = 1`) and for a
quotient in the normal range. -/
theorem f32_round_ratio_error (n : Int) (d : Nat) (hd : 0 < d)
    (h : d = 1 ∨ d * 2 ^ 23 ≤ n.natAbs ∨ n = 0) :
    2 ^ 24 * |f32_round_ratio n d * d - n| ≤ |n| := by
  by_cases hn0 : n = 0
  · subst hn0
    rw [f32_round_ratio_zero d hd]
    simp
  have hhalf := f32_round_ratio_half_spacing n d hd
  have habs : |n| = (n.natAbs : Int) := Int.abs_eq_natAbs n
  rw [habs]
  by_cases hb : 25 ≤ bit_length (n.natAbs / d)
  · -- spacing at most `2^-23` of the magnitude
    have hsh : bit_length (n.natAbs / d) - 24 + 24 = bit_length (n.natAbs / d) := by omega
    generalize bit_length (n.natAbs / d) - 24 = sh at hhalf hsh
    have hge : 2 ^ (sh + 23) ≤ n.natAbs / d := by
      by_contra hlt
      push_neg at hlt
      have := (bit_length_le_iff _ _).2 hlt
      omega
    have hge2 : d * 2 ^ (sh + 23) ≤ n.natAbs :=
      le_trans (Nat.mul_le_mul_left d hge) (Nat.mul_div_le _ _)
    have hge3 : ((d * 2 ^ sh : Nat) : Int) * 2 ^ 23 ≤ (n.natAbs : Int) := by
      have : d * 2 ^ sh * 2 ^ 23 ≤ n.natAbs := by
        rw [Nat.mul_assoc, ← pow_add]
        exact hge2
      exact_mod_cast this
    linarith
  · have hsh : bit_length (n.natAbs / d) - 24 = 0 := by omega
    rw [hsh, pow_zero, Nat.mul_one] at hhalf
    rcases h with h1 | h2 | h3
    · subst h1
      have : |f32_round_ratio n 1 * ((1 : Nat) : Int) - n| = 0 := by
        have hnn := abs_nonneg (f32_round_ratio n 1 * ((1 : Nat) : Int) - n)
        omega
      rw [this]
      simp
    · have : ((d : Nat) : Int) * 2 ^ 23 ≤ (n.natAbs : Int) := by exact_mod_cast h2
      linarith
    · exact absurd h3 hn0

/-- Truncation toward zero by a positive unit. -/
theorem tdiv_bounds (s U : Int) (hU : 0 < U) :
    |s - s.tdiv U * U| < U ∧ |s.tdiv U| * U ≤ |s| := by
  have hdecomp := Int.tdiv_add_tmod' s U
  rcases le_or_lt 0 s with hs | hs
  · have h1 := Int.tmod_nonneg U hs
    have h2 := Int.tmod_lt_of_pos s hU
    have h3 : 0 ≤ s.tdiv U := Int.tdiv_nonneg hs hU.le
    have e : s - s.tdiv U * U = s.tmod U := by linarith
    rw [e, abs_of_nonneg h1, abs_of_nonneg h3, abs_of_nonneg hs]
    exact ⟨h2, by linarith⟩
  · have hs2 : 0 ≤ -s := by linarith
    have h1 := Int.tmod_nonneg U hs2
    have h2 := Int.tmod_lt_of_pos (-s) hU
    have h3 : 0 ≤ (-s).tdiv U := Int.tdiv_nonneg hs2 hU.le
    have hd2 := Int.tdiv_add_tmod' (-s) U
    have hneg : s.tdiv U = -((-s).tdiv U) := by
      rw [Int.neg_tdiv, neg_neg]
    have e : s - s.tdiv U * U = -((-s).tmod U) := by
      rw [hneg]; linarith
    rw [e, abs_neg, abs_of_nonneg h1, hneg, abs_neg, abs_of_nonneg h3, abs_of_neg hs]
    exact ⟨h2, by linarith⟩

/-- One rounded addition: the distance to the exact partial sum grows by at
most `2^-24` of the magnitudes added so far. -/
theorem running_error_step (M k s P A t r : Int) (hM : 0 < M) (hk : 0 ≤ k)
    (hkM : 1025 * k ≤ M) (hA : 0 ≤ A)
    (hinv : 1024 * M * |s - P| ≤ 1025 * k * A)
    (hPA : |P| ≤ A)
    (hr : M * |r - (s + t)| ≤ |s + t|) :
    1024 * M * |r - (P + t)| ≤ 1025 * (k + 1) * (A + |t|) := by
  have ht := abs_nonneg t
  have he := abs_nonneg (s - P)
  have h1 : |r - (P + t)| ≤ |r - (s + t)| + |s - P| := by
    have : r - (P + t) = (r - (s + t)) + (s - P) := by ring
    rw [this]
    exact abs_add _ _
  have h2 : |s + t| ≤ |s - P| + A + |t| := by
    have : s + t = (s - P) + P + t := by ring
    rw [this]
    have := abs_add ((s - P) + P) t
    have := abs_add (s - P) P
    linarith
  have h3 : 1025 * k * A ≤ M * A := by
    have := mul_le_mul_of_nonneg_right hkM hA
    linarith
  have h4 : 1024 * |s - P| ≤ A := by
    have h5 : M * (1024 * |s - P|) ≤ M * A := by linarith
    exact le_of_mul_le_mul_left h5 hM
  have h6 : 0 ≤ k * |t| := mul_nonneg hk ht
  have h7 : 1024 * M * |r - (P + t)| ≤ 1024 * (M * |r - (s + t)|) + 1024 * M * |s - P| := by
    have := mul_le_mul_of_nonneg_left h1 (by positivity : (0 : Int) ≤ 1024 * M)
    linarith
  nlinarith

/-! ## Accumulated rounding error of the running mean -/

theorem average_step_units (N : Nat) (c : binary32) (x : Int) :
    (average_step N c x).units = f32_round_ratio (c.units + average_term N x) 1 := rfl

theorem running_sum_append_singleton (N : Nat) (c : binary32) (xs : List Int) (x : Int) :
    running_sum N c (xs ++ [x]) = average_step N (running_sum N c xs) x := by
  simp [running_sum, List.foldl_append]

theorem abs_list_sum_le (xs : List Int) : |xs.sum| ≤ (xs.map (fun x => |x|)).sum := by
  induction xs with
  | nil => simp
  | cons x xs ih =>
    simp only [List.sum_cons, List.map_cons]
    have := abs_add x xs.sum
    linarith

theorem abs_list_sum_nonneg (xs : List Int) : 0 ≤ (xs.map (fun x => |x|)).sum := by
  induction xs with
  | nil => simp
  | cons x xs ih =>
    simp only [List.sum_cons, List.map_cons]
    have := abs_nonneg x
    linarith

/-- The term `(float)x / N` is within `2^-24` (relative) of `x / N`. -/
theorem average_term_error (N : Nat) (x : Int) (hN1 : 1 ≤ N) (hN : N < 2 ^ 24)
    (hx : isInt16 x) :
    2 ^ 24 * |average_term N x * N - x * f32_one| ≤ |x| * f32_one := by
  have hU : (0 : Int) < (f32_one : Nat) := by unfold f32_one; positivity
  have hNabs : ((N : Nat) : Int).natAbs < 2 ^ 24 := by simpa using hN
  unfold average_term
  rw [f32_of_int_exact x (natAbs_lt_of_isInt16 x hx), f32_of_int_exact (N : Int) hNabs]
  have hnn : ¬ ((N : Int) * (f32_one : Nat) < 0) := by
    have : (0 : Int) ≤ (N : Int) * (f32_one : Nat) := by positivity
    omega
  have hnat : ((N : Int) * ((f32_one : Nat) : Int)).natAbs = N * f32_one := by
    rw [Int.natAbs_mul]; simp
  simp only [f32_div, hnn, if_false, hnat]
  have hd : 0 < N * f32_one := Nat.mul_pos (by omega) (by unfold f32_one; positivity)
  have hcond : N * f32_one = 1 ∨ N * f32_one * 2 ^ 23 ≤ (x * (f32_one : Nat) * (f32_one : Nat)).natAbs ∨
      x * (f32_one : Nat) * (f32_one : Nat) = 0 := by
    by_cases hx0 : x = 0
    · right; right; rw [hx0]; simp
    · right; left
      have hxa : 1 ≤ x.natAbs := Int.natAbs_pos.2 hx0
      have habs : (x * ((f32_one : Nat) : Int) * ((f32_one : Nat) : Int)).natAbs =
          x.natAbs * f32_one * f32_one := by
        rw [Int.natAbs_mul, Int.natAbs_mul]; simp
      rw [habs]
      have h1 : N * 2 ^ 23 ≤ f32_one := by
        have : (2 : Nat) ^ 24 * 2 ^ 23 ≤ f32_one := by unfold f32_one; norm_num
        have : N * 2 ^ 23 ≤ 2 ^ 24 * 2 ^ 23 := Nat.mul_le_mul_right _ hN.le
        omega
      calc N * f32_one * 2 ^ 23 = (N * 2 ^ 23) * f32_one := by ring
        _ ≤ f32_one * f32_one := Nat.mul_le_mul_right _ h1
        _ = 1 * f32_one * f32_one := by ring
        _ ≤ x.natAbs * f32_one * f32_one :=
          Nat.mul_le_mul_right _ (Nat.mul_le_mul_right _ hxa)
  have herr := f32_round_ratio_error (x * (f32_one : Nat) * (f32_one : Nat)) (N * f32_one) hd hcond
  generalize f32_round_ratio (x * (f32_one : Nat) * (f32_one : Nat)) (N * f32_one) = t at herr ⊢
  generalize hUdef : ((f32_one : Nat) : Int) = U at herr hU ⊢
  have e1 : t * ((N * f32_one : Nat) : Int) - x * U * U = (t * N - x * U) * U := by
    push_cast; rw [hUdef]; ring
  have e2 : |x * U * U| = |x| * U * U := by
    rw [abs_mul, abs_mul, abs_of_pos hU]
  rw [e1, e2, abs_mul, abs_of_pos hU] at herr
  have : (2 ^ 24 * |t * N - x * U|) * U ≤ (|x| * U) * U := by linarith
  exact le_of_mul_le_mul_right this hU

theorem average_term_sum_error (N : Nat) (hN1 : 1 ≤ N) (hN : N < 2 ^ 24) :
    ∀ (xs : List Int), (∀ x ∈ xs, isInt16 x) →
      2 ^ 24 * |(xs.map (average_term N)).sum * N - xs.sum * f32_one| ≤
        (xs.map (fun x => |x|)).sum * f32_one ∧
      2 ^ 24 * ((xs.map (fun x => |average_term N x|)).sum * N) ≤
        (2 ^ 24 + 1) * ((xs.map (fun x => |x|)).sum * f32_one) := by
  intro xs
  induction xs with
  | nil => intro _; simp
  | cons x xs ih =>
    intro hr
    obtain ⟨ih1, ih2⟩ := ih (fun y hy => hr y (List.mem_cons_of_mem _ hy))
    have hx := average_term_error N x hN1 hN (hr x (List.mem_cons_self _ _))
    have hU : (0 : Int) < (f32_one : Nat) := by unfold f32_one; positivity
    have hNn : (0 : Int) ≤ (N : Int) := by positivity
    simp only [List.map_cons, List.sum_cons]
    generalize average_term N x = t at hx ⊢
    generalize (xs.map (average_term N)).sum = P at ih1 ⊢
    generalize (xs.map (fun x => |average_term N x|)).sum = A at ih2 ⊢
    generalize (xs.map (fun x => |x|)).sum = X at ih1 ih2 ⊢
    generalize xs.sum = S at ih1 ⊢
    generalize ((f32_one : Nat) : Int) = U at hx ih1 ih2 hU ⊢
    generalize ((N : Nat) : Int) = n at hx ih1 ih2 hNn ⊢
    constructor
    · have e : (t + P) * n - (x + S) * U = (t * n - x * U) + (P * n - S * U) := by ring
      rw [e]
      have := abs_add (t * n - x * U) (P * n - S * U)
      linarith
    · have h1 : |t| * n ≤ |t * n - x * U| + |x| * U := by
        have e : |t| * n = |t * n| := by rw [abs_mul, abs_of_nonneg hNn]
        have e2 : t * n = (t * n - x * U) + x * U := by ring
        have e3 : |x * U| = |x| * U := by rw [abs_mul, abs_of_pos hU]
        rw [e]
        nth_rewrite 1 [e2]
        have := abs_add (t * n - x * U) (x * U)
        linarith
      have h2 : (0 : Int) ≤ |x| * U := mul_nonneg (abs_nonneg x) hU.le
      linarith

/-- The distance between the `float` running sum and the exact sum of the
terms added, after each of at most `2^24 / 1025` additions. -/
theorem running_sum_error (N : Nat) (xs : List Int) :
    1025 * xs.length ≤ 2 ^ 24 →
      1024 * 2 ^ 24 * |(running_sum N ⟨0⟩ xs).units - (xs.map (average_term N)).sum| ≤
        1025 * (xs.length : Int) * (xs.map (fun x => |average_term N x|)).sum := by
  induction xs using List.reverseRecOn with
  | nil =>
    intro _
    simp [running_sum]
  | append_singleton xs x ih =>
    intro hlen
    rw [List.length_append, List.length_singleton] at hlen
    have ih2 := ih (by omega)
    rw [running_sum_append_singleton, average_step_units]
    have hr := f32_round_ratio_error ((running_sum N ⟨0⟩ xs).units + average_term N x) 1
      (by decide) (Or.inl rfl)
    simp only [Nat.cast_one, mul_one] at hr
    have hPA := abs_list_sum_le (xs.map (average_term N))
    rw [List.map_map] at hPA
    have hA := abs_list_sum_nonneg (xs.map (average_term N))
    rw [List.map_map] at hA
    have hk : 1025 * (xs.length : Int) ≤ 2 ^ 24 := by
      have : 1025 * xs.length ≤ 2 ^ 24 := by omega
      exact_mod_cast this
    have := running_error_step (2 ^ 24) xs.length (running_sum N ⟨0⟩ xs).units
      (xs.map (average_term N)).sum ((xs.map (fun x => |average_term N x|)).sum)
      (average_term N x)
      (f32_round_ratio ((running_sum N ⟨0⟩ xs).units + average_term N x) 1)
      (by positivity) (by positivity) hk hA ih2 hPA hr
    simp only [List.map_append, List.sum_append, List.map_cons, List.map_nil, List.sum_cons,
      List.sum_nil, add_zero, List.length_append, List.length_singleton, Nat.cast_add,
      Nat.cast_one]
    exact this

/-- The `float` running mean of at most 10000 samples is within 1/1600 of the
mean magnitude of the exact mean (both scaled by the count and the unit). -/
theorem running_sum_mean_error (N : Nat) (xs : List Int) (hN1 : 1 ≤ N) (hN : N ≤ 10000)
    (hlen : xs.length = N) (hr : ∀ x ∈ xs, isInt16 x) :
    1600 * |(running_sum N ⟨0⟩ xs).units * N - xs.sum * f32_one| ≤
      (xs.map (fun x => |x|)).sum * f32_one := by
  have h1 := running_sum_error N xs (by rw [hlen]; omega)
  obtain ⟨h2, h3⟩ := average_term_sum_error N hN1 (by omega) xs hr
  have hX := abs_list_sum_nonneg xs
  have hA := abs_list_sum_nonneg (xs.map (average_term N))
  rw [List.map_map] at hA
  have hU : (0 : Int) < (f32_one : Nat) := by unfold f32_one; positivity
  have hn1 : (1 : Int) ≤ (N : Int) := by exact_mod_cast hN1
  have hn2 : (N : Int) ≤ 10000 := by exact_mod_cast hN
  rw [hlen] at h1
  have hA2 : (xs.map ((fun x => |x|) ∘ average_term N)).sum =
      (xs.map (fun x => |average_term N x|)).sum := rfl
  rw [hA2] at hA
  generalize (running_sum N ⟨0⟩ xs).units = s at h1 ⊢
  generalize (xs.map (average_term N)).sum = P at h1 h2
  generalize (xs.map (fun x => |average_term N x|)).sum = A at h1 h3 hA
  generalize (xs.map (fun x => |x|)).sum = X at h2 h3 hX ⊢
  generalize xs.sum = S at h2 ⊢
  generalize ((f32_one : Nat) : Int) = U at h2 h3 hU ⊢
  generalize ((N : Nat) : Int) = n at h1 h2 h3 hn1 hn2 ⊢
  have hW : 0 ≤ X * U := mul_nonneg hX hU.le
  generalize X * U = W at h2 h3 hW ⊢
  have hY : 0 ≤ A * n := mul_nonneg hA (by linarith)
  generalize hYdef : A * n = Y at h3 hY
  -- distance to the exact sum of the terms, scaled by the count
  have ha : 1024 * 2 ^ 24 * (|s - P| * n) ≤ 1025 * n * Y := by
    have := mul_le_mul_of_nonneg_right h1 (by linarith : (0 : Int) ≤ n)
    rw [← hYdef]
    linarith
  have hb : n * Y ≤ 10000 * Y := mul_le_mul_of_nonneg_right hn2 hY
  have htri : |s * n - S * U| ≤ |s - P| * n + |P * n - S * U| := by
    have e : s * n - S * U = (s - P) * n + (P * n - S * U) := by ring
    have e2 : |(s - P) * n| = |s - P| * n := by
      rw [abs_mul, abs_of_nonneg (by linarith : (0 : Int) ≤ n)]
    rw [e]
    have := abs_add ((s - P) * n) (P * n - S * U)
    linarith
  have hq := abs_nonneg (s - P)
  have hq2 := abs_nonneg (P * n - S * U)
  have hz : (0 : Int) ≤ |s - P| * n := mul_nonneg hq (by linarith)
  norm_num at ha h2 h3 ⊢
  linarith

/-- The `float` running mean, truncated toward zero, against the exact mean. -/
theorem truncated_running_sum_bounds (N : Nat) (xs : List Int) (hN1 : 1 ≤ N)
    (hN : N ≤ 10000) (hlen : xs.length = N) (hr : ∀ x ∈ xs, isInt16 x) :
    1600 * |Int.tdiv (running_sum N ⟨0⟩ xs).units f32_one * N - xs.sum| <
        1600 * N + (xs.map (fun x => |x|)).sum ∧
      1600 * (|Int.tdiv (running_sum N ⟨0⟩ xs).units f32_one| * N) ≤
        1601 * (xs.map (fun x => |x|)).sum := by
  have h1 := running_sum_mean_error N xs hN1 hN hlen hr
  have hU : (0 : Int) < (f32_one : Nat) := by unfold f32_one; positivity
  obtain ⟨h2, h3⟩ := tdiv_bounds (running_sum N ⟨0⟩ xs).units (f32_one : Nat) hU
  have hX := abs_list_sum_nonneg xs
  have hS := abs_list_sum_le xs
  have hn1 : (1 : Int) ≤ (N : Int) := by exact_mod_cast hN1
  generalize (running_sum N ⟨0⟩ xs).units = s at h1 h2 h3 ⊢
  generalize (xs.map (fun x => |x|)).sum = X at h1 hX hS ⊢
  generalize xs.sum = S at h1 hS ⊢
  generalize ((f32_one : Nat) : Int) = U at h1 h2 h3 hU ⊢
  generalize ((N : Nat) : Int) = n at h1 hn1 ⊢
  generalize s.tdiv U = T at h2 h3 ⊢
  have hn0 : (0 : Int) ≤ n := by linarith
  constructor
  · have e : (T * n - S) * U = (s * n - S * U) - (s - T * U) * n := by ring
    have h4 : |T * n - S| * U ≤ |s * n - S * U| + |s - T * U| * n := by
      have e1 : |T * n - S| * U = |(T * n - S) * U| := by rw [abs_mul, abs_of_pos hU]
      have e2 : |(s - T * U) * n| = |s - T * U| * n := by rw [abs_mul, abs_of_nonneg hn0]
      rw [e1, e]
      have := abs_sub (s * n - S * U) ((s - T * U) * n)
      linarith
    have h5 : |s - T * U| * n < U * n := by
      exact mul_lt_mul_of_pos_right h2 (by linarith)
    have h6 : (1600 * |T * n - S|) * U < (1600 * n + X) * U := by nlinarith
    exact lt_of_mul_lt_mul_right h6 hU.le
  · have h4 : |T| * U * n ≤ |s| * n := mul_le_mul_of_nonneg_right h3 hn0
    have h5 : |s| * n = |s * n| := by rw [abs_mul, abs_of_nonneg hn0]
    have h6 : |s * n| ≤ |s * n - S * U| + |S| * U := by
      have e : s * n = (s * n - S * U) + S * U := by ring
      have e2 : |S * U| = |S| * U := by rw [abs_mul, abs_of_pos hU]
      nth_rewrite 1 [e]
      have := abs_add (s * n - S * U) (S * U)
      linarith
    have h7 : |S| * U ≤ X * U := mul_le_mul_of_nonneg_right hS hU.le
    have h8 : (1600 * (|T| * n)) * U ≤ (1601 * X) * U := by nlinarith
    exact le_of_mul_le_mul_right h8 hU

/-! ## Calibration on a constant sample -/

theorem s16_inRange (hi lo : Nat) (hhi : hi < 256) (hlo : lo < 256) : isInt16 (s16 hi lo) := by
  rw [← wrap16_eq_s16 hi lo hhi hlo]
  exact wrap16_inRange _

theorem constant_bus_of_append (b : Fin 14 → Fin 256) (l1 l2 : List I2cOutcome)
    (h : constant_bus b (l1 ++ l2)) : constant_bus b l2 := by
  intro o ho
  exact h o (List.mem_append_right l1 ho)

theorem mpu6050_read_unscaled_data_constant (c : Mpu6050Header) (b : Fin 14 → Fin 256)
    (s : State) (h : 1 ≤ answered s.bus) (hconst : constant_bus b s.bus) :
    ∃ s1, mpu6050_read_unscaled_data c s =
        some (⟨s16 (b 0) (b 1), s16 (b 2) (b 3), s16 (b 4) (b 5)⟩,
          ⟨s16 (b 8) (b 9), s16 (b 10) (b 11), s16 (b 12) (b 13)⟩, s1) ∧
      answered s.bus = answered s1.bus + 1 ∧
      constant_bus b s1.bus ∧
      s1.mpu6050_accel_offset = s.mpu6050_accel_offset ∧
      s1.mpu6050_gyro_offset = s.mpu6050_gyro_offset := by
  obtain ⟨bus, tr, ao, go⟩ := s
  obtain ⟨ts, data, rest, hbus, hcount⟩ := answered_split bus h
  subst hbus
  have hdata : data = payload b := by
    have := hconst (ok_outcome data) (by simp) (by simp [ok_outcome])
    simpa [ok_outcome] using this
  subst hdata
  refine ⟨_, mpu6050_read_unscaled_data_eq c b ts rest tr ao go, hcount, ?_, rfl, rfl⟩
  have h2 := constant_bus_of_append b _ _ hconst
  intro o ho
  exact h2 o (List.mem_cons_of_mem _ ho)

theorem mpu6050_calibrate_loop_constant (c : Mpu6050Header) (b : Fin 14 → Fin 256)
    (count : Nat) :
    ∀ (n : Nat) (A G : vector3d_f_t) (s : State), n ≤ answered s.bus →
      constant_bus b s.bus →
      ∃ s1, mpu6050_calibrate_loop c count n A G s =
          some (⟨accumulate count (s16 (b 0) (b 1)) n A.x,
                 accumulate count (s16 (b 2) (b 3)) n A.y,
                 accumulate count (s16 (b 4) (b 5)) n A.z⟩,
                ⟨accumulate count (s16 (b 8) (b 9)) n G.x,
                 accumulate count (s16 (b 10) (b 11)) n G.y,
                 accumulate count (s16 (b 12) (b 13)) n G.z⟩, s1) := by
  intro n
  induction n with
  | zero =>
    intro A G s _ _
    exact ⟨s, rfl⟩
  | succ n ih =>
    intro A G s h hconst
    obtain ⟨s1, hread, hcount, hconst1, _, _⟩ :=
      mpu6050_read_unscaled_data_constant c b s (by omega) hconst
    obtain ⟨s2, hloop⟩ := ih
      { x := average_step count A.x (s16 (b 0) (b 1)),
        y := average_step count A.y (s16 (b 2) (b 3)),
        z := average_step count A.z (s16 (b 4) (b 5)) }
      { x := average_step count G.x (s16 (b 8) (b 9)),
        y := average_step count G.y (s16 (b 10) (b 11)),
        z := average_step count G.z (s16 (b 12) (b 13)) }
      s1 (by omega) hconst1
    refine ⟨s2, ?_⟩
    simp only [mpu6050_calibrate_loop, hread]
    exact hloop

theorem mpu6050_calibrate_with_constant (c : Mpu6050Header) (b : Fin 14 → Fin 256)
    (N : Nat) (A G : vector3d_f_t) (s : State) (hbus : N ≤ answered s.bus)
    (hconst : constant_bus b s.bus) :
    ∃ s1, mpu6050_calibrate_with c N A G s = some s1 ∧
      s1.mpu6050_accel_offset =
        ⟨wrap16 (f32_to_int16 (accumulate N (s16 (b 0) (b 1)) N A.x) - 0),
         wrap16 (f32_to_int16 (accumulate N (s16 (b 2) (b 3)) N A.y) - 0),
         wrap16 (f32_to_int16 (accumulate N (s16 (b 4) (b 5)) N A.z) - 8192)⟩ ∧
      s1.mpu6050_gyro_offset =
        ⟨f32_to_int16 (accumulate N (s16 (b 8) (b 9)) N G.x),
         f32_to_int16 (accumulate N (s16 (b 10) (b 11)) N G.y),
         f32_to_int16 (accumulate N (s16 (b 12) (b 13)) N G.z)⟩ := by
  obtain ⟨s1, hloop⟩ := mpu6050_calibrate_loop_constant c b N N A G s hbus hconst
  simp only [mpu6050_calibrate_with, hloop]
  exact ⟨_, rfl, rfl, rfl⟩

theorem f32_to_int16_of_int (v : Int) (h : isInt16 v) :
    f32_to_int16 (f32_of_int v) = v := by
  rw [f32_of_int_exact v (natAbs_lt_of_isInt16 v h)]
  unfold f32_to_int16
  have hone : ((f32_one : Nat) : Int) ≠ 0 := by unfold f32_one; positivity
  simp only [Int.mul_tdiv_cancel _ hone]
  exact wrap16_of_inRange v h

theorem accumulate_one (v : Int) (h : isInt16 v) :
    accumulate 1 v 1 ⟨0⟩ = f32_of_int v := by
  have hk := natAbs_lt_of_isInt16 v h
  have hone : f32_of_int ((1 : Nat) : Int) = ⟨f32_one⟩ := by
    rw [f32_of_int_exact _ (by decide)]
    simp
  have hrep := f32_representable_int v hk
  unfold f32_representable at hrep
  simp only [accumulate, average_step, hone]
  rw [f32_of_int_exact v hk]
  have hpos : ¬ ((f32_one : Nat) : Int) < 0 := not_lt.mpr (Int.ofNat_nonneg _)
  simp only [f32_div, f32_add, hpos, if_false, Int.natAbs_ofNat, zero_add]
  rw [f32_round_ratio_mul_cancel _ _ (by unfold f32_one; positivity)]
  unfold f32_one
  rw [hrep, hrep]

theorem binary32_eq_of_units (x : binary32) (k : Int) (h : x.units = k) : x = ⟨k⟩ := by
  cases x
  simp only at h
  rw [h]

theorem accumulate_units_eq (count : Nat) (sample : Int) :
    ∀ (n : Nat) (cache : binary32),
      (accumulate count sample n cache).units =
        accumulate_units (f32_div (f32_of_int sample) (f32_of_int count)).units n
          cache.units := by
  intro n
  induction n with
  | zero => intro cache; rfl
  | succ n ih =>
    intro cache
    simp only [accumulate, accumulate_units]
    rw [ih]
    rfl

theorem accumulate_units_add (term : Int) :
    ∀ (m n : Nat) (units : Int),
      accumulate_units term (m + n) units =
        accumulate_units term n (accumulate_units term m units) := by
  intro m
  induction m with
  | zero => intro n units; simp [accumulate_units]
  | succ m ih =>
    intro n units
    rw [show m + 1 + n = (m + n) + 1 by omega]
    simp only [accumulate_units]
    exact ih n _

theorem bit_length_eq (n k : Nat) (hlo : 2 ^ k ≤ n) (hhi : n < 2 ^ (k + 1)) :
    bit_length n = k + 1 := by
  apply le_antisymm
  · exact (bit_length_le_iff n (k + 1)).2 hhi
  · by_contra hcon
    have h1 : bit_length n ≤ k := by omega
    have := (bit_length_le_iff n k).1 h1
    omega

/-- One addition inside a binade, away from a tie: the sum moves by the term
rounded to the spacing of the binade. -/
theorem f32_round_stable_step (s t sh : Nat) (hdvd : 2 ^ sh ∣ s)
    (hlo : 2 ^ (23 + sh) ≤ s + t) (hhi : s + t < 2 ^ (24 + sh))
    (hne : 2 * (t % 2 ^ sh) ≠ 2 ^ sh) :
    f32_round_ratio ((s : Int) + (t : Int)) 1 =
      ((s + (t / 2 ^ sh + (if 2 ^ sh < 2 * (t % 2 ^ sh) then 1 else 0)) * 2 ^ sh : Nat) : Int) := by
  have hcast : (s : Int) + (t : Int) = ((s + t : Nat) : Int) := by push_cast; rfl
  have hbl : bit_length (s + t) = 23 + sh + 1 := bit_length_eq _ _ hlo (by
    rw [show 23 + sh + 1 = 24 + sh by omega]; exact hhi)
  have hpos : 0 < 2 ^ sh := by positivity
  obtain ⟨k, hk⟩ := hdvd
  have hq : (s + t) / 2 ^ sh = k + t / 2 ^ sh := by
    rw [hk, Nat.mul_add_div hpos]
  have hr : (s + t) % 2 ^ sh = t % 2 ^ sh := by
    rw [hk, Nat.mul_add_mod]
  have hnn : ¬ (((s + t : Nat) : Int) < 0) := not_lt.mpr (Int.ofNat_nonneg _)
  rw [hcast]
  unfold f32_round_ratio
  simp only [Int.natAbs_ofNat, Nat.div_one, hbl, one_mul, hnn, if_false,
    show 23 + sh + 1 - 24 = sh by omega, hq, hr]
  have hlt_or : 2 * (t % 2 ^ sh) < 2 ^ sh ∨ 2 ^ sh < 2 * (t % 2 ^ sh) := by omega
  rcases hlt_or with h | h
  · have h2 : ¬ (2 ^ sh < 2 * (t % 2 ^ sh)) := by omega
    simp only [h, h2, if_true, if_false, add_zero]
    rw [hk]
    congr 1
    ring
  · have h2 : ¬ (2 * (t % 2 ^ sh) < 2 ^ sh) := by omega
    simp only [h, h2, if_true, if_false]
    rw [hk]
    congr 1
    ring

/-- The content after `j + 1` additions of the same term that stay inside one
binade, away from a tie. -/
theorem accumulate_units_stable (t sh : Nat) (hne : 2 * (t % 2 ^ sh) ≠ 2 ^ sh) :
    ∀ (j s : Nat), 2 ^ sh ∣ s → 2 ^ (23 + sh) ≤ s + t →
      s + j * ((t / 2 ^ sh + (if 2 ^ sh < 2 * (t % 2 ^ sh) then 1 else 0)) * 2 ^ sh) + t
        < 2 ^ (24 + sh) →
      accumulate_units (t : Int) (j + 1) (s : Int) =
        ((s + (j + 1) *
          ((t / 2 ^ sh + (if 2 ^ sh < 2 * (t % 2 ^ sh) then 1 else 0)) * 2 ^ sh) : Nat) : Int) := by
  intro j
  induction j with
  | zero =>
    intro s hdvd hlo hhi
    simp only [accumulate_units]
    rw [f32_round_stable_step s t sh hdvd hlo (by simpa using hhi) hne]
    simp
  | succ j ih =>
    intro s hdvd hlo hhi
    generalize hδ : (t / 2 ^ sh + (if 2 ^ sh < 2 * (t % 2 ^ sh) then 1 else 0)) * 2 ^ sh = δ at *
    have hstep : f32_round_ratio ((s : Int) + (t : Int)) 1 = ((s + δ : Nat) : Int) := by
      rw [f32_round_stable_step s t sh hdvd hlo (by nlinarith) hne, hδ]
    rw [show j + 1 + 1 = (j + 1) + 1 by rfl]
    conv_lhs => rw [accumulate_units]
    rw [hstep]
    have hdvd2 : 2 ^ sh ∣ s + δ := by
      apply Dvd.dvd.add hdvd
      rw [← hδ]
      exact Dvd.intro_left _ rfl
    rw [ih (s + δ) hdvd2 (by omega) (by
      have : s + δ + j * δ + t = s + (j + 1) * δ + t := by ring
      omega)]
    congr 1
    ring


theorem accumulate_units_zero : ∀ (n : Nat), accumulate_units 0 n 0 = 0 := by
  intro n
  induction n with
  | zero => rfl
  | succ n ih =>
    simp only [accumulate_units]
    have : f32_round_ratio (0 + 0) 1 = 0 := by decide
    rw [this]
    exact ih

/-- The term `3.0f / 10000` is 5153961 * 2^-34. -/
theorem average_term_sample_three :
    (f32_div (f32_of_int 3) (f32_of_int ((10000 : Nat) : Int))).units =
      214087164074488149913349323131548281602048 := by
  decide!

/-- The term `0.0f / 10000` is 0. -/
theorem average_term_sample_zero :
    (f32_div (f32_of_int 0) (f32_of_int ((10000 : Nat) : Int))).units = 0 := by
  decide!

/-- The `float` running sum of 10000 terms `3.0f / 10000`, on the units. -/
theorem accumulate_units_sample_three :
    accumulate_units 214087164074488149913349323131548281602048 10000 0 = 2140808586821059447971688229871867827455000576 := by
  have c0 : accumulate_units 214087164074488149913349323131548281602048 0 0 = 0 := rfl
  have e0 : accumulate_units 214087164074488149913349323131548281602048 (0 + 1) 0 = 214087164074488149913349323131548281602048 := by
    have h := accumulate_units_stable 214087164074488149913349323131548281602048 114 (by decide) 0 0 (by decide) (by decide) (by decide)
    have hv : (0 + (0 + 1) * ((214087164074488149913349323131548281602048 / 2 ^ 114 + (if 2 ^ 114 < 2 * (214087164074488149913349323131548281602048 % 2 ^ 114) then 1 else 0)) * 2 ^ 114) : Nat) = 214087164074488149913349323131548281602048 := by decide
    rw [hv] at h
    exact_mod_cast h
  have c1 : accumulate_units 214087164074488149913349323131548281602048 1 0 = 214087164074488149913349323131548281602048 := by
    rw [show (1 : Nat) = 0 + (0 + 1) from rfl, accumulate_units_add, c0]
    exact e0
  have e1 : accumulate_units 214087164074488149913349323131548281602048 (1 + 1) 214087164074488149913349323131548281602048 = 642261492223464449740047969394644844806144 := by
    have h := accumulate_units_stable 214087164074488149913349323131548281602048 115 (by decide) 1 214087164074488149913349323131548281602048 (by decide) (by decide) (by decide)
    have hv : (214087164074488149913349323131548281602048 + (1 + 1) * ((214087164074488149913349323131548281602048 / 2 ^ 115 + (if 2 ^ 115 < 2 * (214087164074488149913349323131548281602048 % 2 ^ 115) then 1 else 0)) * 2 ^ 115) : Nat) = 642261492223464449740047969394644844806144 := by decide
    rw [hv] at h
    exact_mod_cast h
  have c2 : accumulate_units 214087164074488149913349323131548281602048 3 0 = 642261492223464449740047969394644844806144 := by
    rw [show (3 : Nat) = 1 + (1 + 1) from rfl, accumulate_units_add, c1]
    exact e1
  have e2 : accumulate_units 214087164074488149913349323131548281602048 1 642261492223464449740047969394644844806144 = 856348656297952599653397292526193126408192 := by decide!
  have c3 : accumulate_units 214087164074488149913349323131548281602048 4 0 = 856348656297952599653397292526193126408192 := by
    rw [show (4 : Nat) = 3 + 1 from rfl, accumulate_units_add, c2]
    exact e2
  have e3 : accumulate_units 214087164074488149913349323131548281602048 1 856348656297952599653397292526193126408192 = 1070435778834065881288125587413770774249472 := by decide!
  have c4 : accumulate_units 214087164074488149913349323131548281602048 5 0 = 1070435778834065881288125587413770774249472 := by
    rw [show (5 : Nat) = 4 + 1 from rfl, accumulate_units_add, c3]
    exact e3
  have e4 : accumulate_units 214087164074488149913349323131548281602048 1 1070435778834065881288125587413770774249472 = 1284522901370179162922853882301348422090752 := by decide!
  have c5 : accumulate_units 214087164074488149913349323131548281602048 6 0 = 1284522901370179162922853882301348422090752 := by
    rw [show (6 : Nat) = 5 + 1 from rfl, accumulate_units_add, c4]
    exact e4
  have e5 : accumulate_units 214087164074488149913349323131548281602048 (6 + 1) 1284522901370179162922853882301348422090752 = 2783132759122972134365951946514391956979712 := by
    have h := accumulate_units_stable 214087164074488149913349323131548281602048 117 (by decide) 6 1284522901370179162922853882301348422090752 (by decide) (by decide) (by decide)
    have hv : (1284522901370179162922853882301348422090752 + (6 + 1) * ((214087164074488149913349323131548281602048 / 2 ^ 117 + (if 2 ^ 117 < 2 * (214087164074488149913349323131548281602048 % 2 ^ 117) then 1 else 0)) * 2 ^ 117) : Nat) = 2783132759122972134365951946514391956979712 := by decide
    rw [hv] at h
    exact_mod_cast h
  have c6 : accumulate_units 214087164074488149913349323131548281602048 13 0 = 2783132759122972134365951946514391956979712 := by
    rw [show (13 : Nat) = 6 + (6 + 1) from rfl, accumulate_units_add, c5]
    exact e5
  have e6 : accumulate_units 214087164074488149913349323131548281602048 1 2783132759122972134365951946514391956979712 = 2997220047812584889115164354377852139864064 := by decide!
  have c7 : accumulate_units 214087164074488149913349323131548281602048 14 0 = 2997220047812584889115164354377852139864064 := by
    rw [show (14 : Nat) = 13 + 1 from rfl, accumulate_units_add, c6]
    exact e6
  have e7 : accumulate_units 214087164074488149913349323131548281602048 (11 + 1) 2997220047812584889115164354377852139864064 = 5566265518245944268731903893028783913959424 := by
    have h := accumulate_units_stable 214087164074488149913349323131548281602048 118 (by decide) 11 2997220047812584889115164354377852139864064 (by decide) (by decide) (by decide)
    have hv : (2997220047812584889115164354377852139864064 + (11 + 1) * ((214087164074488149913349323131548281602048 / 2 ^ 118 + (if 2 ^ 118 < 2 * (214087164074488149913349323131548281602048 % 2 ^ 118) then 1 else 0)) * 2 ^ 118) : Nat) = 5566265518245944268731903893028783913959424 := by decide
    rw [hv] at h
    exact_mod_cast h
  have c8 : accumulate_units 214087164074488149913349323131548281602048 26 0 = 5566265518245944268731903893028783913959424 := by
    rw [show (26 : Nat) = 14 + (11 + 1) from rfl, accumulate_units_add, c7]
    exact e7
  have e8 : accumulate_units 214087164074488149913349323131548281602048 1 5566265518245944268731903893028783913959424 = 5780352640782057550366632187916361561800704 := by decide!
  have c9 : accumulate_units 214087164074488149913349323131548281602048 27 0 = 5780352640782057550366632187916361561800704 := by
    rw [show (27 : Nat) = 26 + 1 from rfl, accumulate_units_add, c8]
    exact e8
  have e9 : accumulate_units 214087164074488149913349323131548281602048 (24 + 1) 5780352640782057550366632187916361561800704 = 11132539011859863246959045208899929509986304 := by
    have h := accumulate_units_stable 214087164074488149913349323131548281602048 119 (by decide) 24 5780352640782057550366632187916361561800704 (by decide) (by decide) (by decide)
    have hv : (5780352640782057550366632187916361561800704 + (24 + 1) * ((214087164074488149913349323131548281602048 / 2 ^ 119 + (if 2 ^ 119 < 2 * (214087164074488149913349323131548281602048 % 2 ^ 119) then 1 else 0)) * 2 ^ 119) : Nat) = 11132539011859863246959045208899929509986304 := by decide
    rw [hv] at h
    exact_mod_cast h
  have c10 : accumulate_units 214087164074488149913349323131548281602048 52 0 = 11132539011859863246959045208899929509986304 := by
    rw [show (52 : Nat) = 27 + (24 + 1) from rfl, accumulate_units_add, c9]
    exact e9
  have e10 : accumulate_units 214087164074488149913349323131548281602048 1 11132539011859863246959045208899929509986304 = 11346626466702975474822741729739272227913728 := by decide!
  have c11 : accumulate_units 214087164074488149913349323131548281602048 53 0 = 11346626466702975474822741729739272227913728 := by
    rw [show (53 : Nat) = 52 + 1 from rfl, accumulate_units_add, c10]
    exact e10
  have e11 : accumulate_units 214087164074488149913349323131548281602048 (50 + 1) 11346626466702975474822741729739272227913728 = 22265052768387806580516505245465713693425664 := by
    have h := accumulate_units_stable 214087164074488149913349323131548281602048 120 (by decide) 50 11346626466702975474822741729739272227913728 (by decide) (by decide) (by decide)
    have hv : (11346626466702975474822741729739272227913728 + (50 + 1) * ((214087164074488149913349323131548281602048 / 2 ^ 120 + (if 2 ^ 120 < 2 * (214087164074488149913349323131548281602048 % 2 ^ 120) then 1 else 0)) * 2 ^ 120) : Nat) = 22265052768387806580516505245465713693425664 := by decide
    rw [hv] at h
    exact_mod_cast h
  have c12 : accumulate_units 214087164074488149913349323131548281602048 104 0 = 22265052768387806580516505245465713693425664 := by
    rw [show (104 : Nat) = 53 + (50 + 1) from rfl, accumulate_units_add, c11]
    exact e11
  have e12 : accumulate_units 214087164074488149913349323131548281602048 (103 + 1) 22265052768387806580516505245465713693425664 = 44530217191927259093966334410724490935795712 := by
    have h := accumulate_units_stable 214087164074488149913349323131548281602048 121 (by decide) 103 22265052768387806580516505245465713693425664 (by decide) (by decide) (by decide)
    have hv : (22265052768387806580516505245465713693425664 + (103 + 1) * ((214087164074488149913349323131548281602048 / 2 ^ 121 + (if 2 ^ 121 < 2 * (214087164074488149913349323131548281602048 % 2 ^ 121) then 1 else 0)) * 2 ^ 121) : Nat) = 44530217191927259093966334410724490935795712 := by decide
    rw [hv] at h
    exact_mod_cast h
  have c13 : accumulate_units 214087164074488149913349323131548281602048 208 0 = 44530217191927259093966334410724490935795712 := by
    rw [show (208 : Nat) = 104 + (103 + 1) from rfl, accumulate_units_add, c12]
    exact e12
  have e13 : accumulate_units 214087164074488149913349323131548281602048 (207 + 1) 44530217191927259093966334410724490935795712 = 89059993080159917595862864757504968797192192 := by
    have h := accumulate_units_stable 214087164074488149913349323131548281602048 122 (by decide) 207 44530217191927259093966334410724490935795712 (by decide) (by decide) (by decide)
    have hv : (44530217191927259093966334410724490935795712 + (207 + 1) * ((214087164074488149913349323131548281602048 / 2 ^ 122 + (if 2 ^ 122 < 2 * (214087164074488149913349323131548281602048 % 2 ^ 122) then 1 else 0)) * 2 ^ 122) : Nat) = 89059993080159917595862864757504968797192192 := by decide
    rw [hv] at h
    exact_mod_cast h
  have c14 : accumulate_units 214087164074488149913349323131548281602048 416 0 = 89059993080159917595862864757504968797192192 := by
    rw [show (416 : Nat) = 208 + (207 + 1) from rfl, accumulate_units_add, c13]
    exact e13
  have e14 : accumulate_units 214087164074488149913349323131548281602048 1 89059993080159917595862864757504968797192192 = 89274078541161036146352751922633721094602752 := by decide!
  have c15 : accumulate_units 214087164074488149913349323131548281602048 417 0 = 89274078541161036146352751922633721094602752 := by
    rw [show (417 : Nat) = 416 + 1 from rfl, accumulate_units_add, c14]
    exact e14
  have e15 : accumulate_units 214087164074488149913349323131548281602048 (415 + 1) 89274078541161036146352751922633721094602752 = 178335842153011339250158324551142983310770176 := by
    have h := accumulate_units_stable 214087164074488149913349323131548281602048 123 (by decide) 415 89274078541161036146352751922633721094602752 (by decide) (by decide) (by decide)
    have hv : (89274078541161036146352751922633721094602752 + (415 + 1) * ((214087164074488149913349323131548281602048 / 2 ^ 123 + (if 2 ^ 123 < 2 * (214087164074488149913349323131548281602048 % 2 ^ 123) then 1 else 0)) * 2 ^ 123) : Nat) = 178335842153011339250158324551142983310770176 := by decide
    rw [hv] at h
    exact_mod_cast h
  have c16 : accumulate_units 214087164074488149913349323131548281602048 833 0 = 178335842153011339250158324551142983310770176 := by
    rw [show (833 : Nat) = 417 + (415 + 1) from rfl, accumulate_units_add, c15]
    exact e15
  have e16 : accumulate_units 214087164074488149913349323131548281602048 (832 + 1) 178335842153011339250158324551142983310770176 = 356664602179261136468545817618268792945639424 := by
    have h := accumulate_units_stable 214087164074488149913349323131548281602048 124 (by decide) 832 178335842153011339250158324551142983310770176 (by decide) (by decide) (by decide)
    have hv : (178335842153011339250158324551142983310770176 + (832 + 1) * ((214087164074488149913349323131548281602048 / 2 ^ 124 + (if 2 ^ 124 < 2 * (214087164074488149913349323131548281602048 % 2 ^ 124) then 1 else 0)) * 2 ^ 124) : Nat) = 356664602179261136468545817618268792945639424 := by decide
    rw [hv] at h
    exact_mod_cast h
  have c17 : accumulate_units 214087164074488149913349323131548281602048 1666 0 = 356664602179261136468545817618268792945639424 := by
    rw [show (1666 : Nat) = 833 + (832 + 1) from rfl, accumulate_units_add, c16]
    exact e16
  have e17 : accumulate_units 214087164074488149913349323131548281602048 1 356664602179261136468545817618268792945639424 = 356878703590998204438026179629082268607184896 := by decide!
  have c18 : accumulate_units 214087164074488149913349323131548281602048 1667 0 = 356878703590998204438026179629082268607184896 := by
    rw [show (1667 : Nat) = 1666 + 1 from rfl, accumulate_units_add, c17]
    exact e17
  have e18 : accumulate_units 214087164074488149913349323131548281602048 (1665 + 1) 356878703590998204438026179629082268607184896 = 713536223643497798874801165763333887876923392 := by
    have h := accumulate_units_stable 214087164074488149913349323131548281602048 125 (by decide) 1665 356878703590998204438026179629082268607184896 (by decide) (by decide) (by decide)
    have hv : (356878703590998204438026179629082268607184896 + (1665 + 1) * ((214087164074488149913349323131548281602048 / 2 ^ 125 + (if 2 ^ 125 < 2 * (214087164074488149913349323131548281602048 % 2 ^ 125) then 1 else 0)) * 2 ^ 125) : Nat) = 713536223643497798874801165763333887876923392 := by decide
    rw [hv] at h
    exact_mod_cast h
  have c19 : accumulate_units 214087164074488149913349323131548281602048 3333 0 = 713536223643497798874801165763333887876923392 := by
    rw [show (3333 : Nat) = 1667 + (1665 + 1) from rfl, accumulate_units_add, c18]
    exact e18
  have e19 : accumulate_units 214087164074488149913349323131548281602048 (3332 + 1) 713536223643497798874801165763333887876923392 = 1427207114033704559146517962027558898023530496 := by
    have h := accumulate_units_stable 214087164074488149913349323131548281602048 126 (by decide) 3332 713536223643497798874801165763333887876923392 (by decide) (by decide) (by decide)
    have hv : (713536223643497798874801165763333887876923392 + (3332 + 1) * ((214087164074488149913349323131548281602048 / 2 ^ 126 + (if 2 ^ 126 < 2 * (214087164074488149913349323131548281602048 % 2 ^ 126) then 1 else 0)) * 2 ^ 126) : Nat) = 1427207114033704559146517962027558898023530496 := by decide
    rw [hv] at h
    exact_mod_cast h
  have c20 : accumulate_units 214087164074488149913349323131548281602048 6666 0 = 1427207114033704559146517962027558898023530496 := by
    rw [show (6666 : Nat) = 3333 + (3332 + 1) from rfl, accumulate_units_add, c19]
    exact e19
  have e20 : accumulate_units 214087164074488149913349323131548281602048 1 1427207114033704559146517962027558898023530496 = 1427421236713089559674652290499285338170589184 := by decide!
  have c21 : accumulate_units 214087164074488149913349323131548281602048 6667 0 = 1427421236713089559674652290499285338170589184 := by
    rw [show (6667 : Nat) = 6666 + 1 from rfl, accumulate_units_add, c20]
    exact e20
  have e21 : accumulate_units 214087164074488149913349323131548281602048 (3332 + 1) 1427421236713089559674652290499285338170589184 = 2140808586821059447971688229871867827455000576 := by
    have h := accumulate_units_stable 214087164074488149913349323131548281602048 127 (by decide) 3332 1427421236713089559674652290499285338170589184 (by decide) (by decide) (by decide)
    have hv : (1427421236713089559674652290499285338170589184 + (3332 + 1) * ((214087164074488149913349323131548281602048 / 2 ^ 127 + (if 2 ^ 127 < 2 * (214087164074488149913349323131548281602048 % 2 ^ 127) then 1 else 0)) * 2 ^ 127) : Nat) = 2140808586821059447971688229871867827455000576 := by decide
    rw [hv] at h
    exact_mod_cast h
  have c22 : accumulate_units 214087164074488149913349323131548281602048 10000 0 = 2140808586821059447971688229871867827455000576 := by
    rw [show (10000 : Nat) = 6667 + (3332 + 1) from rfl, accumulate_units_add, c21]
    exact e21
  exact c22


/-! ## Running sums that involve no rounding -/

theorem f32_representable_shifted (p : Int) (e : Nat) (h : p.natAbs < 2 ^ 24) :
    f32_representable (p * 2 ^ e) := by
  apply f32_representable_of_dvd
  have habs : (p * (2 : Int) ^ e).natAbs = p.natAbs * 2 ^ e := by
    rw [Int.natAbs_mul, Int.natAbs_pow]
    rfl
  rw [habs]
  have hlt : p.natAbs * 2 ^ e < 2 ^ (24 + e) := by
    rw [pow_add]
    exact Nat.mul_lt_mul_of_pos_right h (by positivity)
  have hbl := (bit_length_le_iff _ _).2 hlt
  have hs : bit_length (p.natAbs * 2 ^ e) - 24 ≤ e := by omega
  exact Dvd.dvd.mul_left (pow_dvd_pow 2 hs) _

theorem natAbs_lt_of_mul_abs_lt (k : Nat) (p : Int) (hk : 1 ≤ k)
    (h : (k : Int) * |p| < 2 ^ 24) : p.natAbs < 2 ^ 24 := by
  have h1 : |p| ≤ (k : Int) * |p| := by
    have hk2 : (1 : Int) ≤ (k : Int) := by exact_mod_cast hk
    have := mul_le_mul_of_nonneg_right hk2 (abs_nonneg p)
    linarith
  have h2 : |p| < 2 ^ 24 := lt_of_le_of_lt h1 h
  rw [Int.abs_eq_natAbs] at h2
  exact_mod_cast h2

/-- Terms `p * 2^e` whose multiples up to the run length have fewer than 24
significant bits add without rounding. -/
theorem accumulate_units_dyadic (p : Int) (e : Nat) :
    ∀ (n j : Nat), ((j + n : Nat) : Int) * |p| < 2 ^ 24 →
      accumulate_units (p * 2 ^ e) n ((j : Int) * (p * 2 ^ e)) =
        ((j + n : Nat) : Int) * (p * 2 ^ e) := by
  intro n
  induction n with
  | zero =>
    intro j _
    simp [accumulate_units]
  | succ n ih =>
    intro j h
    have hstep : ((j + 1 : Nat) : Int) * |p| < 2 ^ 24 := by
      have hle : ((j + 1 : Nat) : Int) ≤ ((j + (n + 1) : Nat) : Int) := by
        exact_mod_cast (by omega : j + 1 ≤ j + (n + 1))
      have := mul_le_mul_of_nonneg_right hle (abs_nonneg p)
      linarith
    have hrep := f32_representable_shifted (((j + 1 : Nat) : Int) * p) e (by
      have h2 : |((j + 1 : Nat) : Int) * p| < 2 ^ 24 := by
        rw [abs_mul, abs_of_nonneg (by positivity : (0 : Int) ≤ ((j + 1 : Nat) : Int))]
        exact hstep
      rw [Int.abs_eq_natAbs] at h2
      exact_mod_cast h2)
    unfold f32_representable at hrep
    have hsum : (j : Int) * (p * 2 ^ e) + p * 2 ^ e = ((j + 1 : Nat) : Int) * p * 2 ^ e := by
      push_cast
      ring
    simp only [accumulate_units]
    rw [hsum, hrep]
    have := ih (j + 1) (by
      have : j + 1 + n = j + (n + 1) := by omega
      rw [this]
      exact h)
    rw [show ((j + 1 : Nat) : Int) * p * 2 ^ e = ((j + 1 : Nat) : Int) * (p * 2 ^ e) by ring,
      this]
    congr 2
    omega

theorem average_term_dyadic (N : Nat) (v p : Int) (q : Nat) (hN1 : 1 ≤ N)
    (hN : N < 2 ^ 24) (hv : isInt16 v) (hq : q ≤ 149) (hp : v * 2 ^ q = N * p)
    (hpl : p.natAbs < 2 ^ 24) :
    average_term N v = p * 2 ^ (149 - q) := by
  have hNabs : ((N : Nat) : Int).natAbs < 2 ^ 24 := by simpa using hN
  unfold average_term
  rw [f32_of_int_exact v (natAbs_lt_of_isInt16 v hv), f32_of_int_exact (N : Int) hNabs]
  have hnn : ¬ ((N : Int) * (f32_one : Nat) < 0) := by
    have : (0 : Int) ≤ (N : Int) * (f32_one : Nat) := by positivity
    omega
  have hnat : ((N : Int) * ((f32_one : Nat) : Int)).natAbs = N * f32_one := by
    rw [Int.natAbs_mul]; simp
  simp only [f32_div, hnn, if_false, hnat]
  have hd : 0 < N * f32_one := Nat.mul_pos (by omega) (by unfold f32_one; positivity)
  have hU : ((f32_one : Nat) : Int) = 2 ^ q * 2 ^ (149 - q) := by
    have hexp : q + (149 - q) = 149 := by omega
    rw [← pow_add, hexp]
    unfold f32_one
    push_cast
  have hnum : v * ((f32_one : Nat) : Int) * ((f32_one : Nat) : Int) =
      (p * 2 ^ (149 - q)) * ((N * f32_one : Nat) : Int) := by
    push_cast
    calc v * ((f32_one : Nat) : Int) * ((f32_one : Nat) : Int)
        = (v * 2 ^ q) * 2 ^ (149 - q) * ((f32_one : Nat) : Int) := by
          nth_rewrite 1 [hU]
          ring
      _ = p * 2 ^ (149 - q) * ((N : Int) * ((f32_one : Nat) : Int)) := by
          rw [hp]
          ring
  rw [hnum, f32_round_ratio_mul_cancel _ _ hd]
  exact f32_representable_shifted p (149 - q) hpl

/-- The running sum of a constant sample is the sample itself when the average
involves no rounding. -/
theorem accumulate_exact (N : Nat) (v : Int) (hN1 : 1 ≤ N) (hN : N < 2 ^ 24)
    (hv : isInt16 v) (hex : exact_average N v) :
    accumulate N v N ⟨0⟩ = ⟨v * f32_one⟩ := by
  obtain ⟨q, hq, ⟨p, hp⟩, hlt⟩ := hex
  have hNp : (N : Int) * |p| < 2 ^ 24 := by
    have e : |v * 2 ^ q| = |v| * 2 ^ q := by
      rw [abs_mul, abs_of_pos (by positivity : (0 : Int) < 2 ^ q)]
    have e2 : |(N : Int) * p| = (N : Int) * |p| := by
      rw [abs_mul, abs_of_nonneg (by positivity : (0 : Int) ≤ (N : Int))]
    rw [← e2, ← hp, e]
    exact hlt
  have hpl := natAbs_lt_of_mul_abs_lt N p hN1 hNp
  have hterm := average_term_dyadic N v p q hN1 hN hv (by omega) hp hpl
  have hu := accumulate_units_eq N v N ⟨0⟩
  have hterm2 : (f32_div (f32_of_int v) (f32_of_int (N : Int))).units = p * 2 ^ (149 - q) :=
    hterm
  rw [hterm2] at hu
  have hacc := accumulate_units_dyadic p (149 - q) N 0 (by
    rw [Nat.zero_add]
    exact hNp)
  simp only [Nat.cast_zero, zero_mul, Nat.zero_add] at hacc
  rw [hacc] at hu
  have hfin : (N : Int) * (p * 2 ^ (149 - q)) = v * ((f32_one : Nat) : Int) := by
    have hU : ((f32_one : Nat) : Int) = 2 ^ q * 2 ^ (149 - q) := by
      have hexp : q + (149 - q) = 149 := by omega
      rw [← pow_add, hexp]
      unfold f32_one
      push_cast
    rw [hU, ← mul_assoc, ← hp]
    ring
  rw [hfin] at hu
  exact binary32_eq_of_units _ _ hu


theorem accumulate_eq_running_sum (count : Nat) (v : Int) :
    ∀ (n : Nat) (cache : binary32),
      accumulate count v n cache = running_sum count cache (List.replicate n v) := by
  intro n
  induction n with
  | zero => intro cache; rfl
  | succ n ih =>
    intro cache
    rw [List.replicate_succ]
    simp only [accumulate, running_sum, List.foldl_cons]
    exact ih _

/-- The term `8192.0f / 10000`. -/
theorem average_term_sample_reference :
    (f32_div (f32_of_int 8192) (f32_of_int ((10000 : Nat) : Int))).units =
      584600640164106442912744618776055245323632640 := by
  decide!

theorem constant_bus_replicate (b : Fin 14 → Fin 256) (n : Nat) :
    constant_bus b (List.replicate n (ok_outcome (payload b))) := by
  intro o ho _
  rw [List.eq_of_mem_replicate ho]
  rfl

/-- The `float` running sum of 10000 terms `8192.0f / 10000`, on the units. -/
theorem accumulate_units_sample_reference :
    accumulate_units 584600640164106442912744618776055245323632640 10000 0 = 5846319456654678555620694003912145175946110959616 := by
  have c0 : accumulate_units 584600640164106442912744618776055245323632640 0 0 = 0 := rfl
  have e0 : accumulate_units 584600640164106442912744618776055245323632640 (0 + 1) 0 = 584600640164106442912744618776055245323632640 := by
    have h := accumulate_units_stable 584600640164106442912744618776055245323632640 125 (by decide) 0 0 (by decide) (by decide) (by decide)
    have hv : (0 + (0 + 1) * ((584600640164106442912744618776055245323632640 / 2 ^ 125 + (if 2 ^ 125 < 2 * (584600640164106442912744618776055245323632640 % 2 ^ 125) then 1 else 0)) * 2 ^ 125) : Nat) = 584600640164106442912744618776055245323632640 := by decide
    rw [hv] at h
    exact_mod_cast h
  have c1 : accumulate_units 584600640164106442912744618776055245323632640 1 0 = 584600640164106442912744618776055245323632640 := by
    rw [show (1 : Nat) = 0 + (0 + 1) from rfl, accumulate_units_add, c0]
    exact e0
  have e1 : accumulate_units 584600640164106442912744618776055245323632640 1 584600640164106442912744618776055245323632640 = 1169201280328212885825489237552110490647265280 := by decide!
  have c2 : accumulate_units 584600640164106442912744618776055245323632640 2 0 = 1169201280328212885825489237552110490647265280 := by
    rw [show (2 : Nat) = 1 + 1 from rfl, accumulate_units_add, c1]
    exact e1
  have e2 : accumulate_units 584600640164106442912744618776055245323632640 1 1169201280328212885825489237552110490647265280 = 1753801877957023463620925923406339806999871488 := by decide!
  have c3 : accumulate_units 584600640164106442912744618776055245323632640 3 0 = 1753801877957023463620925923406339806999871488 := by
    rw [show (3 : Nat) = 2 + 1 from rfl, accumulate_units_add, c2]
    exact e2
  have e3 : accumulate_units 584600640164106442912744618776055245323632640 (0 + 1) 1753801877957023463620925923406339806999871488 = 2338402560656425771650978475104220981294530560 := by
    have h := accumulate_units_stable 584600640164106442912744618776055245323632640 127 (by decide) 0 1753801877957023463620925923406339806999871488 (by decide) (by decide) (by decide)
    have hv : (1753801877957023463620925923406339806999871488 + (0 + 1) * ((584600640164106442912744618776055245323632640 / 2 ^ 127 + (if 2 ^ 127 < 2 * (584600640164106442912744618776055245323632640 % 2 ^ 127) then 1 else 0)) * 2 ^ 127) : Nat) = 2338402560656425771650978475104220981294530560 := by decide
    rw [hv] at h
    exact_mod_cast h
  have c4 : accumulate_units 584600640164106442912744618776055245323632640 4 0 = 2338402560656425771650978475104220981294530560 := by
    rw [show (4 : Nat) = 3 + (0 + 1) from rfl, accumulate_units_add, c3]
    exact e3
  have e4 : accumulate_units 584600640164106442912744618776055245323632640 1 2338402560656425771650978475104220981294530560 = 2923003073214644619211799295114798439705083904 := by decide!
  have c5 : accumulate_units 584600640164106442912744618776055245323632640 5 0 = 2923003073214644619211799295114798439705083904 := by
    rw [show (5 : Nat) = 4 + 1 from rfl, accumulate_units_add, c4]
    exact e4
  have e5 : accumulate_units 584600640164106442912744618776055245323632640 (3 + 1) 2923003073214644619211799295114798439705083904 = 5261405804012253851332009501906323136883720192 := by
    have h := accumulate_units_stable 584600640164106442912744618776055245323632640 128 (by decide) 3 2923003073214644619211799295114798439705083904 (by decide) (by decide) (by decide)
    have hv : (2923003073214644619211799295114798439705083904 + (3 + 1) * ((584600640164106442912744618776055245323632640 / 2 ^ 128 + (if 2 ^ 128 < 2 * (584600640164106442912744618776055245323632640 % 2 ^ 128) then 1 else 0)) * 2 ^ 128) : Nat) = 5261405804012253851332009501906323136883720192 := by decide
    rw [hv] at h
    exact_mod_cast h
  have c6 : accumulate_units 584600640164106442912744618776055245323632640 9 0 = 5261405804012253851332009501906323136883720192 := by
    rw [show (9 : Nat) = 5 + (3 + 1) from rfl, accumulate_units_add, c5]
    exact e5
  have e6 : accumulate_units 584600640164106442912744618776055245323632640 (9 + 1) 5261405804012253851332009501906323136883720192 = 11107409228182607722247900385139060562148196352 := by
    have h := accumulate_units_stable 584600640164106442912744618776055245323632640 129 (by decide) 9 5261405804012253851332009501906323136883720192 (by decide) (by decide) (by decide)
    have hv : (5261405804012253851332009501906323136883720192 + (9 + 1) * ((584600640164106442912744618776055245323632640 / 2 ^ 129 + (if 2 ^ 129 < 2 * (584600640164106442912744618776055245323632640 % 2 ^ 129) then 1 else 0)) * 2 ^ 129) : Nat) = 11107409228182607722247900385139060562148196352 := by decide
    rw [hv] at h
    exact_mod_cast h
  have c7 : accumulate_units 584600640164106442912744618776055245323632640 19 0 = 11107409228182607722247900385139060562148196352 := by
    rw [show (19 : Nat) = 9 + (9 + 1) from rfl, accumulate_units_add, c6]
    exact e6
  have e7 : accumulate_units 584600640164106442912744618776055245323632640 1 11107409228182607722247900385139060562148196352 = 11692009570599643109339489473462334304674643968 := by decide!
  have c8 : accumulate_units 584600640164106442912744618776055245323632640 20 0 = 11692009570599643109339489473462334304674643968 := by
    rw [show (20 : Nat) = 19 + 1 from rfl, accumulate_units_add, c7]
    exact e7
  have e8 : accumulate_units 584600640164106442912744618776055245323632640 (18 + 1) 11692009570599643109339489473462334304674643968 = 22799429007253258459741293759839617819869184000 := by
    have h := accumulate_units_stable 584600640164106442912744618776055245323632640 130 (by decide) 18 11692009570599643109339489473462334304674643968 (by decide) (by decide) (by decide)
    have hv : (11692009570599643109339489473462334304674643968 + (18 + 1) * ((584600640164106442912744618776055245323632640 / 2 ^ 130 + (if 2 ^ 130 < 2 * (584600640164106442912744618776055245323632640 % 2 ^ 130) then 1 else 0)) * 2 ^ 130) : Nat) = 22799429007253258459741293759839617819869184000 := by decide
    rw [hv] at h
    exact_mod_cast h
  have c9 : accumulate_units 584600640164106442912744618776055245323632640 39 0 = 22799429007253258459741293759839617819869184000 := by
    rw [show (39 : Nat) = 20 + (18 + 1) from rfl, accumulate_units_add, c8]
    exact e8
  have e9 : accumulate_units 584600640164106442912744618776055245323632640 1 22799429007253258459741293759839617819869184000 = 23384030030235027688709809774912106425932054528 := by decide!
  have c10 : accumulate_units 584600640164106442912744618776055245323632640 40 0 = 23384030030235027688709809774912106425932054528 := by
    rw [show (40 : Nat) = 39 + 1 from rfl, accumulate_units_add, c9]
    exact e9
  have e10 : accumulate_units 584600640164106442912744618776055245323632640 (37 + 1) 23384030030235027688709809774912106425932054528 = 45598817180622486406866971914726343827552993280 := by
    have h := accumulate_units_stable 584600640164106442912744618776055245323632640 131 (by decide) 37 23384030030235027688709809774912106425932054528 (by decide) (by decide) (by decide)
    have hv : (23384030030235027688709809774912106425932054528 + (37 + 1) * ((584600640164106442912744618776055245323632640 / 2 ^ 131 + (if 2 ^ 131 < 2 * (584600640164106442912744618776055245323632640 % 2 ^ 131) then 1 else 0)) * 2 ^ 131) : Nat) = 45598817180622486406866971914726343827552993280 := by decide
    rw [hv] at h
    exact_mod_cast h
  have c11 : accumulate_units 584600640164106442912744618776055245323632640 78 0 = 45598817180622486406866971914726343827552993280 := by
    rw [show (78 : Nat) = 40 + (37 + 1) from rfl, accumulate_units_add, c10]
    exact e10
  have e11 : accumulate_units 584600640164106442912744618776055245323632640 (77 + 1) 45598817180622486406866971914726343827552993280 = 91197590805102006933610620517502936388774920192 := by
    have h := accumulate_units_stable 584600640164106442912744618776055245323632640 132 (by decide) 77 45598817180622486406866971914726343827552993280 (by decide) (by decide) (by decide)
    have hv : (45598817180622486406866971914726343827552993280 + (77 + 1) * ((584600640164106442912744618776055245323632640 / 2 ^ 132 + (if 2 ^ 132 < 2 * (584600640164106442912744618776055245323632640 % 2 ^ 132) then 1 else 0)) * 2 ^ 132) : Nat) = 91197590805102006933610620517502936388774920192 := by decide
    rw [hv] at h
    exact_mod_cast h
  have c12 : accumulate_units 584600640164106442912744618776055245323632640 156 0 = 91197590805102006933610620517502936388774920192 := by
    rw [show (156 : Nat) = 78 + (77 + 1) from rfl, accumulate_units_add, c11]
    exact e11
  have e12 : accumulate_units 584600640164106442912744618776055245323632640 (155 + 1) 91197590805102006933610620517502936388774920192 = 182395138054061047987097917723056121511218774016 := by
    have h := accumulate_units_stable 584600640164106442912744618776055245323632640 133 (by decide) 155 91197590805102006933610620517502936388774920192 (by decide) (by decide) (by decide)
    have hv : (91197590805102006933610620517502936388774920192 + (155 + 1) * ((584600640164106442912744618776055245323632640 / 2 ^ 133 + (if 2 ^ 133 < 2 * (584600640164106442912744618776055245323632640 % 2 ^ 133) then 1 else 0)) * 2 ^ 133) : Nat) = 182395138054061047987097917723056121511218774016 := by decide
    rw [hv] at h
    exact_mod_cast h
  have c13 : accumulate_units 584600640164106442912744618776055245323632640 312 0 = 182395138054061047987097917723056121511218774016 := by
    rw [show (312 : Nat) = 156 + (155 + 1) from rfl, accumulate_units_add, c12]
    exact e12
  have e13 : accumulate_units 584600640164106442912744618776055245323632640 (311 + 1) 182395138054061047987097917723056121511218774016 = 364793629931130468743691730466243090529929658368 := by
    have h := accumulate_units_stable 584600640164106442912744618776055245323632640 134 (by decide) 311 182395138054061047987097917723056121511218774016 (by decide) (by decide) (by decide)
    have hv : (182395138054061047987097917723056121511218774016 + (311 + 1) * ((584600640164106442912744618776055245323632640 / 2 ^ 134 + (if 2 ^ 134 < 2 * (584600640164106442912744618776055245323632640 % 2 ^ 134) then 1 else 0)) * 2 ^ 134) : Nat) = 364793629931130468743691730466243090529929658368 := by decide
    rw [hv] at h
    exact_mod_cast h
  have c14 : accumulate_units 584600640164106442912744618776055245323632640 624 0 = 364793629931130468743691730466243090529929658368 := by
    rw [show (624 : Nat) = 312 + (311 + 1) from rfl, accumulate_units_add, c13]
    exact e13
  have e14 : accumulate_units 584600640164106442912744618776055245323632640 (624 + 1) 364793629931130468743691730466243090529929658368 = 730175224236157353272124848942178525262924218368 := by
    have h := accumulate_units_stable 584600640164106442912744618776055245323632640 135 (by decide) 624 364793629931130468743691730466243090529929658368 (by decide) (by decide) (by decide)
    have hv : (364793629931130468743691730466243090529929658368 + (624 + 1) * ((584600640164106442912744618776055245323632640 / 2 ^ 135 + (if 2 ^ 135 < 2 * (584600640164106442912744618776055245323632640 % 2 ^ 135) then 1 else 0)) * 2 ^ 135) : Nat) = 730175224236157353272124848942178525262924218368 := by decide
    rw [hv] at h
    exact_mod_cast h
  have c15 : accumulate_units 584600640164106442912744618776055245323632640 1249 0 = 730175224236157353272124848942178525262924218368 := by
    rw [show (1249 : Nat) = 624 + (624 + 1) from rfl, accumulate_units_add, c14]
    exact e14
  have e15 : accumulate_units 584600640164106442912744618776055245323632640 1 730175224236157353272124848942178525262924218368 = 730759791230902430407247018619790270692165943296 := by decide!
  have c16 : accumulate_units 584600640164106442912744618776055245323632640 1250 0 = 730759791230902430407247018619790270692165943296 := by
    rw [show (1250 : Nat) = 1249 + 1 from rfl, accumulate_units_add, c15]
    exact e15
  have e16 : accumulate_units 584600640164106442912744618776055245323632640 (1248 + 1) 730759791230902430407247018619790270692165943296 = 1460938369290068156448867762582099643462582272000 := by
    have h := accumulate_units_stable 584600640164106442912744618776055245323632640 136 (by decide) 1248 730759791230902430407247018619790270692165943296 (by decide) (by decide) (by decide)
    have hv : (730759791230902430407247018619790270692165943296 + (1248 + 1) * ((584600640164106442912744618776055245323632640 / 2 ^ 136 + (if 2 ^ 136 < 2 * (584600640164106442912744618776055245323632640 % 2 ^ 136) then 1 else 0)) * 2 ^ 136) : Nat) = 1460938369290068156448867762582099643462582272000 := by decide
    rw [hv] at h
    exact_mod_cast h
  have c17 : accumulate_units 584600640164106442912744618776055245323632640 2499 0 = 1460938369290068156448867762582099643462582272000 := by
    rw [show (2499 : Nat) = 1250 + (1248 + 1) from rfl, accumulate_units_add, c16]
    exact e16
  have e17 : accumulate_units 584600640164106442912744618776055245323632640 (2500 + 1) 1460938369290068156448867762582099643462582272000 = 2922831489233948405200982523102747044902139330560 := by
    have h := accumulate_units_stable 584600640164106442912744618776055245323632640 137 (by decide) 2500 1460938369290068156448867762582099643462582272000 (by decide) (by decide) (by decide)
    have hv : (1460938369290068156448867762582099643462582272000 + (2500 + 1) * ((584600640164106442912744618776055245323632640 / 2 ^ 137 + (if 2 ^ 137 < 2 * (584600640164106442912744618776055245323632640 % 2 ^ 137) then 1 else 0)) * 2 ^ 137) : Nat) = 2922831489233948405200982523102747044902139330560 := by decide
    rw [hv] at h
    exact_mod_cast h
  have c18 : accumulate_units 584600640164106442912744618776055245323632640 5000 0 = 2922831489233948405200982523102747044902139330560 := by
    rw [show (5000 : Nat) = 2499 + (2500 + 1) from rfl, accumulate_units_add, c17]
    exact e17
  have e18 : accumulate_units 584600640164106442912744618776055245323632640 (4998 + 1) 2922831489233948405200982523102747044902139330560 = 5845735107440648307886188450794282186848524566528 := by
    have h := accumulate_units_stable 584600640164106442912744618776055245323632640 138 (by decide) 4998 2922831489233948405200982523102747044902139330560 (by decide) (by decide) (by decide)
    have hv : (2922831489233948405200982523102747044902139330560 + (4998 + 1) * ((584600640164106442912744618776055245323632640 / 2 ^ 138 + (if 2 ^ 138 < 2 * (584600640164106442912744618776055245323632640 % 2 ^ 138) then 1 else 0)) * 2 ^ 138) : Nat) = 5845735107440648307886188450794282186848524566528 := by decide
    rw [hv] at h
    exact_mod_cast h
  have c19 : accumulate_units 584600640164106442912744618776055245323632640 9999 0 = 5845735107440648307886188450794282186848524566528 := by
    rw [show (9999 : Nat) = 5000 + (4998 + 1) from rfl, accumulate_units_add, c18]
    exact e18
  have e19 : accumulate_units 584600640164106442912744618776055245323632640 1 5845735107440648307886188450794282186848524566528 = 5846319456654678555620694003912145175946110959616 := by decide!
  have c20 : accumulate_units 584600640164106442912744618776055245323632640 10000 0 = 5846319456654678555620694003912145175946110959616 := by
    rw [show (10000 : Nat) = 9999 + 1 from rfl, accumulate_units_add, c19]
    exact e19
  exact c20


theorem accumulate_sample_reference :
    accumulate 10000 8192 10000 ⟨0⟩ =
      ⟨5846319456654678555620694003912145175946110959616⟩ := by
  have h := accumulate_units_eq 10000 8192 10000 ⟨0⟩
  rw [average_term_sample_reference, accumulate_units_sample_reference] at h
  exact binary32_eq_of_units _ _ h

theorem truncated_sample_reference :
    Int.tdiv 5846319456654678555620694003912145175946110959616 ((f32_one : Nat) : Int) =
      8192 := by
  decide!

/-- The `float` running mean of `N` equal samples `v`, accumulated from 0.0 and
truncated toward zero, is an integer `m` less than `1 + |v| / 1600` away from
`v` and at most `1601 / 1600` of `v` in magnitude; it is `v` itself when `v`
is 0, when `N` is 1, when the average involves no rounding, and for the
gravity reference at the repository's count.
The conversion `(int16_t)` stores `m` in 16 bits. -/
theorem constant_sample_mean (N : Nat) (v : Int) (hN1 : 1 ≤ N)
    (hN : N ≤ CALIBRATE_SAMPLING_COUNT) (hv : isInt16 v) :
    ∃ m : Int, f32_to_int16 (accumulate N v N ⟨0⟩) = wrap16 m ∧
      1600 * |m - v| < 1600 + |v| ∧ 1600 * |m| ≤ 1601 * |v| ∧
      ((v = 0 ∨ N = 1 ∨ exact_average N v ∨
          (N = CALIBRATE_SAMPLING_COUNT ∧ v = 8192)) → m = v) := by
  have hb := truncated_running_sum_bounds N (List.replicate N v) hN1 hN
    (List.length_replicate _ _)
    (fun x hx => by rw [List.eq_of_mem_replicate hx]; exact hv)
  rw [← accumulate_eq_running_sum] at hb
  simp only [List.sum_replicate, List.map_replicate, nsmul_eq_mul] at hb
  obtain ⟨hb1, hb2⟩ := hb
  have hn : (0 : Int) < (N : Int) := by exact_mod_cast hN1
  have h1 : 1600 * |Int.tdiv (accumulate N v N ⟨0⟩).units f32_one - v| < 1600 + |v| := by
    have e : Int.tdiv (accumulate N v N ⟨0⟩).units f32_one * N - (N : Int) * v =
        (Int.tdiv (accumulate N v N ⟨0⟩).units f32_one - v) * N := by ring
    rw [e, abs_mul, abs_of_pos hn] at hb1
    have : (1600 * |Int.tdiv (accumulate N v N ⟨0⟩).units f32_one - v|) * N <
        (1600 + |v|) * N := by linarith
    exact lt_of_mul_lt_mul_right this hn.le
  have h2 : 1600 * |Int.tdiv (accumulate N v N ⟨0⟩).units f32_one| ≤ 1601 * |v| := by
    have : (1600 * |Int.tdiv (accumulate N v N ⟨0⟩).units f32_one|) * N ≤
        (1601 * |v|) * N := by linarith
    exact le_of_mul_le_mul_right this hn
  refine ⟨Int.tdiv (accumulate N v N ⟨0⟩).units f32_one, rfl, h1, h2, ?_⟩
  rintro (h0 | h1N | hex | ⟨hN2, h8⟩)
  · subst h0
    have : |Int.tdiv (accumulate N 0 N ⟨0⟩).units f32_one| ≤ 0 := by
      rw [abs_zero] at h2
      linarith
    exact abs_eq_zero.1 (le_antisymm this (abs_nonneg _))
  · subst h1N
    rw [accumulate_one v hv, f32_of_int_exact v (natAbs_lt_of_isInt16 v hv)]
    exact Int.mul_tdiv_cancel _ (by unfold f32_one; positivity)
  · have hN24 : N < 2 ^ 24 := by
      unfold CALIBRATE_SAMPLING_COUNT at hN
      omega
    rw [accumulate_exact N v hN1 hN24 hv hex]
    exact Int.mul_tdiv_cancel _ (by unfold f32_one; positivity)
  · subst h8
    rw [hN2]
    show Int.tdiv (accumulate 10000 8192 10000 ⟨0⟩).units f32_one = 8192
    rw [accumulate_sample_reference]
    exact truncated_sample_reference

theorem abs_le_of_isInt16 (v : Int) (hv : isInt16 v) : |v| ≤ 32768 := by
  unfold isInt16 at hv
  exact abs_le.2 ⟨by omega, by omega⟩

theorem mean_deviation_small (m v : Int) (hv : isInt16 v)
    (h1 : 1600 * |m - v| < 1600 + |v|) : -21 ≤ m - v ∧ m - v ≤ 21 := by
  have hvabs := abs_le_of_isInt16 v hv
  have hd : |m - v| ≤ 21 := by
    by_contra hcon
    push_neg at hcon
    have : 22 ≤ |m - v| := hcon
    linarith
  exact abs_le.1 hd

theorem calibrated_axis_of_mean (N : Nat) (m v g : Int) (hv : isInt16 v)
    (h1 : 1600 * |m - v| < 1600 + |v|) (h2 : 1600 * |m| ≤ 1601 * |v|)
    (h3 : (v = 0 ∨ N = 1 ∨ exact_average N v ∨
      (N = CALIBRATE_SAMPLING_COUNT ∧ v = 8192)) → m = v) :
    calibrated_axis N (wrap16 (wrap16 m - g)) (v - g) v := by
  obtain ⟨hd1, hd2⟩ := mean_deviation_small m v hv h1
  have hδ : wrap16 (wrap16 (wrap16 m - g) - (v - g)) = m - v := by
    unfold wrap16
    omega
  refine ⟨wrap16_inRange _, ?_, ?_, ?_, ?_⟩
  · rw [hδ]
    exact h1
  · rw [hδ]
    have : v + (m - v) = m := by ring
    rw [this]
    exact h2
  · rintro ⟨hlo, hhi⟩
    unfold isInt16 at hlo hhi
    unfold wrap16
    omega
  · intro hc
    rw [h3 hc]
    unfold wrap16
    omega

theorem calibrated_axis_of_sample (N : Nat) (v : Int) (hN1 : 1 ≤ N)
    (hN : N ≤ CALIBRATE_SAMPLING_COUNT) (hv : isInt16 v) :
    calibrated_axis N (f32_to_int16 (accumulate N v N ⟨0⟩)) v v ∧
    calibrated_axis N (wrap16 (f32_to_int16 (accumulate N v N ⟨0⟩) - 0)) v v ∧
    calibrated_axis N (wrap16 (f32_to_int16 (accumulate N v N ⟨0⟩) - 8192)) (v - 8192) v := by
  obtain ⟨m, hm, h1, h2, h3⟩ := constant_sample_mean N v hN1 hN hv
  rw [hm]
  have e0 := calibrated_axis_of_mean N m v 0 hv h1 h2 h3
  have e8 := calibrated_axis_of_mean N m v 8192 hv h1 h2 h3
  have hw : wrap16 (wrap16 m - 0) = wrap16 m := by
    unfold wrap16
    omega
  rw [sub_zero v] at e0
  refine ⟨?_, e0, e8⟩
  rw [← hw]
  exact e0

/-- C4 (amended): when Sample Acquisition is a constant stub delivering the raw
sample (ax, ay, az, gx, gy, gz) and both average caches start at 0.0, then for
every sample count `N` from 1 to 10000 the calibration returns, and each
stored offset component is an `int16_t` whose 16-bit difference to the claimed
value (ax, ay, az - 8192, gx, gy, gz) is `d` with `|d| < 1 + |v| / 1600` and
`|v + d| ≤ 1601 / 1600 * |v|`, `v` being the sample on that axis; `d` is the
plain difference when the claimed value is at least 22 counts inside the
`int16_t` range.  The stored component is exactly the claimed one on every
axis where the sample is 0, for every sample when `N = 1`, on every axis where
`v / N` is a binary fraction that is averaged without rounding
(`exact_average`; for `N = 10000` the multiples of 625), and at the
repository's `N = 10000` on every axis where the sample is the gravity
reference 8192. -/
theorem C4_calibrate_constant_sample (c : Mpu6050Header) (b : Fin 14 → Fin 256)
    (N : Nat) (s : State) (hN1 : 1 ≤ N) (hN : N ≤ CALIBRATE_SAMPLING_COUNT)
    (hbus : N ≤ answered s.bus) (hconst : constant_bus b s.bus) :
    ∃ s1, mpu6050_calibrate_with c N zero_cache zero_cache s = some s1 ∧
      (N = CALIBRATE_SAMPLING_COUNT →
        mpu6050_calibrate c zero_cache zero_cache s = some s1) ∧
      calibrated_axis N s1.mpu6050_accel_offset.x (s16 (b 0) (b 1)) (s16 (b 0) (b 1)) ∧
      calibrated_axis N s1.mpu6050_accel_offset.y (s16 (b 2) (b 3)) (s16 (b 2) (b 3)) ∧
      calibrated_axis N s1.mpu6050_accel_offset.z (s16 (b 4) (b 5) - 8192)
        (s16 (b 4) (b 5)) ∧
      calibrated_axis N s1.mpu6050_gyro_offset.x (s16 (b 8) (b 9)) (s16 (b 8) (b 9)) ∧
      calibrated_axis N s1.mpu6050_gyro_offset.y (s16 (b 10) (b 11)) (s16 (b 10) (b 11)) ∧
      calibrated_axis N s1.mpu6050_gyro_offset.z (s16 (b 12) (b 13)) (s16 (b 12) (b 13)) := by
  obtain ⟨s1, hcal, hao, hgo⟩ :=
    mpu6050_calibrate_with_constant c b N zero_cache zero_cache s hbus hconst
  have r0 := s16_inRange (b 0) (b 1) (b 0).isLt (b 1).isLt
  have r1 := s16_inRange (b 2) (b 3) (b 2).isLt (b 3).isLt
  have r2 := s16_inRange (b 4) (b 5) (b 4).isLt (b 5).isLt
  have r3 := s16_inRange (b 8) (b 9) (b 8).isLt (b 9).isLt
  have r4 := s16_inRange (b 10) (b 11) (b 10).isLt (b 11).isLt
  have r5 := s16_inRange (b 12) (b 13) (b 12).isLt (b 13).isLt
  refine ⟨s1, hcal, ?_, ?_, ?_, ?_, ?_, ?_, ?_⟩
  · intro hN2
    subst hN2
    exact hcal
  · rw [hao]
    exact (calibrated_axis_of_sample N _ hN1 hN r0).2.1
  · rw [hao]
    exact (calibrated_axis_of_sample N _ hN1 hN r1).2.1
  · rw [hao]
    exact (calibrated_axis_of_sample N _ hN1 hN r2).2.2
  · rw [hgo]
    exact (calibrated_axis_of_sample N _ hN1 hN r3).1
  · rw [hgo]
    exact (calibrated_axis_of_sample N _ hN1 hN r4).1
  · rw [hgo]
    exact (calibrated_axis_of_sample N _ hN1 hN r5).1

/-- Witness of C4: 10000 samples, the constant raw sample
(3, 0, 8192, 0, -1250, 32767) on a bus that never times out.  The axes where
the sample is 0, 8192 or the multiple -1250 of 625 are stored exactly. -/
theorem C4_calibrate_constant_sample_witness :
    (1 ≤ 10000 ∧ 10000 ≤ CALIBRATE_SAMPLING_COUNT ∧
      10000 ≤ answered (List.replicate 10000 (ok_outcome (payload (fun i =>
        if i = 1 then 3 else if i = 4 then 0x20 else if i = 10 then 0xFB
        else if i = 11 then 0x1E else if i = 12 then 0x7F else if i = 13 then 0xFF
        else 0)))) ∧
      constant_bus (fun i =>
        if i = 1 then 3 else if i = 4 then 0x20 else if i = 10 then 0xFB
        else if i = 11 then 0x1E else if i = 12 then 0x7F else if i = 13 then 0xFF
        else 0)
        (List.replicate 10000 (ok_outcome (payload (fun i =>
          if i = 1 then 3 else if i = 4 then 0x20 else if i = 10 then 0xFB
          else if i = 11 then 0x1E else if i = 12 then 0x7F else if i = 13 then 0xFF
          else 0))))) ∧
    ∃ s1, mpu6050_calibrate ⟨0xD0, 0x6B, 0x1C, 0x1B, 0x3B, ⟨2 ^ 136⟩, ⟨2 ^ 149⟩⟩
        zero_cache zero_cache
        ⟨List.replicate 10000 (ok_outcome (payload (fun i =>
          if i = 1 then 3 else if i = 4 then 0x20 else if i = 10 then 0xFB
          else if i = 11 then 0x1E else if i = 12 then 0x7F else if i = 13 then 0xFF
          else 0))), [], ⟨7, 7, 7⟩, ⟨7, 7, 7⟩⟩ = some s1 ∧
      calibrated_axis 10000 s1.mpu6050_accel_offset.x 3 3 ∧
      s1.mpu6050_accel_offset.y = 0 ∧
      s1.mpu6050_accel_offset.z = 0 ∧
      s1.mpu6050_gyro_offset.x = 0 ∧
      s1.mpu6050_gyro_offset.y = -1250 ∧
      calibrated_axis 10000 s1.mpu6050_gyro_offset.z 32767 32767 :=
  ⟨⟨by decide, by decide, by rw [answered_replicate_ok], constant_bus_replicate _ _⟩,
    match C4_calibrate_constant_sample ⟨0xD0, 0x6B, 0x1C, 0x1B, 0x3B, ⟨2 ^ 136⟩, ⟨2 ^ 149⟩⟩
      (fun i =>
        if i = 1 then 3 else if i = 4 then 0x20 else if i = 10 then 0xFB
        else if i = 11 then 0x1E else if i = 12 then 0x7F else if i = 13 then 0xFF
        else 0)
      10000
      ⟨List.replicate 10000 (ok_outcome (payload (fun i =>
          if i = 1 then 3 else if i = 4 then 0x20 else if i = 10 then 0xFB
          else if i = 11 then 0x1E else if i = 12 then 0x7F else if i = 13 then 0xFF
          else 0))), [], ⟨7, 7, 7⟩, ⟨7, 7, 7⟩⟩
      (by decide) (by decide) (by rw [answered_replicate_ok]) (constant_bus_replicate _ _) with
    | ⟨s1, _, h2, hx, hy, hz, hgx, hgy, hgz⟩ =>
      ⟨s1, h2 rfl, hx, hy.2.2.2.2 (Or.inl rfl), hz.2.2.2.2 (Or.inr (Or.inr (Or.inr ⟨rfl, rfl⟩))),
        hgx.2.2.2.2 (Or.inl rfl), hgy.2.2.2.2 (Or.inr (Or.inr (Or.inl (by decide)))), hgz⟩⟩

/-- C4 (counterexample): the constant raw sample (3, 0, 0, 0, 0, 0), delivered
10000 times by a bus that never times out, with both average caches starting
at 0.0: `mpu6050_calibrate` stores the accelerometer offset (2, 0, -8192), not
(3, 0, -8192).  The `float` running sum of 10000 terms `3.0f / 10000` is
6291271 * 2^-21 = 2.99991..., which truncates to 2. -/
theorem C4_counterexample_sample_three :
    (mpu6050_read_unscaled_data ⟨0xD0, 0x6B, 0x1C, 0x1B, 0x3B, ⟨2 ^ 136⟩, ⟨2 ^ 149⟩⟩
        ⟨List.replicate 10000 (ok_outcome (payload (fun i => if i = 1 then 3 else 0))), [],
          ⟨0, 0, 0⟩, ⟨0, 0, 0⟩⟩).map (fun r => (r.1, r.2.1)) =
      some (⟨3, 0, 0⟩, ⟨0, 0, 0⟩) ∧
    accumulate 10000 3 10000 ⟨0⟩ = ⟨6291271 * 2 ^ 128⟩ ∧
    (mpu6050_calibrate ⟨0xD0, 0x6B, 0x1C, 0x1B, 0x3B, ⟨2 ^ 136⟩, ⟨2 ^ 149⟩⟩
        zero_cache zero_cache
        ⟨List.replicate 10000 (ok_outcome (payload (fun i => if i = 1 then 3 else 0))), [],
          ⟨0, 0, 0⟩, ⟨0, 0, 0⟩⟩).map
        (fun s => (s.mpu6050_accel_offset, s.mpu6050_gyro_offset)) =
      some (⟨2, 0, -8192⟩, ⟨0, 0, 0⟩) ∧
    (mpu6050_calibrate ⟨0xD0, 0x6B, 0x1C, 0x1B, 0x3B, ⟨2 ^ 136⟩, ⟨2 ^ 149⟩⟩
        zero_cache zero_cache
        ⟨List.replicate 10000 (ok_outcome (payload (fun i => if i = 1 then 3 else 0))), [],
          ⟨0, 0, 0⟩, ⟨0, 0, 0⟩⟩).map
        (fun s => (s.mpu6050_accel_offset, s.mpu6050_gyro_offset)) ≠
      some (⟨3, 0, 0 - 8192⟩, ⟨0, 0, 0⟩) := by
  have hterm3 := average_term_sample_three
  have hterm0 := average_term_sample_zero
  have hacc3 : accumulate 10000 3 10000 ⟨0⟩ = ⟨6291271 * 2 ^ 128⟩ := by
    have h := accumulate_units_eq 10000 3 10000 ⟨0⟩
    rw [hterm3, accumulate_units_sample_three] at h
    have hv : (2140808586821059447971688229871867827455000576 : Int) = 6291271 * 2 ^ 128 := by
      norm_num
    rw [hv] at h
    exact binary32_eq_of_units _ _ h
  have hacc0 : accumulate 10000 0 10000 ⟨0⟩ = ⟨0⟩ := by
    have h := accumulate_units_eq 10000 0 10000 ⟨0⟩
    rw [hterm0, accumulate_units_zero] at h
    exact binary32_eq_of_units _ _ h
  have hconst : constant_bus (fun i => if i = 1 then 3 else 0)
      (List.replicate 10000 (ok_outcome (payload (fun i => if i = 1 then 3 else 0)))) := by
    intro o ho _
    rw [List.eq_of_mem_replicate ho]
    rfl
  obtain ⟨s1, hcal, hao, hgo⟩ := mpu6050_calibrate_with_constant
    ⟨0xD0, 0x6B, 0x1C, 0x1B, 0x3B, ⟨2 ^ 136⟩, ⟨2 ^ 149⟩⟩ (fun i => if i = 1 then 3 else 0)
    10000 zero_cache zero_cache
    ⟨List.replicate 10000 (ok_outcome (payload (fun i => if i = 1 then 3 else 0))), [],
      ⟨0, 0, 0⟩, ⟨0, 0, 0⟩⟩
    (by rw [answered_replicate_ok]) hconst
  have hs3 : s16 ((fun i : Fin 14 => (if i = 1 then 3 else 0 : Fin 256)) 0)
      ((fun i : Fin 14 => (if i = 1 then 3 else 0 : Fin 256)) 1) = 3 := by decide
  have hval : (mpu6050_calibrate ⟨0xD0, 0x6B, 0x1C, 0x1B, 0x3B, ⟨2 ^ 136⟩, ⟨2 ^ 149⟩⟩
        zero_cache zero_cache
        ⟨List.replicate 10000 (ok_outcome (payload (fun i => if i = 1 then 3 else 0))), [],
          ⟨0, 0, 0⟩, ⟨0, 0, 0⟩⟩).map
        (fun s => (s.mpu6050_accel_offset, s.mpu6050_gyro_offset)) =
      some (⟨2, 0, -8192⟩, ⟨0, 0, 0⟩) := by
    have hcal2 : mpu6050_calibrate ⟨0xD0, 0x6B, 0x1C, 0x1B, 0x3B, ⟨2 ^ 136⟩, ⟨2 ^ 149⟩⟩
        zero_cache zero_cache
        ⟨List.replicate 10000 (ok_outcome (payload (fun i => if i = 1 then 3 else 0))), [],
          ⟨0, 0, 0⟩, ⟨0, 0, 0⟩⟩ = some s1 := hcal
    rw [hcal2, Option.map_some', hao, hgo]
    have z0 : ∀ i j : Fin 14, i ≠ 1 → j ≠ 1 →
        s16 ((fun i : Fin 14 => (if i = 1 then 3 else 0 : Fin 256)) i)
          ((fun i : Fin 14 => (if i = 1 then 3 else 0 : Fin 256)) j) = 0 := by decide
    rw [hs3, z0 2 3 (by decide) (by decide), z0 4 5 (by decide) (by decide),
      z0 8 9 (by decide) (by decide), z0 10 11 (by decide) (by decide),
      z0 12 13 (by decide) (by decide)]
    simp only [zero_cache, hacc3, hacc0]
    decide!
  refine ⟨?_, hacc3, hval, ?_⟩
  · have h10 : (10000 : Nat) = 9999 + 1 := rfl
    rw [h10, List.replicate_succ]
    have := mpu6050_read_unscaled_data_eq
      ⟨0xD0, 0x6B, 0x1C, 0x1B, 0x3B, ⟨2 ^ 136⟩, ⟨2 ^ 149⟩⟩ (fun i => if i = 1 then 3 else 0)
      [] (List.replicate 9999 (ok_outcome (payload (fun i => if i = 1 then 3 else 0)))) []
      ⟨0, 0, 0⟩ ⟨0, 0, 0⟩
    simp only [List.map_nil, List.nil_append] at this
    rw [this]
    decide
  · rw [hval]
    decide

/-! ## End-to-end scenario -/

theorem f32_round_ratio_two_pow (k : Nat) (m : Int) :
    f32_round_ratio (2 ^ k * m) 1 = 2 ^ k * f32_round_ratio m 1 := by
  induction k with
  | zero => simp
  | succ k ih =>
    have h : (2 : Int) ^ (k + 1) * m = 2 * (2 ^ k * m) := by ring
    rw [h, f32_round_ratio_double, ih]
    ring

/-- C11: the burst bytes 10 00 00 00 00 00 00 00 00 00 00 00 E0 00 decode to
accel = (4096, 0, 0) and gyro = (0, 0, -8192); with zero stored offsets
`mpu6050_fix_bias` leaves both triples unchanged; and after
`mpu6050_accel_convert_to_scale` the scaled accel.x is the `float` product
4096 * `MPU6050_ACCEL_SCALE`, whose value is exactly 4096 times the constant
when the constant is a binary32 value. -/
theorem C11_end_to_end_scenario (c : Mpu6050Header) (timeouts : List (List Nat))
    (rest : List I2cOutcome) (tr : List Event) (out : vector3d_f_t) :
    (mpu6050_read_unscaled_data c
        ⟨timeouts.map timeout_outcome ++
          ok_outcome [0x10, 0x00, 0x00, 0x00, 0x00, 0x00, 0x00, 0x00, 0x00, 0x00, 0x00, 0x00,
            0xE0, 0x00] :: rest, tr, ⟨0, 0, 0⟩, ⟨0, 0, 0⟩⟩).map
        (fun r => (r.1, r.2.1, r.2.2.mpu6050_accel_offset, r.2.2.mpu6050_gyro_offset)) =
      some (⟨4096, 0, 0⟩, ⟨0, 0, -8192⟩, ⟨0, 0, 0⟩, ⟨0, 0, 0⟩) ∧
    (∀ (bus : List I2cOutcome) (tr2 : List Event),
      (mpu6050_fix_bias ⟨4096, 0, 0⟩ ⟨0, 0, -8192⟩ ⟨bus, tr2, ⟨0, 0, 0⟩, ⟨0, 0, 0⟩⟩).1 =
        ⟨4096, 0, 0⟩ ∧
      (mpu6050_fix_bias ⟨4096, 0, 0⟩ ⟨0, 0, -8192⟩ ⟨bus, tr2, ⟨0, 0, 0⟩, ⟨0, 0, 0⟩⟩).2.1 =
        ⟨0, 0, -8192⟩) ∧
    (mpu6050_accel_convert_to_scale c ⟨4096, 0, 0⟩ out).2.x =
      f32_mul (f32_of_int 4096) (MPU6050_ACCEL_SCALE c) ∧
    (f32_representable (MPU6050_ACCEL_SCALE c).units →
      (mpu6050_accel_convert_to_scale c ⟨4096, 0, 0⟩ out).2.x.units =
        4096 * (MPU6050_ACCEL_SCALE c).units) := by
  refine ⟨?_, ?_, rfl, ?_⟩
  · unfold mpu6050_read_unscaled_data
    rw [mpu6050_read_retry]
    rfl
  · intro bus tr2
    exact ⟨rfl, rfl⟩
  · intro hrep
    unfold f32_representable at hrep
    simp only [mpu6050_accel_convert_to_scale]
    rw [f32_mul_of_int 4096 _ (by decide)]
    have h := f32_round_ratio_two_pow 12 (MPU6050_ACCEL_SCALE c).units
    have h4096 : (4096 : Int) = 2 ^ 12 := by norm_num
    rw [h4096, h, hrep]

/-- Witness of C11: the scale constant 2^-13 (one g is 8192 counts), which is
a binary32 value; the scaled accel.x is 0.5. -/
theorem C11_end_to_end_scenario_witness :
    f32_representable (MPU6050_ACCEL_SCALE
      ⟨0xD0, 0x6B, 0x1C, 0x1B, 0x3B, ⟨2 ^ 136⟩, ⟨2 ^ 149⟩⟩).units ∧
    (mpu6050_accel_convert_to_scale ⟨0xD0, 0x6B, 0x1C, 0x1B, 0x3B, ⟨2 ^ 136⟩, ⟨2 ^ 149⟩⟩
        ⟨4096, 0, 0⟩ zero_cache).2.x.units =
      4096 * (MPU6050_ACCEL_SCALE
        ⟨0xD0, 0x6B, 0x1C, 0x1B, 0x3B, ⟨2 ^ 136⟩, ⟨2 ^ 149⟩⟩).units :=
  ⟨f32_representable_of_dvd _ (by decide!),
    (C11_end_to_end_scenario ⟨0xD0, 0x6B, 0x1C, 0x1B, 0x3B, ⟨2 ^ 136⟩, ⟨2 ^ 149⟩⟩ [] [] []
      zero_cache).2.2.2 (f32_representable_of_dvd _ (by decide!))⟩

/-! ## Start-up state -/

/-- C15: in the start-up state both stored offsets are (0, 0, 0), and in that
state `mpu6050_fix_bias` leaves every raw accelerometer and gyroscope triple
(of `int16_t` values) unchanged, and the state too. -/
theorem C15_startup_offsets_are_zero (bus : List I2cOutcome) :
    (startup_state bus).mpu6050_accel_offset = ⟨0, 0, 0⟩ ∧
    (startup_state bus).mpu6050_gyro_offset = ⟨0, 0, 0⟩ ∧
    ∀ a g : vector3d_16_t, a.inRange → g.inRange →
      mpu6050_fix_bias a g (startup_state bus) = (a, g, startup_state bus) := by
  refine ⟨rfl, rfl, ?_⟩
  intro a g ha hg
  obtain ⟨hax, hay, haz⟩ := ha
  obtain ⟨hgx, hgy, hgz⟩ := hg
  simp only [mpu6050_fix_bias, startup_state, sub_zero, wrap16_of_inRange _ hax,
    wrap16_of_inRange _ hay, wrap16_of_inRange _ haz, wrap16_of_inRange _ hgx,
    wrap16_of_inRange _ hgy, wrap16_of_inRange _ hgz]

/-- Witness of C15: the raw triples (32767, -32768, 1) and (-1, 0, 4096). -/
theorem C15_startup_offsets_are_zero_witness :
    (⟨32767, -32768, 1⟩ : vector3d_16_t).inRange ∧ (⟨-1, 0, 4096⟩ : vector3d_16_t).inRange ∧
    mpu6050_fix_bias ⟨32767, -32768, 1⟩ ⟨-1, 0, 4096⟩ (startup_state []) =
      (⟨32767, -32768, 1⟩, ⟨-1, 0, 4096⟩, startup_state []) :=
  ⟨by decide, by decide,
    (C15_startup_offsets_are_zero []).2.2 ⟨32767, -32768, 1⟩ ⟨-1, 0, 4096⟩
      (by decide) (by decide)⟩

/-! ## Decode round trip -/

theorem shift_or_eq (hi lo : Nat) (hlo : lo < 256) : hi <<< 8 ||| lo = 256 * hi + lo := by
  rw [Nat.shiftLeft_eq, Nat.mul_comm]
  exact (Nat.mul_add_lt_is_or (show lo < 2 ^ 8 by omega) hi).symm

theorem s16_big_endian (v : Int) (h : isInt16 v) :
    s16 (big_endian_hi v) (big_endian_lo v) = v := by
  unfold isInt16 at h
  have hor := shift_or_eq (big_endian_hi v).val (big_endian_lo v).val (big_endian_lo v).isLt
  unfold s16
  rw [hor]
  simp only [big_endian_hi, big_endian_lo]
  omega

theorem s16_injective (hi lo hi2 lo2 : Nat) (h1 : hi < 256) (h2 : lo < 256)
    (h3 : hi2 < 256) (h4 : lo2 < 256) (h : s16 hi lo = s16 hi2 lo2) : hi = hi2 ∧ lo = lo2 := by
  unfold s16 at h
  rw [shift_or_eq hi lo h2, shift_or_eq hi2 lo2 h4] at h
  split at h <;> split at h <;> omega

theorem s16_injective_fin (a b a2 b2 : Fin 256) (h : s16 a b = s16 a2 b2) :
    a = a2 ∧ b = b2 := by
  have := s16_injective a.val b.val a2.val b2.val a.isLt b.isLt a2.isLt b2.isLt h
  exact ⟨Fin.ext this.1, Fin.ext this.2⟩

/-- C17: decode round trip.  For every pair of triples of `int16_t` values
(accel, gyro) and every choice of the two temperature bytes, the payload that
lays the six values out big-endian at offsets 0-5 and 8-13 is decoded by
`mpu6050_read_unscaled_data` to exactly (accel, gyro); and two payloads that
decode to the same pair of triples agree on the 12 data bytes. -/
theorem C17_decode_round_trip (c : Mpu6050Header) (accel gyro : vector3d_16_t)
    (t6 t7 : Fin 256) (ts : List (List Nat)) (rest : List I2cOutcome) (tr : List Event)
    (ao go : vector3d_16_t) (ha : accel.inRange) (hg : gyro.inRange) :
    (mpu6050_read_unscaled_data c
        ⟨ts.map timeout_outcome ++ ok_outcome (payload (layout accel gyro t6 t7)) :: rest,
          tr, ao, go⟩).map (fun r => (r.1, r.2.1)) = some (accel, gyro) ∧
    ∀ b b2 : Fin 14 → Fin 256,
      (mpu6050_read_unscaled_data c
          ⟨ts.map timeout_outcome ++ ok_outcome (payload b) :: rest, tr, ao, go⟩).map
          (fun r => (r.1, r.2.1)) =
        (mpu6050_read_unscaled_data c
          ⟨ts.map timeout_outcome ++ ok_outcome (payload b2) :: rest, tr, ao, go⟩).map
          (fun r => (r.1, r.2.1)) →
      ∀ i : Fin 14, i ≠ 6 → i ≠ 7 → b i = b2 i := by
  obtain ⟨hax, hay, haz⟩ := ha
  obtain ⟨hgx, hgy, hgz⟩ := hg
  refine ⟨?_, ?_⟩
  · rw [mpu6050_read_unscaled_data_eq]
    simp only [Option.map_some']
    have e0 : s16 (layout accel gyro t6 t7 0) (layout accel gyro t6 t7 1) = accel.x :=
      s16_big_endian _ hax
    have e1 : s16 (layout accel gyro t6 t7 2) (layout accel gyro t6 t7 3) = accel.y :=
      s16_big_endian _ hay
    have e2 : s16 (layout accel gyro t6 t7 4) (layout accel gyro t6 t7 5) = accel.z :=
      s16_big_endian _ haz
    have e3 : s16 (layout accel gyro t6 t7 8) (layout accel gyro t6 t7 9) = gyro.x :=
      s16_big_endian _ hgx
    have e4 : s16 (layout accel gyro t6 t7 10) (layout accel gyro t6 t7 11) = gyro.y :=
      s16_big_endian _ hgy
    have e5 : s16 (layout accel gyro t6 t7 12) (layout accel gyro t6 t7 13) = gyro.z :=
      s16_big_endian _ hgz
    rw [e0, e1, e2, e3, e4, e5]
  · intro b b2 h
    rw [mpu6050_read_unscaled_data_eq, mpu6050_read_unscaled_data_eq] at h
    simp only [Option.map_some', Option.some.injEq, Prod.mk.injEq,
      vector3d_16_t.mk.injEq] at h
    obtain ⟨⟨h0, h1, h2⟩, h3, h4, h5⟩ := h
    have k0 := s16_injective_fin _ _ _ _ h0
    have k1 := s16_injective_fin _ _ _ _ h1
    have k2 := s16_injective_fin _ _ _ _ h2
    have k3 := s16_injective_fin _ _ _ _ h3
    have k4 := s16_injective_fin _ _ _ _ h4
    have k5 := s16_injective_fin _ _ _ _ h5
    intro i hi6 hi7
    fin_cases i
    · exact k0.1
    · exact k0.2
    · exact k1.1
    · exact k1.2
    · exact k2.1
    · exact k2.2
    · exact absurd rfl hi6
    · exact absurd rfl hi7
    · exact k3.1
    · exact k3.2
    · exact k4.1
    · exact k4.2
    · exact k5.1
    · exact k5.2

/-- Witness of C17: accel (-1, 4096, -32768), gyro (32767, 0, -8192), temperature
bytes 0xAB 0xCD. -/
theorem C17_decode_round_trip_witness :
    (⟨-1, 4096, -32768⟩ : vector3d_16_t).inRange ∧
    (⟨32767, 0, -8192⟩ : vector3d_16_t).inRange ∧
    (mpu6050_read_unscaled_data ⟨0xD0, 0x6B, 0x1C, 0x1B, 0x3B, ⟨2 ^ 136⟩, ⟨2 ^ 149⟩⟩
        ⟨[ok_outcome (payload (layout ⟨-1, 4096, -32768⟩ ⟨32767, 0, -8192⟩ 0xAB 0xCD))],
          [], ⟨0, 0, 0⟩, ⟨0, 0, 0⟩⟩).map (fun r => (r.1, r.2.1)) =
      some (⟨-1, 4096, -32768⟩, ⟨32767, 0, -8192⟩) :=
  ⟨by decide, by decide,
    (C17_decode_round_trip ⟨0xD0, 0x6B, 0x1C, 0x1B, 0x3B, ⟨2 ^ 136⟩, ⟨2 ^ 149⟩⟩
      ⟨-1, 4096, -32768⟩ ⟨32767, 0, -8192⟩ 0xAB 0xCD [] [] [] ⟨0, 0, 0⟩ ⟨0, 0, 0⟩
      (by decide) (by decide)).1⟩

/-! ## What a calibration run does on the bus -/

theorem mpu6050_read_unscaled_data_trace (c : Mpu6050Header) (s : State)
    (h : 1 ≤ answered s.bus) :
    ∃ a g s1 added, mpu6050_read_unscaled_data c s = some (a, g, s1) ∧
      answered s.bus = answered s1.bus + 1 ∧
      s1.trace = s.trace ++ added ∧
      (∀ e ∈ added, ∃ status,
        e = Event.i2c_read c.MPU6050_DEVICE_ADDRESS (c.MPU6050_ACCEL_XOUT_H % 256) 14 status) ∧
      completed added =
        [Event.i2c_read c.MPU6050_DEVICE_ADDRESS (c.MPU6050_ACCEL_XOUT_H % 256) 14
          I2cStatus.OK] := by
  obtain ⟨bus, tr, ao, go⟩ := s
  obtain ⟨ts, data, rest, hbus, hcount⟩ := answered_split bus h
  subst hbus
  unfold mpu6050_read_unscaled_data
  rw [mpu6050_read_retry]
  refine ⟨_, _, _, List.replicate ts.length
      (Event.i2c_read c.MPU6050_DEVICE_ADDRESS (c.MPU6050_ACCEL_XOUT_H % 256) 14
        I2cStatus.I2C_TIMEOUT) ++
      [Event.i2c_read c.MPU6050_DEVICE_ADDRESS (c.MPU6050_ACCEL_XOUT_H % 256) 14
        I2cStatus.OK], rfl, hcount, ?_, ?_, ?_⟩
  · simp [List.append_assoc]
  · intro e he
    rcases List.mem_append.1 he with h1 | h1
    · exact ⟨_, List.eq_of_mem_replicate h1⟩
    · exact ⟨_, List.mem_singleton.1 h1⟩
  · have := completed_retry [] ts.length
      (Event.i2c_read c.MPU6050_DEVICE_ADDRESS (c.MPU6050_ACCEL_XOUT_H % 256) 14
        I2cStatus.I2C_TIMEOUT)
      (Event.i2c_read c.MPU6050_DEVICE_ADDRESS (c.MPU6050_ACCEL_XOUT_H % 256) 14
        I2cStatus.OK) rfl rfl
    simpa [completed] using this

theorem mpu6050_calibrate_loop_trace (c : Mpu6050Header) (count : Nat) :
    ∀ (n : Nat) (accel_cache gyro_cache : vector3d_f_t) (s : State), n ≤ answered s.bus →
      ∃ accel_average gyro_average s1 added,
        mpu6050_calibrate_loop c count n accel_cache gyro_cache s =
          some (accel_average, gyro_average, s1) ∧
        s1.trace = s.trace ++ added ∧
        (∀ e ∈ added, ∃ status,
          e = Event.i2c_read c.MPU6050_DEVICE_ADDRESS (c.MPU6050_ACCEL_XOUT_H % 256) 14
            status) ∧
        completed added = List.replicate n
          (Event.i2c_read c.MPU6050_DEVICE_ADDRESS (c.MPU6050_ACCEL_XOUT_H % 256) 14
            I2cStatus.OK) := by
  intro n
  induction n with
  | zero =>
    intro accel_cache gyro_cache s _
    exact ⟨accel_cache, gyro_cache, s, [], rfl, by simp, by simp, rfl⟩
  | succ n ih =>
    intro accel_cache gyro_cache s h
    obtain ⟨a, g, s1, added1, hread, hcount, htrace, hall, hcompleted⟩ :=
      mpu6050_read_unscaled_data_trace c s (by omega)
    obtain ⟨A, G, s2, added2, hloop, htrace2, hall2, hcompleted2⟩ := ih
      { x := average_step count accel_cache.x a.x,
        y := average_step count accel_cache.y a.y,
        z := average_step count accel_cache.z a.z }
      { x := average_step count gyro_cache.x g.x,
        y := average_step count gyro_cache.y g.y,
        z := average_step count gyro_cache.z g.z }
      s1 (by omega)
    refine ⟨A, G, s2, added1 ++ added2, ?_, ?_, ?_, ?_⟩
    · simp only [mpu6050_calibrate_loop, hread]
      exact hloop
    · rw [htrace2, htrace, List.append_assoc]
    · intro e he
      rcases List.mem_append.1 he with h1 | h1
      · exact hall e h1
      · exact hall2 e h1
    · rw [completed_append, hcompleted, hcompleted2, List.replicate_succ]
      rfl

/-- C14: one run of `mpu6050_calibrate` (on a bus that answers) completes
exactly `CALIBRATE_SAMPLING_COUNT` = 10000 sample reads; everything it does on
the bus is a read of 14 bytes starting at the accelerometer-data-high
register (the completed ones and the timed-out attempts that are retried);
it issues no register write and no delay. -/
theorem C14_calibrate_reads_samples_only (c : Mpu6050Header)
    (accel_cache gyro_cache : vector3d_f_t) (s : State)
    (h : CALIBRATE_SAMPLING_COUNT ≤ answered s.bus) :
    CALIBRATE_SAMPLING_COUNT = 10000 ∧
    ∃ s1 added, mpu6050_calibrate c accel_cache gyro_cache s = some s1 ∧
      s1.trace = s.trace ++ added ∧
      completed added = List.replicate 10000
        (Event.i2c_read c.MPU6050_DEVICE_ADDRESS (c.MPU6050_ACCEL_XOUT_H % 256) 14
          I2cStatus.OK) ∧
      (∀ e ∈ added, ∃ status,
        e = Event.i2c_read c.MPU6050_DEVICE_ADDRESS (c.MPU6050_ACCEL_XOUT_H % 256) 14
          status) ∧
      (∀ e ∈ added, (∀ d r v st, e ≠ Event.i2c_write d r v st) ∧
        ∀ ms, e ≠ Event.delay_ms ms) := by
  refine ⟨rfl, ?_⟩
  obtain ⟨A, G, s1, added, hloop, htrace, hall, hcompleted⟩ :=
    mpu6050_calibrate_loop_trace c CALIBRATE_SAMPLING_COUNT CALIBRATE_SAMPLING_COUNT
      accel_cache gyro_cache s h
  simp only [mpu6050_calibrate, mpu6050_calibrate_with, hloop]
  refine ⟨_, added, rfl, htrace, hcompleted, hall, ?_⟩
  intro e he
  obtain ⟨status, hst⟩ := hall e he
  subst hst
  exact ⟨fun _ _ _ _ hne => Event.noConfusion hne, fun _ hne => Event.noConfusion hne⟩

/-- Witness of C14: a bus that answers 10000 requests with an empty payload. -/
theorem C14_calibrate_reads_samples_only_witness :
    CALIBRATE_SAMPLING_COUNT ≤ answered (List.replicate 10000 (ok_outcome [])) ∧
    ∃ s1, mpu6050_calibrate ⟨0xD0, 0x6B, 0x1C, 0x1B, 0x3B, ⟨2 ^ 136⟩, ⟨2 ^ 149⟩⟩
        zero_cache zero_cache
        ⟨List.replicate 10000 (ok_outcome []), [], ⟨0, 0, 0⟩, ⟨0, 0, 0⟩⟩ = some s1 ∧
      completed s1.trace = List.replicate 10000 (Event.i2c_read 0xD0 0x3B 14 I2cStatus.OK) :=
  ⟨by rw [answered_replicate_ok]; decide,
    match (C14_calibrate_reads_samples_only
      ⟨0xD0, 0x6B, 0x1C, 0x1B, 0x3B, ⟨2 ^ 136⟩, ⟨2 ^ 149⟩⟩ zero_cache zero_cache
      ⟨List.replicate 10000 (ok_outcome []), [], ⟨0, 0, 0⟩, ⟨0, 0, 0⟩⟩
      (by rw [answered_replicate_ok]; decide)).2 with
    | ⟨s1, added, h1, h2, h3, _, _⟩ => ⟨s1, h1, by rw [h2, List.nil_append]; exact h3⟩⟩

/-! ## Calibration on an arbitrary run of samples -/

theorem delivered_split (ts : List (List Nat)) (data : List Nat) (rest : List I2cOutcome) :
    delivered (ts.map timeout_outcome ++ ok_outcome data :: rest) =
      decode_buffer data :: delivered rest := by
  induction ts with
  | nil => simp [delivered, ok_outcome]
  | cons t ts ih =>
    have : delivered (timeout_outcome t :: (ts.map timeout_outcome ++ ok_outcome data :: rest)) =
        delivered (ts.map timeout_outcome ++ ok_outcome data :: rest) := by
      simp [delivered, timeout_outcome]
    rw [List.map_cons, List.cons_append, this, ih]

theorem mpu6050_read_unscaled_data_delivered (c : Mpu6050Header) (s : State)
    (h : 1 ≤ answered s.bus) :
    ∃ d s1, mpu6050_read_unscaled_data c s = some (d.1, d.2, s1) ∧
      delivered s.bus = d :: delivered s1.bus ∧
      answered s.bus = answered s1.bus + 1 := by
  obtain ⟨bus, tr, ao, go⟩ := s
  obtain ⟨ts, data, rest, hbus, hcount⟩ := answered_split bus h
  subst hbus
  refine ⟨decode_buffer data,
    ⟨rest,
     tr ++ List.replicate ts.length
         (Event.i2c_read c.MPU6050_DEVICE_ADDRESS (c.MPU6050_ACCEL_XOUT_H % 256) 14
           I2cStatus.I2C_TIMEOUT) ++
       [Event.i2c_read c.MPU6050_DEVICE_ADDRESS (c.MPU6050_ACCEL_XOUT_H % 256) 14
         I2cStatus.OK], ao, go⟩,
    ?_, delivered_split ts data rest, hcount⟩
  unfold mpu6050_read_unscaled_data
  rw [mpu6050_read_retry]
  rfl

theorem mpu6050_calibrate_loop_delivered (c : Mpu6050Header) (count : Nat) :
    ∀ (n : Nat) (A G : vector3d_f_t) (s : State), n ≤ answered s.bus →
      ∃ s1, mpu6050_calibrate_loop c count n A G s =
        some (⟨running_sum count A.x (((delivered s.bus).take n).map (fun d => d.1.x)),
               running_sum count A.y (((delivered s.bus).take n).map (fun d => d.1.y)),
               running_sum count A.z (((delivered s.bus).take n).map (fun d => d.1.z))⟩,
              ⟨running_sum count G.x (((delivered s.bus).take n).map (fun d => d.2.x)),
               running_sum count G.y (((delivered s.bus).take n).map (fun d => d.2.y)),
               running_sum count G.z (((delivered s.bus).take n).map (fun d => d.2.z))⟩,
              s1) := by
  intro n
  induction n with
  | zero =>
    intro A G s _
    exact ⟨s, rfl⟩
  | succ n ih =>
    intro A G s h
    obtain ⟨d, s1, hread, hdel, hcount⟩ := mpu6050_read_unscaled_data_delivered c s (by omega)
    obtain ⟨s2, hloop⟩ := ih
      { x := average_step count A.x d.1.x,
        y := average_step count A.y d.1.y,
        z := average_step count A.z d.1.z }
      { x := average_step count G.x d.2.x,
        y := average_step count G.y d.2.y,
        z := average_step count G.z d.2.z }
      s1 (by omega)
    refine ⟨s2, ?_⟩
    simp only [mpu6050_calibrate_loop, hread]
    rw [hloop, hdel]
    simp only [List.take_succ_cons, List.map_cons, running_sum, List.foldl_cons]

theorem mpu6050_calibrate_with_delivered (c : Mpu6050Header) (N : Nat)
    (A G : vector3d_f_t) (s : State) (h : N ≤ answered s.bus) :
    ∃ s1, mpu6050_calibrate_with c N A G s = some s1 ∧
      s1.mpu6050_accel_offset =
        ⟨wrap16 (f32_to_int16
            (running_sum N A.x (((delivered s.bus).take N).map (fun d => d.1.x))) - 0),
         wrap16 (f32_to_int16
            (running_sum N A.y (((delivered s.bus).take N).map (fun d => d.1.y))) - 0),
         wrap16 (f32_to_int16
            (running_sum N A.z (((delivered s.bus).take N).map (fun d => d.1.z))) - 8192)⟩ ∧
      s1.mpu6050_gyro_offset =
        ⟨f32_to_int16 (running_sum N G.x (((delivered s.bus).take N).map (fun d => d.2.x))),
         f32_to_int16 (running_sum N G.y (((delivered s.bus).take N).map (fun d => d.2.y))),
         f32_to_int16
           (running_sum N G.z (((delivered s.bus).take N).map (fun d => d.2.z)))⟩ := by
  obtain ⟨s1, hloop⟩ := mpu6050_calibrate_loop_delivered c N N A G s h
  simp only [mpu6050_calibrate_with, hloop]
  exact ⟨_, rfl, rfl, rfl⟩

theorem decode_buffer_inRange (buffer : List Nat) :
    (decode_buffer buffer).1.inRange ∧ (decode_buffer buffer).2.inRange :=
  ⟨⟨wrap16_inRange _, wrap16_inRange _, wrap16_inRange _⟩,
    ⟨wrap16_inRange _, wrap16_inRange _, wrap16_inRange _⟩⟩

theorem delivered_inRange (bus : List I2cOutcome) :
    ∀ d ∈ delivered bus, d.1.inRange ∧ d.2.inRange := by
  intro d hd
  unfold delivered at hd
  obtain ⟨o, _, ho⟩ := List.mem_map.1 hd
  rw [← ho]
  exact decode_buffer_inRange _

theorem running_sum_single (v : Int) (h : isInt16 v) :
    running_sum 1 ⟨0⟩ [v] = f32_of_int v :=
  accumulate_one v h

theorem delivered_length (bus : List I2cOutcome) : (delivered bus).length = answered bus := by
  simp [delivered, answered]

theorem answered_append (l1 l2 : List I2cOutcome) :
    answered (l1 ++ l2) = answered l1 + answered l2 := by
  simp [answered]

theorem wrap16_wrap16_sub (m g : Int) : wrap16 (wrap16 m - g) = wrap16 (m - g) := by
  unfold wrap16
  omega

theorem wrap16_idem (m : Int) : wrap16 (wrap16 m) = wrap16 m :=
  wrap16_of_inRange _ (wrap16_inRange m)

theorem f32_to_int16_eq_wrap16_trunc (f : binary32) :
    f32_to_int16 f = wrap16 (f32_trunc f) := rfl

/-- The integer bounds of the truncated running mean, read against the
arithmetic mean and the mean magnitude of the run. -/
theorem near_mean_of_bounds (N : Nat) (xs : List Int) (hN1 : 1 ≤ N) (hlen : xs.length = N)
    (m : Int)
    (h1 : 1600 * |m * N - xs.sum| < 1600 * N + (xs.map (fun x => |x|)).sum)
    (h2 : 1600 * (|m| * N) ≤ 1601 * (xs.map (fun x => |x|)).sum) :
    near_mean m xs := by
  have hn : (0 : ℚ) < (N : ℚ) := by exact_mod_cast hN1
  have q1 : (1600 : ℚ) * |(m : ℚ) * N - (xs.sum : ℚ)| <
      1600 * N + ((xs.map (fun x => |x|)).sum : ℚ) := by exact_mod_cast h1
  have q2 : (1600 : ℚ) * (|(m : ℚ)| * N) ≤ 1601 * ((xs.map (fun x => |x|)).sum : ℚ) := by
    exact_mod_cast h2
  unfold near_mean mean_magnitude arithmetic_mean
  rw [List.length_map, hlen]
  generalize ((xs.map (fun x => |x|)).sum : ℚ) = X at q1 q2 ⊢
  generalize ((xs.sum : Int) : ℚ) = S at q1 ⊢
  generalize hMdef : ((m : Int) : ℚ) = M at q1 q2 ⊢
  generalize ((N : Nat) : ℚ) = n at hn q1 q2 ⊢
  have hmag : |M| ≤ X / n * 1601 / 1600 := by
    rw [div_mul_eq_mul_div, le_div_iff₀ (by norm_num : (0 : ℚ) < 1600), le_div_iff₀ hn]
    linarith
  refine ⟨?_, hmag, ?_⟩
  · have e : M - S / n = (M * n - S) / n := by
      field_simp
    rw [e, abs_div, abs_of_pos hn, div_lt_iff₀ hn]
    have e2 : (1 + X / n / 1600) * n = n + X / 1600 := by
      field_simp
      ring
    rw [e2]
    linarith
  · intro hA
    have hle : |M| ≤ 32767 := by linarith
    obtain ⟨hlo, hhi⟩ := abs_le.1 hle
    rw [← hMdef] at hlo hhi
    unfold isInt16
    constructor
    · have : ((-32767 : Int) : ℚ) ≤ (m : ℚ) := by push_cast; exact hlo
      have h3 : (-32767 : Int) ≤ m := by exact_mod_cast this
      omega
    · have : (m : ℚ) ≤ ((32767 : Int) : ℚ) := by push_cast; exact hhi
      exact_mod_cast this

/-- C13 (amended): for every run of `N` samples delivered by Sample Acquisition,
`N` from 1 to 10000, with both average caches starting at 0.0,
`mpu6050_calibrate` adds `(float)new_sample / sample_count` to the cache of
each axis once per sample, and stores accelerometer offset
(m_x, m_y, m_z - 8192) and gyroscope offset (m_x, m_y, m_z), each stored in 16
bits, where m is the `float` running mean of the axis truncated toward zero.
Each m is less than `1 + mean_magnitude / 1600` away from the arithmetic mean
of the axis over the run and at most `1601 / 1600` of the mean magnitude of
the axis in magnitude, and it is an `int16_t` value, which the 16-bit store
leaves unchanged, when the mean magnitude of the axis is at most 32746.  For a
run of one sample each m is the sample itself. -/
theorem C13_calibrate_stores_truncated_running_sums (c : Mpu6050Header) (N : Nat)
    (s : State) (hN1 : 1 ≤ N) (hN : N ≤ CALIBRATE_SAMPLING_COUNT)
    (h : N ≤ answered s.bus) :
    ∃ s1, mpu6050_calibrate_with c N zero_cache zero_cache s = some s1 ∧
      (N = CALIBRATE_SAMPLING_COUNT →
        mpu6050_calibrate c zero_cache zero_cache s = some s1) ∧
      s1.mpu6050_accel_offset =
        ⟨wrap16 (axis_mean N (((delivered s.bus).take N).map (fun d => d.1.x))),
         wrap16 (axis_mean N (((delivered s.bus).take N).map (fun d => d.1.y))),
         wrap16 (axis_mean N (((delivered s.bus).take N).map (fun d => d.1.z)) - 8192)⟩ ∧
      s1.mpu6050_gyro_offset =
        ⟨wrap16 (axis_mean N (((delivered s.bus).take N).map (fun d => d.2.x))),
         wrap16 (axis_mean N (((delivered s.bus).take N).map (fun d => d.2.y))),
         wrap16 (axis_mean N (((delivered s.bus).take N).map (fun d => d.2.z)))⟩ ∧
      near_mean (axis_mean N (((delivered s.bus).take N).map (fun d => d.1.x)))
        (((delivered s.bus).take N).map (fun d => d.1.x)) ∧
      near_mean (axis_mean N (((delivered s.bus).take N).map (fun d => d.1.y)))
        (((delivered s.bus).take N).map (fun d => d.1.y)) ∧
      near_mean (axis_mean N (((delivered s.bus).take N).map (fun d => d.1.z)))
        (((delivered s.bus).take N).map (fun d => d.1.z)) ∧
      near_mean (axis_mean N (((delivered s.bus).take N).map (fun d => d.2.x)))
        (((delivered s.bus).take N).map (fun d => d.2.x)) ∧
      near_mean (axis_mean N (((delivered s.bus).take N).map (fun d => d.2.y)))
        (((delivered s.bus).take N).map (fun d => d.2.y)) ∧
      near_mean (axis_mean N (((delivered s.bus).take N).map (fun d => d.2.z)))
        (((delivered s.bus).take N).map (fun d => d.2.z)) ∧
      (N = 1 → ∀ d, (delivered s.bus).take 1 = [d] →
        s1.mpu6050_accel_offset = ⟨d.1.x, d.1.y, wrap16 (d.1.z - 8192)⟩ ∧
        s1.mpu6050_gyro_offset = d.2) := by
  obtain ⟨s1, hcal, hao, hgo⟩ :=
    mpu6050_calibrate_with_delivered c N zero_cache zero_cache s h
  have hlen : ((delivered s.bus).take N).length = N := by
    rw [List.length_take, delivered_length]
    omega
  have hrange : ∀ d ∈ (delivered s.bus).take N, d.1.inRange ∧ d.2.inRange :=
    fun d hd => delivered_inRange s.bus d (List.mem_of_mem_take hd)
  have hnear : ∀ (f : vector3d_16_t × vector3d_16_t → Int),
      (∀ d ∈ (delivered s.bus).take N, isInt16 (f d)) →
      near_mean (axis_mean N (((delivered s.bus).take N).map f))
        (((delivered s.bus).take N).map f) := by
    intro f hf
    have hl : (((delivered s.bus).take N).map f).length = N := by
      rw [List.length_map, hlen]
    have hb := truncated_running_sum_bounds N (((delivered s.bus).take N).map f) hN1 hN hl
      (fun x hx => by
        obtain ⟨d, hd, hfd⟩ := List.mem_map.1 hx
        rw [← hfd]
        exact hf d hd)
    exact near_mean_of_bounds N _ hN1 hl _ hb.1 hb.2
  refine ⟨s1, hcal, ?_, ?_, ?_,
    hnear (fun d => d.1.x) (fun d hd => (hrange d hd).1.1),
    hnear (fun d => d.1.y) (fun d hd => (hrange d hd).1.2.1),
    hnear (fun d => d.1.z) (fun d hd => (hrange d hd).1.2.2),
    hnear (fun d => d.2.x) (fun d hd => (hrange d hd).2.1),
    hnear (fun d => d.2.y) (fun d hd => (hrange d hd).2.2.1),
    hnear (fun d => d.2.z) (fun d hd => (hrange d hd).2.2.2), ?_⟩
  · intro hN2
    subst hN2
    exact hcal
  · rw [hao]
    simp only [zero_cache, f32_to_int16_eq_wrap16_trunc, wrap16_wrap16_sub, sub_zero,
      wrap16_idem]
    rfl
  · rw [hgo]
    simp only [zero_cache, f32_to_int16_eq_wrap16_trunc]
    rfl
  · intro hN2 d hd
    subst hN2
    have hmem : d ∈ delivered s.bus := by
      have : d ∈ (delivered s.bus).take 1 := by rw [hd]; exact List.mem_singleton.2 rfl
      exact List.mem_of_mem_take this
    obtain ⟨⟨hax, hay, haz⟩, hgx, hgy, hgz⟩ := delivered_inRange s.bus d hmem
    rw [hao, hgo, hd]
    simp only [zero_cache, List.map_cons, List.map_nil]
    rw [running_sum_single _ hax, running_sum_single _ hay, running_sum_single _ haz,
      running_sum_single _ hgx, running_sum_single _ hgy, running_sum_single _ hgz,
      f32_to_int16_of_int _ hax, f32_to_int16_of_int _ hay, f32_to_int16_of_int _ haz,
      f32_to_int16_of_int _ hgx, f32_to_int16_of_int _ hgy, f32_to_int16_of_int _ hgz,
      sub_zero, sub_zero, wrap16_of_inRange _ hax, wrap16_of_inRange _ hay]
    exact ⟨rfl, rfl⟩

/-- Witness of C13: a run of 10000 samples on a bus that never times out, 5000
samples with accel (100, 0, 8192) and gyro (0, -7, 0) followed by 5000 samples
with accel (200, 0, 8190) and gyro (0, 7, 0). -/
theorem C13_calibrate_stores_truncated_running_sums_witness :
    (1 ≤ 10000 ∧ 10000 ≤ CALIBRATE_SAMPLING_COUNT ∧
      10000 ≤ answered
        (List.replicate 5000 (ok_outcome [0, 100, 0, 0, 0x20, 0, 0, 0, 0, 0, 0xFF, 0xF9, 0, 0]) ++
          List.replicate 5000
            (ok_outcome [0, 200, 0, 0, 0x1F, 0xFE, 0, 0, 0, 0, 0, 7, 0, 0]))) ∧
    ∃ s1, mpu6050_calibrate ⟨0xD0, 0x6B, 0x1C, 0x1B, 0x3B, ⟨2 ^ 136⟩, ⟨2 ^ 149⟩⟩
        zero_cache zero_cache
        ⟨List.replicate 5000 (ok_outcome [0, 100, 0, 0, 0x20, 0, 0, 0, 0, 0, 0xFF, 0xF9, 0, 0]) ++
          List.replicate 5000
            (ok_outcome [0, 200, 0, 0, 0x1F, 0xFE, 0, 0, 0, 0, 0, 7, 0, 0]),
          [], ⟨1, 1, 1⟩, ⟨1, 1, 1⟩⟩ = some s1 ∧
      s1.mpu6050_accel_offset.x =
        wrap16 (axis_mean 10000 (((delivered
          (List.replicate 5000
              (ok_outcome [0, 100, 0, 0, 0x20, 0, 0, 0, 0, 0, 0xFF, 0xF9, 0, 0]) ++
            List.replicate 5000
              (ok_outcome [0, 200, 0, 0, 0x1F, 0xFE, 0, 0, 0, 0, 0, 7, 0, 0]))).take
            10000).map (fun d => d.1.x))) ∧
      near_mean (axis_mean 10000 (((delivered
          (List.replicate 5000
              (ok_outcome [0, 100, 0, 0, 0x20, 0, 0, 0, 0, 0, 0xFF, 0xF9, 0, 0]) ++
            List.replicate 5000
              (ok_outcome [0, 200, 0, 0, 0x1F, 0xFE, 0, 0, 0, 0, 0, 7, 0, 0]))).take
            10000).map (fun d => d.1.x)))
        (((delivered
          (List.replicate 5000
              (ok_outcome [0, 100, 0, 0, 0x20, 0, 0, 0, 0, 0, 0xFF, 0xF9, 0, 0]) ++
            List.replicate 5000
              (ok_outcome [0, 200, 0, 0, 0x1F, 0xFE, 0, 0, 0, 0, 0, 7, 0, 0]))).take
            10000).map (fun d => d.1.x)) :=
  ⟨⟨by decide, by decide,
      by rw [answered_append, answered_replicate_ok, answered_replicate_ok]⟩,
    match C13_calibrate_stores_truncated_running_sums
      ⟨0xD0, 0x6B, 0x1C, 0x1B, 0x3B, ⟨2 ^ 136⟩, ⟨2 ^ 149⟩⟩ 10000
      ⟨List.replicate 5000 (ok_outcome [0, 100, 0, 0, 0x20, 0, 0, 0, 0, 0, 0xFF, 0xF9, 0, 0]) ++
          List.replicate 5000
            (ok_outcome [0, 200, 0, 0, 0x1F, 0xFE, 0, 0, 0, 0, 0, 7, 0, 0]),
          [], ⟨1, 1, 1⟩, ⟨1, 1, 1⟩⟩
      (by decide) (by decide)
      (by rw [answered_append, answered_replicate_ok, answered_replicate_ok]) with
    | ⟨s1, _, h2, h3, _, h5, _⟩ => ⟨s1, h2 rfl, by rw [h3], h5⟩⟩

/-- The term `1000.0f / 10000`. -/
theorem average_term_sample_thousand :
    (f32_div (f32_of_int 1000) (f32_of_int ((10000 : Nat) : Int))).units =
      71362385698680390680846996795520405043412992 := by
  decide!

/-- The `float` running sum of 10000 terms `1000.0f / 10000`, on the units. -/
theorem accumulate_units_sample_thousand :
    accumulate_units 71362385698680390680846996795520405043412992 10000 0 = 713554548529521225252935595412693303458646720512 := by
  have c0 : accumulate_units 71362385698680390680846996795520405043412992 0 0 = 0 := rfl
  have e0 : accumulate_units 71362385698680390680846996795520405043412992 (0 + 1) 0 = 71362385698680390680846996795520405043412992 := by
    have h := accumulate_units_stable 71362385698680390680846996795520405043412992 122 (by decide) 0 0 (by decide) (by decide) (by decide)
    have hv : (0 + (0 + 1) * ((71362385698680390680846996795520405043412992 / 2 ^ 122 + (if 2 ^ 122 < 2 * (71362385698680390680846996795520405043412992 % 2 ^ 122) then 1 else 0)) * 2 ^ 122) : Nat) = 71362385698680390680846996795520405043412992 := by decide
    rw [hv] at h
    exact_mod_cast h
  have c1 : accumulate_units 71362385698680390680846996795520405043412992 1 0 = 71362385698680390680846996795520405043412992 := by
    rw [show (1 : Nat) = 0 + (0 + 1) from rfl, accumulate_units_add, c0]
    exact e0
  have e1 : accumulate_units 71362385698680390680846996795520405043412992 1 71362385698680390680846996795520405043412992 = 142724771397360781361693993591040810086825984 := by decide!
  have c2 : accumulate_units 71362385698680390680846996795520405043412992 2 0 = 142724771397360781361693993591040810086825984 := by
    rw [show (2 : Nat) = 1 + 1 from rfl, accumulate_units_add, c1]
    exact e1
  have e2 : accumulate_units 71362385698680390680846996795520405043412992 1 142724771397360781361693993591040810086825984 = 214087162412953155182204482001789456251617280 := by decide!
  have c3 : accumulate_units 71362385698680390680846996795520405043412992 3 0 = 214087162412953155182204482001789456251617280 := by
    rw [show (3 : Nat) = 2 + 1 from rfl, accumulate_units_add, c2]
    exact e2
  have e3 : accumulate_units 71362385698680390680846996795520405043412992 (0 + 1) 214087162412953155182204482001789456251617280 = 285449542794721562723387987182081620173651968 := by
    have h := accumulate_units_stable 71362385698680390680846996795520405043412992 124 (by decide) 0 214087162412953155182204482001789456251617280 (by decide) (by decide) (by decide)
    have hv : (214087162412953155182204482001789456251617280 + (0 + 1) * ((71362385698680390680846996795520405043412992 / 2 ^ 124 + (if 2 ^ 124 < 2 * (71362385698680390680846996795520405043412992 % 2 ^ 124) then 1 else 0)) * 2 ^ 124) : Nat) = 285449542794721562723387987182081620173651968 := by decide
    rw [hv] at h
    exact_mod_cast h
  have c4 : accumulate_units 71362385698680390680846996795520405043412992 4 0 = 285449542794721562723387987182081620173651968 := by
    rw [show (4 : Nat) = 3 + (0 + 1) from rfl, accumulate_units_add, c3]
    exact e3
  have e4 : accumulate_units 71362385698680390680846996795520405043412992 1 285449542794721562723387987182081620173651968 = 356811923176489970264571492362373784095686656 := by decide!
  have c5 : accumulate_units 71362385698680390680846996795520405043412992 5 0 = 356811923176489970264571492362373784095686656 := by
    rw [show (5 : Nat) = 4 + 1 from rfl, accumulate_units_add, c4]
    exact e4
  have e5 : accumulate_units 71362385698680390680846996795520405043412992 (3 + 1) 356811923176489970264571492362373784095686656 = 642261529774155330663921378927194297725878272 := by
    have h := accumulate_units_stable 71362385698680390680846996795520405043412992 125 (by decide) 3 356811923176489970264571492362373784095686656 (by decide) (by decide) (by decide)
    have hv : (356811923176489970264571492362373784095686656 + (3 + 1) * ((71362385698680390680846996795520405043412992 / 2 ^ 125 + (if 2 ^ 125 < 2 * (71362385698680390680846996795520405043412992 % 2 ^ 125) then 1 else 0)) * 2 ^ 125) : Nat) = 642261529774155330663921378927194297725878272 := by decide
    rw [hv] at h
    exact_mod_cast h
  have c6 : accumulate_units 71362385698680390680846996795520405043412992 9 0 = 642261529774155330663921378927194297725878272 := by
    rw [show (9 : Nat) = 5 + (3 + 1) from rfl, accumulate_units_add, c5]
    exact e5
  have e6 : accumulate_units 71362385698680390680846996795520405043412992 (9 + 1) 642261529774155330663921378927194297725878272 = 1355885546268318731662296095339245581801357312 := by
    have h := accumulate_units_stable 71362385698680390680846996795520405043412992 126 (by decide) 9 642261529774155330663921378927194297725878272 (by decide) (by decide) (by decide)
    have hv : (642261529774155330663921378927194297725878272 + (9 + 1) * ((71362385698680390680846996795520405043412992 / 2 ^ 126 + (if 2 ^ 126 < 2 * (71362385698680390680846996795520405043412992 % 2 ^ 126) then 1 else 0)) * 2 ^ 126) : Nat) = 1355885546268318731662296095339245581801357312 := by decide
    rw [hv] at h
    exact_mod_cast h
  have c7 : accumulate_units 71362385698680390680846996795520405043412992 19 0 = 1355885546268318731662296095339245581801357312 := by
    rw [show (19 : Nat) = 9 + (9 + 1) from rfl, accumulate_units_add, c6]
    exact e6
  have e7 : accumulate_units 71362385698680390680846996795520405043412992 (20 + 1) 1355885546268318731662296095339245581801357312 = 2854494194423635538831949817087864261576753152 := by
    have h := accumulate_units_stable 71362385698680390680846996795520405043412992 127 (by decide) 20 1355885546268318731662296095339245581801357312 (by decide) (by decide) (by decide)
    have hv : (1355885546268318731662296095339245581801357312 + (20 + 1) * ((71362385698680390680846996795520405043412992 / 2 ^ 127 + (if 2 ^ 127 < 2 * (71362385698680390680846996795520405043412992 % 2 ^ 127) then 1 else 0)) * 2 ^ 127) : Nat) = 2854494194423635538831949817087864261576753152 := by decide
    rw [hv] at h
    exact_mod_cast h
  have c8 : accumulate_units 71362385698680390680846996795520405043412992 40 0 = 2854494194423635538831949817087864261576753152 := by
    rw [show (40 : Nat) = 19 + (20 + 1) from rfl, accumulate_units_add, c7]
    exact e7
  have e8 : accumulate_units 71362385698680390680846996795520405043412992 1 2854494194423635538831949817087864261576753152 = 2925856681143643609166403154572721247926353920 := by decide!
  have c9 : accumulate_units 71362385698680390680846996795520405043412992 41 0 = 2925856681143643609166403154572721247926353920 := by
    rw [show (41 : Nat) = 40 + 1 from rfl, accumulate_units_add, c8]
    exact e8
  have e9 : accumulate_units 71362385698680390680846996795520405043412992 (38 + 1) 2925856681143643609166403154572721247926353920 = 5708987027717803393910045780677298796080660480 := by
    have h := accumulate_units_stable 71362385698680390680846996795520405043412992 128 (by decide) 38 2925856681143643609166403154572721247926353920 (by decide) (by decide) (by decide)
    have hv : (2925856681143643609166403154572721247926353920 + (38 + 1) * ((71362385698680390680846996795520405043412992 / 2 ^ 128 + (if 2 ^ 128 < 2 * (71362385698680390680846996795520405043412992 % 2 ^ 128) then 1 else 0)) * 2 ^ 128) : Nat) = 5708987027717803393910045780677298796080660480 := by decide
    rw [hv] at h
    exact_mod_cast h
  have c10 : accumulate_units 71362385698680390680846996795520405043412992 80 0 = 5708987027717803393910045780677298796080660480 := by
    rw [show (80 : Nat) = 41 + (38 + 1) from rfl, accumulate_units_add, c9]
    exact e9
  have e10 : accumulate_units 71362385698680390680846996795520405043412992 1 5708987027717803393910045780677298796080660480 = 5780349344296628003775267386474852066546155520 := by decide!
  have c11 : accumulate_units 71362385698680390680846996795520405043412992 81 0 = 5780349344296628003775267386474852066546155520 := by
    rw [show (81 : Nat) = 80 + 1 from rfl, accumulate_units_add, c10]
    exact e10
  have e11 : accumulate_units 71362385698680390680846996795520405043412992 (77 + 1) 5780349344296628003775267386474852066546155520 = 11346636579469567406462702781903386840775262208 := by
    have h := accumulate_units_stable 71362385698680390680846996795520405043412992 129 (by decide) 77 5780349344296628003775267386474852066546155520 (by decide) (by decide) (by decide)
    have hv : (5780349344296628003775267386474852066546155520 + (77 + 1) * ((71362385698680390680846996795520405043412992 / 2 ^ 129 + (if 2 ^ 129 < 2 * (71362385698680390680846996795520405043412992 % 2 ^ 129) then 1 else 0)) * 2 ^ 129) : Nat) = 11346636579469567406462702781903386840775262208 := by decide
    rw [hv] at h
    exact_mod_cast h
  have c12 : accumulate_units 71362385698680390680846996795520405043412992 159 0 = 11346636579469567406462702781903386840775262208 := by
    rw [show (159 : Nat) = 81 + (77 + 1) from rfl, accumulate_units_add, c11]
    exact e11
  have e12 : accumulate_units 71362385698680390680846996795520405043412992 (159 + 1) 11346636579469567406462702781903386840775262208 = 22764661677260212335052313849449099198168301568 := by
    have h := accumulate_units_stable 71362385698680390680846996795520405043412992 130 (by decide) 159 11346636579469567406462702781903386840775262208 (by decide) (by decide) (by decide)
    have hv : (11346636579469567406462702781903386840775262208 + (159 + 1) * ((71362385698680390680846996795520405043412992 / 2 ^ 130 + (if 2 ^ 130 < 2 * (71362385698680390680846996795520405043412992 % 2 ^ 130) then 1 else 0)) * 2 ^ 130) : Nat) = 22764661677260212335052313849449099198168301568 := by decide
    rw [hv] at h
    exact_mod_cast h
  have c13 : accumulate_units 71362385698680390680846996795520405043412992 319 0 = 22764661677260212335052313849449099198168301568 := by
    rw [show (319 : Nat) = 159 + (159 + 1) from rfl, accumulate_units_add, c12]
    exact e12
  have e13 : accumulate_units 71362385698680390680846996795520405043412992 (320 + 1) 22764661677260212335052313849449099198168301568 = 45671637607143567238048134080716742224804577280 := by
    have h := accumulate_units_stable 71362385698680390680846996795520405043412992 131 (by decide) 320 22764661677260212335052313849449099198168301568 (by decide) (by decide) (by decide)
    have hv : (22764661677260212335052313849449099198168301568 + (320 + 1) * ((71362385698680390680846996795520405043412992 / 2 ^ 131 + (if 2 ^ 131 < 2 * (71362385698680390680846996795520405043412992 % 2 ^ 131) then 1 else 0)) * 2 ^ 131) : Nat) = 45671637607143567238048134080716742224804577280 := by decide
    rw [hv] at h
    exact_mod_cast h
  have c14 : accumulate_units 71362385698680390680846996795520405043412992 640 0 = 45671637607143567238048134080716742224804577280 := by
    rw [show (640 : Nat) = 319 + (320 + 1) from rfl, accumulate_units_add, c13]
    exact e13
  have e14 : accumulate_units 71362385698680390680846996795520405043412992 (639 + 1) 45671637607143567238048134080716742224804577280 = 91342866875446829349940112111904566327755407360 := by
    have h := accumulate_units_stable 71362385698680390680846996795520405043412992 132 (by decide) 639 45671637607143567238048134080716742224804577280 (by decide) (by decide) (by decide)
    have hv : (45671637607143567238048134080716742224804577280 + (639 + 1) * ((71362385698680390680846996795520405043412992 / 2 ^ 132 + (if 2 ^ 132 < 2 * (71362385698680390680846996795520405043412992 % 2 ^ 132) then 1 else 0)) * 2 ^ 132) : Nat) = 91342866875446829349940112111904566327755407360 := by decide
    rw [hv] at h
    exact_mod_cast h
  have c15 : accumulate_units 71362385698680390680846996795520405043412992 1280 0 = 91342866875446829349940112111904566327755407360 := by
    rw [show (1280 : Nat) = 640 + (639 + 1) from rfl, accumulate_units_add, c14]
    exact e14
  have e15 : accumulate_units 71362385698680390680846996795520405043412992 1 91342866875446829349940112111904566327755407360 = 91414228171178553196989943327578297302916268032 := by decide!
  have c16 : accumulate_units 71362385698680390680846996795520405043412992 1281 0 = 91414228171178553196989943327578297302916268032 := by
    rw [show (1281 : Nat) = 1280 + 1 from rfl, accumulate_units_add, c15]
    exact e15
  have e16 : accumulate_units 71362385698680390680846996795520405043412992 (1277 + 1) 91414228171178553196989943327578297302916268032 = 182620922210160429076375136042579248354884059136 := by
    have h := accumulate_units_stable 71362385698680390680846996795520405043412992 133 (by decide) 1277 91414228171178553196989943327578297302916268032 (by decide) (by decide) (by decide)
    have hv : (91414228171178553196989943327578297302916268032 + (1277 + 1) * ((71362385698680390680846996795520405043412992 / 2 ^ 133 + (if 2 ^ 133 < 2 * (71362385698680390680846996795520405043412992 % 2 ^ 133) then 1 else 0)) * 2 ^ 133) : Nat) = 182620922210160429076375136042579248354884059136 := by decide
    rw [hv] at h
    exact_mod_cast h
  have c17 : accumulate_units 71362385698680390680846996795520405043412992 2559 0 = 182620922210160429076375136042579248354884059136 := by
    rw [show (2559 : Nat) = 1281 + (1277 + 1) from rfl, accumulate_units_add, c16]
    exact e16
  have e17 : accumulate_units 71362385698680390680846996795520405043412992 1 182620922210160429076375136042579248354884059136 = 182692278061374282188409551844259260421753536512 := by decide!
  have c18 : accumulate_units 71362385698680390680846996795520405043412992 2560 0 = 182692278061374282188409551844259260421753536512 := by
    rw [show (2560 : Nat) = 2559 + 1 from rfl, accumulate_units_add, c17]
    exact e17
  have e18 : accumulate_units 71362385698680390680846996795520405043412992 (2558 + 1) 182692278061374282188409551844259260421753536512 = 365319766360086817693375677163263512176045850624 := by
    have h := accumulate_units_stable 71362385698680390680846996795520405043412992 134 (by decide) 2558 182692278061374282188409551844259260421753536512 (by decide) (by decide) (by decide)
    have hv : (182692278061374282188409551844259260421753536512 + (2558 + 1) * ((71362385698680390680846996795520405043412992 / 2 ^ 134 + (if 2 ^ 134 < 2 * (71362385698680390680846996795520405043412992 % 2 ^ 134) then 1 else 0)) * 2 ^ 134) : Nat) = 365319766360086817693375677163263512176045850624 := by decide
    rw [hv] at h
    exact_mod_cast h
  have c19 : accumulate_units 71362385698680390680846996795520405043412992 5119 0 = 365319766360086817693375677163263512176045850624 := by
    rw [show (5119 : Nat) = 2560 + (2558 + 1) from rfl, accumulate_units_add, c18]
    exact e18
  have e19 : accumulate_units 71362385698680390680846996795520405043412992 1 365319766360086817693375677163263512176045850624 = 365391133100336412275440923792930962059498094592 := by decide!
  have c20 : accumulate_units 71362385698680390680846996795520405043412992 5120 0 = 365391133100336412275440923792930962059498094592 := by
    rw [show (5120 : Nat) = 5119 + 1 from rfl, accumulate_units_add, c19]
    exact e19
  have e20 : accumulate_units 71362385698680390680846996795520405043412992 (4879 + 1) 365391133100336412275440923792930962059498094592 = 713554548529521225252935595412693303458646720512 := by
    have h := accumulate_units_stable 71362385698680390680846996795520405043412992 135 (by decide) 4879 365391133100336412275440923792930962059498094592 (by decide) (by decide) (by decide)
    have hv : (365391133100336412275440923792930962059498094592 + (4879 + 1) * ((71362385698680390680846996795520405043412992 / 2 ^ 135 + (if 2 ^ 135 < 2 * (71362385698680390680846996795520405043412992 % 2 ^ 135) then 1 else 0)) * 2 ^ 135) : Nat) = 713554548529521225252935595412693303458646720512 := by decide
    rw [hv] at h
    exact_mod_cast h
  have c21 : accumulate_units 71362385698680390680846996795520405043412992 10000 0 = 713554548529521225252935595412693303458646720512 := by
    rw [show (10000 : Nat) = 5120 + (4879 + 1) from rfl, accumulate_units_add, c20]
    exact e20
  exact c21


theorem accumulate_sample_zero : accumulate 10000 0 10000 ⟨0⟩ = ⟨0⟩ := by
  have h := accumulate_units_eq 10000 0 10000 ⟨0⟩
  rw [average_term_sample_zero, accumulate_units_zero] at h
  exact binary32_eq_of_units _ _ h

theorem accumulate_sample_three :
    accumulate 10000 3 10000 ⟨0⟩ = ⟨2140808586821059447971688229871867827455000576⟩ := by
  have h := accumulate_units_eq 10000 3 10000 ⟨0⟩
  rw [average_term_sample_three, accumulate_units_sample_three] at h
  exact binary32_eq_of_units _ _ h

theorem accumulate_sample_thousand :
    accumulate 10000 1000 10000 ⟨0⟩ =
      ⟨713554548529521225252935595412693303458646720512⟩ := by
  have h := accumulate_units_eq 10000 1000 10000 ⟨0⟩
  rw [average_term_sample_thousand, accumulate_units_sample_thousand] at h
  exact binary32_eq_of_units _ _ h

theorem truncated_sample_zero : f32_to_int16 ⟨0⟩ = 0 := by
  decide!

theorem truncated_sample_three :
    f32_to_int16 ⟨2140808586821059447971688229871867827455000576⟩ = 2 := by
  decide!

theorem truncated_sample_thousand :
    f32_to_int16 ⟨713554548529521225252935595412693303458646720512⟩ = 999 := by
  decide!

theorem delivered_replicate (data : List Nat) (n : Nat) :
    delivered (List.replicate n (ok_outcome data)) =
      List.replicate n (decode_buffer data) := by
  induction n with
  | zero => rfl
  | succ n ih =>
    rw [List.replicate_succ, List.replicate_succ]
    have := delivered_split [] data (List.replicate n (ok_outcome data))
    simp only [List.map_nil, List.nil_append] at this
    rw [this, ih]

theorem arithmetic_mean_replicate (n : Nat) (v : Int) (hn : 0 < n) :
    arithmetic_mean (List.replicate n v) = v := by
  unfold arithmetic_mean
  have hn0 : (n : ℚ) ≠ 0 := by exact_mod_cast (Nat.pos_iff_ne_zero.1 hn)
  simp only [List.sum_replicate, List.length_replicate, smul_eq_mul]
  field_simp

/-- C13 (counterexample): a run of 10000 samples whose accelerometer x axis is
always 1000, on a bus that never times out, both average caches starting at
0.0.  The arithmetic mean of the axis over the run is 1000, and
`mpu6050_calibrate` stores the accelerometer offset x = 999: the `float`
running sum of 10000 terms `1000.0f / 10000` is 999.9028..., truncated. -/
theorem C13_counterexample_constant_thousand :
    ((delivered (List.replicate 10000 (ok_outcome (payload (fun i => if i = 0 then 3 else if i = 1 then 0xE8 else 0))))).take 10000).map
        (fun d => d.1.x) = List.replicate 10000 1000 ∧
    arithmetic_mean (List.replicate 10000 (1000 : Int)) = 1000 ∧
    (mpu6050_calibrate ⟨0xD0, 0x6B, 0x1C, 0x1B, 0x3B, ⟨2 ^ 136⟩, ⟨2 ^ 149⟩⟩ zero_cache zero_cache
        ⟨List.replicate 10000 (ok_outcome (payload (fun i => if i = 0 then 3 else if i = 1 then 0xE8 else 0))), [],
          ⟨0, 0, 0⟩, ⟨0, 0, 0⟩⟩).map
        (fun s => (s.mpu6050_accel_offset, s.mpu6050_gyro_offset)) =
      some (⟨999, 0, -8192⟩, ⟨0, 0, 0⟩) := by
  refine ⟨?_, arithmetic_mean_replicate 10000 1000 (by decide), ?_⟩
  · rw [delivered_replicate, List.take_replicate, List.map_replicate]
    rfl
  · obtain ⟨s1, hcal, hao, hgo⟩ := mpu6050_calibrate_with_constant
      ⟨0xD0, 0x6B, 0x1C, 0x1B, 0x3B, ⟨2 ^ 136⟩, ⟨2 ^ 149⟩⟩ (fun i => if i = 0 then 3 else if i = 1 then 0xE8 else 0) 10000 zero_cache zero_cache
      ⟨List.replicate 10000 (ok_outcome (payload (fun i => if i = 0 then 3 else if i = 1 then 0xE8 else 0))), [],
          ⟨0, 0, 0⟩, ⟨0, 0, 0⟩⟩
      (by rw [answered_replicate_ok]) (constant_bus_replicate _ _)
    have hcal2 : mpu6050_calibrate ⟨0xD0, 0x6B, 0x1C, 0x1B, 0x3B, ⟨2 ^ 136⟩, ⟨2 ^ 149⟩⟩ zero_cache zero_cache
        ⟨List.replicate 10000 (ok_outcome (payload (fun i => if i = 0 then 3 else if i = 1 then 0xE8 else 0))), [],
          ⟨0, 0, 0⟩, ⟨0, 0, 0⟩⟩ = some s1 := hcal
    have hs : s16 ((fun i : Fin 14 => (if i = 0 then 3 else if i = 1 then 0xE8 else 0 : Fin 256)) 0)
        ((fun i : Fin 14 => (if i = 0 then 3 else if i = 1 then 0xE8 else 0 : Fin 256)) 1) =
          1000 := by decide
    have z0 : ∀ i j : Fin 14, i ≠ 0 → i ≠ 1 → j ≠ 0 → j ≠ 1 →
        s16 ((fun i : Fin 14 => (if i = 0 then 3 else if i = 1 then 0xE8 else 0 : Fin 256)) i)
          ((fun i : Fin 14 => (if i = 0 then 3 else if i = 1 then 0xE8 else 0 : Fin 256)) j) =
            0 := by decide
    rw [hcal2, Option.map_some', hao, hgo, hs,
      z0 2 3 (by decide) (by decide) (by decide) (by decide),
      z0 4 5 (by decide) (by decide) (by decide) (by decide),
      z0 8 9 (by decide) (by decide) (by decide) (by decide),
      z0 10 11 (by decide) (by decide) (by decide) (by decide),
      z0 12 13 (by decide) (by decide) (by decide) (by decide)]
    simp only [zero_cache, accumulate_sample_thousand, accumulate_sample_zero,
      truncated_sample_thousand, truncated_sample_zero]
    rfl

/-! ## Calibration followed by bias correction -/

theorem mpu6050_calibrate_loop_constant_bus (c : Mpu6050Header) (b : Fin 14 → Fin 256)
    (count : Nat) :
    ∀ (n : Nat) (A G : vector3d_f_t) (s : State), n ≤ answered s.bus →
      constant_bus b s.bus →
      ∃ s1, mpu6050_calibrate_loop c count n A G s =
          some (⟨accumulate count (s16 (b 0) (b 1)) n A.x,
                 accumulate count (s16 (b 2) (b 3)) n A.y,
                 accumulate count (s16 (b 4) (b 5)) n A.z⟩,
                ⟨accumulate count (s16 (b 8) (b 9)) n G.x,
                 accumulate count (s16 (b 10) (b 11)) n G.y,
                 accumulate count (s16 (b 12) (b 13)) n G.z⟩, s1) ∧
        answered s.bus = answered s1.bus + n ∧
        constant_bus b s1.bus := by
  intro n
  induction n with
  | zero =>
    intro A G s _ hconst
    exact ⟨s, rfl, rfl, hconst⟩
  | succ n ih =>
    intro A G s h hconst
    obtain ⟨s1, hread, hcount, hconst1, _, _⟩ :=
      mpu6050_read_unscaled_data_constant c b s (by omega) hconst
    obtain ⟨s2, hloop, hcount2, hconst2⟩ := ih
      { x := average_step count A.x (s16 (b 0) (b 1)),
        y := average_step count A.y (s16 (b 2) (b 3)),
        z := average_step count A.z (s16 (b 4) (b 5)) }
      { x := average_step count G.x (s16 (b 8) (b 9)),
        y := average_step count G.y (s16 (b 10) (b 11)),
        z := average_step count G.z (s16 (b 12) (b 13)) }
      s1 (by omega) hconst1
    refine ⟨s2, ?_, by omega, hconst2⟩
    simp only [mpu6050_calibrate_loop, hread]
    exact hloop

theorem mpu6050_calibrate_with_constant_bus (c : Mpu6050Header) (b : Fin 14 → Fin 256)
    (N : Nat) (A G : vector3d_f_t) (s : State) (hbus : N ≤ answered s.bus)
    (hconst : constant_bus b s.bus) :
    ∃ s1, mpu6050_calibrate_with c N A G s = some s1 ∧
      s1.mpu6050_accel_offset =
        ⟨wrap16 (f32_to_int16 (accumulate N (s16 (b 0) (b 1)) N A.x) - 0),
         wrap16 (f32_to_int16 (accumulate N (s16 (b 2) (b 3)) N A.y) - 0),
         wrap16 (f32_to_int16 (accumulate N (s16 (b 4) (b 5)) N A.z) - 8192)⟩ ∧
      s1.mpu6050_gyro_offset =
        ⟨f32_to_int16 (accumulate N (s16 (b 8) (b 9)) N G.x),
         f32_to_int16 (accumulate N (s16 (b 10) (b 11)) N G.y),
         f32_to_int16 (accumulate N (s16 (b 12) (b 13)) N G.z)⟩ ∧
      answered s.bus = answered s1.bus + N ∧
      constant_bus b s1.bus := by
  obtain ⟨s1, hloop, hcount, hconst1⟩ :=
    mpu6050_calibrate_loop_constant_bus c b N N A G s hbus hconst
  simp only [mpu6050_calibrate_with, hloop]
  exact ⟨_, rfl, rfl, rfl, hcount, hconst1⟩

theorem corrected_axis_of_mean (N : Nat) (m v g : Int) (hv : isInt16 v)
    (hg : 0 ≤ g ∧ g ≤ 8192)
    (h1 : 1600 * |m - v| < 1600 + |v|) (h2 : 1600 * |m| ≤ 1601 * |v|)
    (h3 : (v = 0 ∨ N = 1 ∨ exact_average N v ∨
      (N = CALIBRATE_SAMPLING_COUNT ∧ v = 8192)) → m = v) :
    corrected_axis N (wrap16 (v - wrap16 (wrap16 m - g))) g v := by
  obtain ⟨hd1, hd2⟩ := mean_deviation_small m v hv h1
  have hvr := hv
  unfold isInt16 at hvr
  have hδ : wrap16 (v - wrap16 (wrap16 m - g)) = v - m + g := by
    unfold wrap16
    omega
  rw [hδ]
  refine ⟨?_, ?_, ?_⟩
  · have : v - m + g - g = -(m - v) := by ring
    rw [this, abs_neg]
    exact h1
  · have : v - (v - m + g - g) = m := by ring
    rw [this]
    exact h2
  · intro hc
    rw [h3 hc]
    ring

theorem corrected_axis_of_sample (N : Nat) (v : Int) (hN1 : 1 ≤ N)
    (hN : N ≤ CALIBRATE_SAMPLING_COUNT) (hv : isInt16 v) :
    corrected_axis N (wrap16 (v - f32_to_int16 (accumulate N v N ⟨0⟩))) 0 v ∧
    corrected_axis N (wrap16 (v - wrap16 (f32_to_int16 (accumulate N v N ⟨0⟩) - 0))) 0 v ∧
    corrected_axis N
      (wrap16 (v - wrap16 (f32_to_int16 (accumulate N v N ⟨0⟩) - 8192))) 8192 v := by
  obtain ⟨m, hm, h1, h2, h3⟩ := constant_sample_mean N v hN1 hN hv
  rw [hm]
  have e0 := corrected_axis_of_mean N m v 0 hv (by decide) h1 h2 h3
  have e8 := corrected_axis_of_mean N m v 8192 hv (by decide) h1 h2 h3
  have hw : wrap16 (wrap16 m - 0) = wrap16 m := by
    unfold wrap16
    omega
  refine ⟨?_, e0, e8⟩
  rw [← hw]
  exact e0

/-- C12 (amended): when Sample Acquisition is a constant stub delivering the
raw sample (ax, ay, az, gx, gy, gz) during a calibration of `N` samples, `N`
from 1 to 10000, and afterwards, and both average caches start at 0.0, then
the calibration returns, the next sample is read, and `mpu6050_fix_bias`
applied to it yields on each axis a value less than `1 + |v| / 1600` counts
away from the expected reading, accel (0, 0, 8192) and gyro (0, 0, 0), `v`
being the sample on that axis, the sample less that residual being at most
`1601 / 1600` of `v` in magnitude.  The corrected value is exactly the
expected one on every axis where the sample is 0, for every sample when
`N = 1`, on every axis where `v / N` is a binary fraction that is averaged
without rounding (`exact_average`; for `N = 10000` the multiples of 625), and
at the repository's `N = 10000` on every axis where the sample is the gravity
reference 8192. -/
theorem C12_fix_bias_after_calibration (c : Mpu6050Header) (b : Fin 14 → Fin 256)
    (N : Nat) (s : State) (hN1 : 1 ≤ N) (hN : N ≤ CALIBRATE_SAMPLING_COUNT)
    (hbus : N + 1 ≤ answered s.bus) (hconst : constant_bus b s.bus) :
    ∃ s1 s2, mpu6050_calibrate_with c N zero_cache zero_cache s = some s1 ∧
      (N = CALIBRATE_SAMPLING_COUNT →
        mpu6050_calibrate c zero_cache zero_cache s = some s1) ∧
      mpu6050_read_unscaled_data c s1 =
        some (⟨s16 (b 0) (b 1), s16 (b 2) (b 3), s16 (b 4) (b 5)⟩,
          ⟨s16 (b 8) (b 9), s16 (b 10) (b 11), s16 (b 12) (b 13)⟩, s2) ∧
      corrected_axis N
        (mpu6050_fix_bias ⟨s16 (b 0) (b 1), s16 (b 2) (b 3), s16 (b 4) (b 5)⟩
          ⟨s16 (b 8) (b 9), s16 (b 10) (b 11), s16 (b 12) (b 13)⟩ s2).1.x 0
        (s16 (b 0) (b 1)) ∧
      corrected_axis N
        (mpu6050_fix_bias ⟨s16 (b 0) (b 1), s16 (b 2) (b 3), s16 (b 4) (b 5)⟩
          ⟨s16 (b 8) (b 9), s16 (b 10) (b 11), s16 (b 12) (b 13)⟩ s2).1.y 0
        (s16 (b 2) (b 3)) ∧
      corrected_axis N
        (mpu6050_fix_bias ⟨s16 (b 0) (b 1), s16 (b 2) (b 3), s16 (b 4) (b 5)⟩
          ⟨s16 (b 8) (b 9), s16 (b 10) (b 11), s16 (b 12) (b 13)⟩ s2).1.z 8192
        (s16 (b 4) (b 5)) ∧
      corrected_axis N
        (mpu6050_fix_bias ⟨s16 (b 0) (b 1), s16 (b 2) (b 3), s16 (b 4) (b 5)⟩
          ⟨s16 (b 8) (b 9), s16 (b 10) (b 11), s16 (b 12) (b 13)⟩ s2).2.1.x 0
        (s16 (b 8) (b 9)) ∧
      corrected_axis N
        (mpu6050_fix_bias ⟨s16 (b 0) (b 1), s16 (b 2) (b 3), s16 (b 4) (b 5)⟩
          ⟨s16 (b 8) (b 9), s16 (b 10) (b 11), s16 (b 12) (b 13)⟩ s2).2.1.y 0
        (s16 (b 10) (b 11)) ∧
      corrected_axis N
        (mpu6050_fix_bias ⟨s16 (b 0) (b 1), s16 (b 2) (b 3), s16 (b 4) (b 5)⟩
          ⟨s16 (b 8) (b 9), s16 (b 10) (b 11), s16 (b 12) (b 13)⟩ s2).2.1.z 0
        (s16 (b 12) (b 13)) := by
  obtain ⟨s1, hcal, hao, hgo, hcount, hconst1⟩ :=
    mpu6050_calibrate_with_constant_bus c b N zero_cache zero_cache s (by omega) hconst
  obtain ⟨s2, hread, _, _, hao2, hgo2⟩ :=
    mpu6050_read_unscaled_data_constant c b s1 (by omega) hconst1
  have r0 := s16_inRange (b 0) (b 1) (b 0).isLt (b 1).isLt
  have r1 := s16_inRange (b 2) (b 3) (b 2).isLt (b 3).isLt
  have r2 := s16_inRange (b 4) (b 5) (b 4).isLt (b 5).isLt
  have r3 := s16_inRange (b 8) (b 9) (b 8).isLt (b 9).isLt
  have r4 := s16_inRange (b 10) (b 11) (b 10).isLt (b 11).isLt
  have r5 := s16_inRange (b 12) (b 13) (b 12).isLt (b 13).isLt
  refine ⟨s1, s2, hcal, ?_, hread, ?_, ?_, ?_, ?_, ?_, ?_⟩
  · intro hN2
    subst hN2
    exact hcal
  · simp only [mpu6050_fix_bias, hao2, hao, zero_cache]
    exact (corrected_axis_of_sample N _ hN1 hN r0).2.1
  · simp only [mpu6050_fix_bias, hao2, hao, zero_cache]
    exact (corrected_axis_of_sample N _ hN1 hN r1).2.1
  · simp only [mpu6050_fix_bias, hao2, hao, zero_cache]
    exact (corrected_axis_of_sample N _ hN1 hN r2).2.2
  · simp only [mpu6050_fix_bias, hgo2, hgo, zero_cache]
    exact (corrected_axis_of_sample N _ hN1 hN r3).1
  · simp only [mpu6050_fix_bias, hgo2, hgo, zero_cache]
    exact (corrected_axis_of_sample N _ hN1 hN r4).1
  · simp only [mpu6050_fix_bias, hgo2, hgo, zero_cache]
    exact (corrected_axis_of_sample N _ hN1 hN r5).1

/-- Witness of C12: 10000 calibration samples and one more, the constant raw
sample (0, -5, 8192, 0, 625, 1500) on a bus that never times out.  The axes
where the sample is 0, 8192 or the multiple 625 of 625 are corrected to the
expected reading exactly. -/
theorem C12_fix_bias_after_calibration_witness :
    (1 ≤ 10000 ∧ 10000 ≤ CALIBRATE_SAMPLING_COUNT ∧
      10000 + 1 ≤ answered (List.replicate 10001 (ok_outcome (payload (fun i =>
        if i = 2 then 0xFF else if i = 3 then 0xFB else if i = 4 then 0x20
        else if i = 10 then 2 else if i = 11 then 0x71 else if i = 12 then 5
        else if i = 13 then 0xDC else 0)))) ∧
      constant_bus (fun i =>
        if i = 2 then 0xFF else if i = 3 then 0xFB else if i = 4 then 0x20
        else if i = 10 then 2 else if i = 11 then 0x71 else if i = 12 then 5
        else if i = 13 then 0xDC else 0)
        (List.replicate 10001 (ok_outcome (payload (fun i =>
          if i = 2 then 0xFF else if i = 3 then 0xFB else if i = 4 then 0x20
          else if i = 10 then 2 else if i = 11 then 0x71 else if i = 12 then 5
        else if i = 13 then 0xDC else 0))))) ∧
    ∃ s1 s2, mpu6050_calibrate ⟨0xD0, 0x6B, 0x1C, 0x1B, 0x3B, ⟨2 ^ 136⟩, ⟨2 ^ 149⟩⟩
        zero_cache zero_cache
        ⟨List.replicate 10001 (ok_outcome (payload (fun i =>
          if i = 2 then 0xFF else if i = 3 then 0xFB else if i = 4 then 0x20
          else if i = 10 then 2 else if i = 11 then 0x71 else if i = 12 then 5
        else if i = 13 then 0xDC else 0))), [], ⟨9, 9, 9⟩,
          ⟨9, 9, 9⟩⟩ = some s1 ∧
      mpu6050_read_unscaled_data ⟨0xD0, 0x6B, 0x1C, 0x1B, 0x3B, ⟨2 ^ 136⟩, ⟨2 ^ 149⟩⟩ s1 =
        some (⟨0, -5, 8192⟩, ⟨0, 625, 1500⟩, s2) ∧
      (mpu6050_fix_bias ⟨0, -5, 8192⟩ ⟨0, 625, 1500⟩ s2).1.x = 0 ∧
      corrected_axis 10000 (mpu6050_fix_bias ⟨0, -5, 8192⟩ ⟨0, 625, 1500⟩ s2).1.y 0 (-5) ∧
      (mpu6050_fix_bias ⟨0, -5, 8192⟩ ⟨0, 625, 1500⟩ s2).1.z = 8192 ∧
      (mpu6050_fix_bias ⟨0, -5, 8192⟩ ⟨0, 625, 1500⟩ s2).2.1.x = 0 ∧
      (mpu6050_fix_bias ⟨0, -5, 8192⟩ ⟨0, 625, 1500⟩ s2).2.1.y = 0 ∧
      corrected_axis 10000 (mpu6050_fix_bias ⟨0, -5, 8192⟩ ⟨0, 625, 1500⟩ s2).2.1.z 0 1500 :=
  ⟨⟨by decide, by decide, by rw [answered_replicate_ok], constant_bus_replicate _ _⟩,
    match C12_fix_bias_after_calibration ⟨0xD0, 0x6B, 0x1C, 0x1B, 0x3B, ⟨2 ^ 136⟩, ⟨2 ^ 149⟩⟩
      (fun i =>
        if i = 2 then 0xFF else if i = 3 then 0xFB else if i = 4 then 0x20
        else if i = 10 then 2 else if i = 11 then 0x71 else if i = 12 then 5
        else if i = 13 then 0xDC else 0)
      10000
      ⟨List.replicate 10001 (ok_outcome (payload (fun i =>
          if i = 2 then 0xFF else if i = 3 then 0xFB else if i = 4 then 0x20
          else if i = 10 then 2 else if i = 11 then 0x71 else if i = 12 then 5
        else if i = 13 then 0xDC else 0))), [], ⟨9, 9, 9⟩,
          ⟨9, 9, 9⟩⟩
      (by decide) (by decide) (by rw [answered_replicate_ok]) (constant_bus_replicate _ _) with
    | ⟨s1, s2, _, h2, h3, hx, hy, hz, hgx, hgy, hgz⟩ =>
      ⟨s1, s2, h2 rfl, h3, hx.2.2 (Or.inl rfl), hy, hz.2.2 (Or.inr (Or.inr (Or.inr ⟨rfl, rfl⟩))),
        hgx.2.2 (Or.inl rfl), hgy.2.2 (Or.inr (Or.inr (Or.inl (by decide)))), hgz⟩⟩

/-- C12 (counterexample): the constant raw sample (3, 0, 0, 0, 0, 0), delivered
10001 times by a bus that never times out, with both average caches starting
at 0.0.  `mpu6050_calibrate` stores the accelerometer offset (2, 0, -8192), so
`mpu6050_fix_bias` applied to the next sample yields accel = (1, 0, 8192), not
(0, 0, 8192). -/
theorem C12_counterexample_sample_three :
    (mpu6050_calibrate ⟨0xD0, 0x6B, 0x1C, 0x1B, 0x3B, ⟨2 ^ 136⟩, ⟨2 ^ 149⟩⟩ zero_cache zero_cache
        ⟨List.replicate 10001 (ok_outcome (payload (fun i => if i = 1 then 3 else 0))), [],
          ⟨0, 0, 0⟩, ⟨0, 0, 0⟩⟩).bind
        (fun s1 => (mpu6050_read_unscaled_data ⟨0xD0, 0x6B, 0x1C, 0x1B, 0x3B, ⟨2 ^ 136⟩, ⟨2 ^ 149⟩⟩ s1).map
          (fun r => (r.1, r.2.1, (mpu6050_fix_bias r.1 r.2.1 r.2.2).1,
            (mpu6050_fix_bias r.1 r.2.1 r.2.2).2.1))) =
      some (⟨3, 0, 0⟩, ⟨0, 0, 0⟩, ⟨1, 0, 8192⟩, ⟨0, 0, 0⟩) := by
  obtain ⟨s1, hcal, hao, hgo, hcount, hconst1⟩ := mpu6050_calibrate_with_constant_bus
    ⟨0xD0, 0x6B, 0x1C, 0x1B, 0x3B, ⟨2 ^ 136⟩, ⟨2 ^ 149⟩⟩ (fun i => if i = 1 then 3 else 0) 10000 zero_cache zero_cache
    ⟨List.replicate 10001 (ok_outcome (payload (fun i => if i = 1 then 3 else 0))), [],
          ⟨0, 0, 0⟩, ⟨0, 0, 0⟩⟩
    (by rw [answered_replicate_ok]; decide) (constant_bus_replicate _ _)
  have hanswered : 1 ≤ answered s1.bus := by
    rw [answered_replicate_ok] at hcount
    omega
  obtain ⟨s2, hread, _, _, hao2, hgo2⟩ :=
    mpu6050_read_unscaled_data_constant ⟨0xD0, 0x6B, 0x1C, 0x1B, 0x3B, ⟨2 ^ 136⟩, ⟨2 ^ 149⟩⟩ (fun i => if i = 1 then 3 else 0) s1 hanswered hconst1
  have hcal2 : mpu6050_calibrate ⟨0xD0, 0x6B, 0x1C, 0x1B, 0x3B, ⟨2 ^ 136⟩, ⟨2 ^ 149⟩⟩ zero_cache zero_cache
      ⟨List.replicate 10001 (ok_outcome (payload (fun i => if i = 1 then 3 else 0))), [],
          ⟨0, 0, 0⟩, ⟨0, 0, 0⟩⟩ = some s1 := hcal
  have hs3 : s16 ((fun i : Fin 14 => (if i = 1 then 3 else 0 : Fin 256)) 0)
      ((fun i : Fin 14 => (if i = 1 then 3 else 0 : Fin 256)) 1) = 3 := by decide
  have z0 : ∀ i j : Fin 14, i ≠ 1 → j ≠ 1 →
      s16 ((fun i : Fin 14 => (if i = 1 then 3 else 0 : Fin 256)) i)
        ((fun i : Fin 14 => (if i = 1 then 3 else 0 : Fin 256)) j) = 0 := by decide
  rw [hs3, z0 2 3 (by decide) (by decide), z0 4 5 (by decide) (by decide)] at hao
  rw [z0 8 9 (by decide) (by decide), z0 10 11 (by decide) (by decide),
    z0 12 13 (by decide) (by decide)] at hgo
  simp only [zero_cache, accumulate_sample_three, accumulate_sample_zero,
    truncated_sample_three, truncated_sample_zero] at hao hgo
  have hread2 : mpu6050_read_unscaled_data ⟨0xD0, 0x6B, 0x1C, 0x1B, 0x3B, ⟨2 ^ 136⟩, ⟨2 ^ 149⟩⟩ s1 =
      some (⟨3, 0, 0⟩, ⟨0, 0, 0⟩, s2) := hread
  rw [hcal2, Option.some_bind, hread2, Option.map_some']
  simp only [mpu6050_fix_bias, hao2, hgo2, hao, hgo]
  rfl

/-! ## Re-triggered calibration -/

/-- Integer-valued `float` values below 2^24 add exactly. -/
theorem accumulate_units_exact (t : Nat) :
    ∀ (n s : Nat), s + n * t < 2 ^ 24 →
      accumulate_units ((t : Int) * (f32_one : Nat)) n ((s : Int) * (f32_one : Nat)) =
        ((s + n * t : Nat) : Int) * (f32_one : Nat) := by
  intro n
  induction n with
  | zero =>
    intro s _
    simp [accumulate_units]
  | succ n ih =>
    intro s h
    have hlt : ((s + t : Nat) : Int).natAbs < 2 ^ 24 := by
      have : s + t ≤ s + (n + 1) * t := by nlinarith
      simp only [Int.natAbs_ofNat]
      omega
    have hrep := f32_representable_int ((s + t : Nat) : Int) hlt
    unfold f32_representable at hrep
    have hsum : (s : Int) * (f32_one : Nat) + (t : Int) * (f32_one : Nat) =
        ((s + t : Nat) : Int) * ((2 ^ 149 : Nat) : Int) := by
      unfold f32_one
      push_cast
      ring
    simp only [accumulate_units]
    rw [hsum, hrep]
    have := ih (s + t) (by
      have : s + t + n * t = s + (n + 1) * t := by ring
      omega)
    unfold f32_one at this
    unfold f32_one
    rw [this]
    congr 2
    ring

/-- The term `10000.0f / 10000` is 1.0. -/
theorem average_term_sample_ten_thousand :
    (f32_div (f32_of_int 10000) (f32_of_int ((10000 : Nat) : Int))).units =
      ((1 : Nat) : Int) * (f32_one : Nat) := by
  decide!

theorem accumulate_sample_ten_thousand (start : Nat) (h : start + 10000 < 2 ^ 24) :
    accumulate 10000 10000 10000 ⟨(start : Int) * (f32_one : Nat)⟩ =
      ⟨((start + 10000 : Nat) : Int) * (f32_one : Nat)⟩ := by
  have hu := accumulate_units_eq 10000 10000 10000 ⟨(start : Int) * (f32_one : Nat)⟩
  rw [average_term_sample_ten_thousand] at hu
  have he := accumulate_units_exact 1 10000 start (by omega)
  simp only [Nat.mul_one] at he
  rw [he] at hu
  exact binary32_eq_of_units _ _ hu

theorem truncated_integer (v : Nat) (h : v ≤ 32767) :
    f32_to_int16 ⟨(v : Int) * (f32_one : Nat)⟩ = v := by
  have hr : isInt16 (v : Int) := by
    unfold isInt16
    omega
  have := f32_to_int16_of_int (v : Int) hr
  rw [f32_of_int_exact _ (natAbs_lt_of_isInt16 _ hr)] at this
  exact this

theorem accumulate_ten_thousand_from_zero :
    accumulate 10000 10000 10000 ⟨0⟩ = ⟨10000 * 2 ^ 149⟩ := by
  have h := accumulate_sample_ten_thousand 0 (by decide)
  have e1 : ((0 : Nat) : Int) * ((f32_one : Nat) : Int) = 0 := by simp
  have e2 : ((0 + 10000 : Nat) : Int) * ((f32_one : Nat) : Int) = 10000 * 2 ^ 149 := by
    unfold f32_one
    norm_num
  rw [e1, e2] at h
  exact h

theorem accumulate_ten_thousand_from_leftover :
    accumulate 10000 10000 10000 ⟨10000 * 2 ^ 149⟩ = ⟨20000 * 2 ^ 149⟩ := by
  have h := accumulate_sample_ten_thousand 10000 (by decide)
  have e1 : ((10000 : Nat) : Int) * ((f32_one : Nat) : Int) = 10000 * 2 ^ 149 := by
    unfold f32_one
    norm_num
  have e2 : ((10000 + 10000 : Nat) : Int) * ((f32_one : Nat) : Int) = 20000 * 2 ^ 149 := by
    unfold f32_one
    norm_num
  rw [e1, e2] at h
  exact h

theorem truncated_ten_thousand : f32_to_int16 ⟨10000 * 2 ^ 149⟩ = 10000 := by
  decide!

theorem truncated_twenty_thousand : f32_to_int16 ⟨20000 * 2 ^ 149⟩ = 20000 := by
  decide!

/-- C16 (divergence of the code): a re-triggered calibration accumulates onto
what its uninitialised average caches hold.  Take the run of 10000 samples
whose accelerometer x axis is always 10000, whatever offsets are stored
before.  From caches holding 0.0 the loop leaves 10000.0 in the accelerometer
x cache and `mpu6050_calibrate` stores the accelerometer offset
(10000, 0, -8192); from caches that still hold what that run left there, the
same run of samples stores (20000, 0, -8192). -/
theorem C16_calibrate_accumulates_onto_leftover_caches (tr : List Event)
    (ao go : vector3d_16_t) :
    (mpu6050_calibrate_loop ⟨0xD0, 0x6B, 0x1C, 0x1B, 0x3B, ⟨2 ^ 136⟩, ⟨2 ^ 149⟩⟩ 10000 10000 zero_cache zero_cache
        ⟨List.replicate 10000 (ok_outcome (payload (fun i => if i = 0 then 0x27 else if i = 1 then 0x10 else 0))), tr, ao, go⟩).map (fun r => (r.1, r.2.1)) =
      some (⟨⟨10000 * 2 ^ 149⟩, ⟨0⟩, ⟨0⟩⟩, zero_cache) ∧
    (mpu6050_calibrate ⟨0xD0, 0x6B, 0x1C, 0x1B, 0x3B, ⟨2 ^ 136⟩, ⟨2 ^ 149⟩⟩ zero_cache zero_cache
        ⟨List.replicate 10000 (ok_outcome (payload (fun i => if i = 0 then 0x27 else if i = 1 then 0x10 else 0))), tr, ao, go⟩).map
        (fun s => (s.mpu6050_accel_offset, s.mpu6050_gyro_offset)) =
      some (⟨10000, 0, -8192⟩, ⟨0, 0, 0⟩) ∧
    (mpu6050_calibrate ⟨0xD0, 0x6B, 0x1C, 0x1B, 0x3B, ⟨2 ^ 136⟩, ⟨2 ^ 149⟩⟩ ⟨⟨10000 * 2 ^ 149⟩, ⟨0⟩, ⟨0⟩⟩ zero_cache
        ⟨List.replicate 10000 (ok_outcome (payload (fun i => if i = 0 then 0x27 else if i = 1 then 0x10 else 0))), tr, ao, go⟩).map
        (fun s => (s.mpu6050_accel_offset, s.mpu6050_gyro_offset)) =
      some (⟨20000, 0, -8192⟩, ⟨0, 0, 0⟩) := by
  have hs : s16 ((fun i : Fin 14 =>
        (if i = 0 then 0x27 else if i = 1 then 0x10 else 0 : Fin 256)) 0)
      ((fun i : Fin 14 => (if i = 0 then 0x27 else if i = 1 then 0x10 else 0 : Fin 256)) 1) =
        10000 := by decide
  have z0 : ∀ i j : Fin 14, i ≠ 0 → i ≠ 1 → j ≠ 0 → j ≠ 1 →
      s16 ((fun i : Fin 14 => (if i = 0 then 0x27 else if i = 1 then 0x10 else 0 : Fin 256)) i)
        ((fun i : Fin 14 => (if i = 0 then 0x27 else if i = 1 then 0x10 else 0 : Fin 256)) j) =
          0 := by decide
  have hanswered : 10000 ≤ answered
      (⟨List.replicate 10000 (ok_outcome (payload (fun i => if i = 0 then 0x27 else if i = 1 then 0x10 else 0))), tr, ao, go⟩ : State).bus := by
    show 10000 ≤ answered (List.replicate 10000 _)
    rw [answered_replicate_ok]
  refine ⟨?_, ?_, ?_⟩
  · obtain ⟨s1, hloop⟩ := mpu6050_calibrate_loop_constant ⟨0xD0, 0x6B, 0x1C, 0x1B, 0x3B, ⟨2 ^ 136⟩, ⟨2 ^ 149⟩⟩ (fun i => if i = 0 then 0x27 else if i = 1 then 0x10 else 0) 10000 10000
      zero_cache zero_cache ⟨List.replicate 10000 (ok_outcome (payload (fun i => if i = 0 then 0x27 else if i = 1 then 0x10 else 0))), tr, ao, go⟩ hanswered (constant_bus_replicate _ _)
    rw [hloop, Option.map_some', hs,
      z0 2 3 (by decide) (by decide) (by decide) (by decide),
      z0 4 5 (by decide) (by decide) (by decide) (by decide),
      z0 8 9 (by decide) (by decide) (by decide) (by decide),
      z0 10 11 (by decide) (by decide) (by decide) (by decide),
      z0 12 13 (by decide) (by decide) (by decide) (by decide)]
    simp only [zero_cache, accumulate_ten_thousand_from_zero, accumulate_sample_zero]
  · obtain ⟨s1, hcal, hao, hgo⟩ := mpu6050_calibrate_with_constant ⟨0xD0, 0x6B, 0x1C, 0x1B, 0x3B, ⟨2 ^ 136⟩, ⟨2 ^ 149⟩⟩ (fun i => if i = 0 then 0x27 else if i = 1 then 0x10 else 0) 10000
      zero_cache zero_cache ⟨List.replicate 10000 (ok_outcome (payload (fun i => if i = 0 then 0x27 else if i = 1 then 0x10 else 0))), tr, ao, go⟩ hanswered (constant_bus_replicate _ _)
    have hcal2 : mpu6050_calibrate ⟨0xD0, 0x6B, 0x1C, 0x1B, 0x3B, ⟨2 ^ 136⟩, ⟨2 ^ 149⟩⟩ zero_cache zero_cache
        ⟨List.replicate 10000 (ok_outcome (payload (fun i => if i = 0 then 0x27 else if i = 1 then 0x10 else 0))), tr, ao, go⟩ = some s1 := hcal
    rw [hcal2, Option.map_some', hao, hgo, hs,
      z0 2 3 (by decide) (by decide) (by decide) (by decide),
      z0 4 5 (by decide) (by decide) (by decide) (by decide),
      z0 8 9 (by decide) (by decide) (by decide) (by decide),
      z0 10 11 (by decide) (by decide) (by decide) (by decide),
      z0 12 13 (by decide) (by decide) (by decide) (by decide)]
    simp only [zero_cache, accumulate_ten_thousand_from_zero, accumulate_sample_zero,
      truncated_ten_thousand, truncated_sample_zero]
    rfl
  · obtain ⟨s1, hcal, hao, hgo⟩ := mpu6050_calibrate_with_constant ⟨0xD0, 0x6B, 0x1C, 0x1B, 0x3B, ⟨2 ^ 136⟩, ⟨2 ^ 149⟩⟩ (fun i => if i = 0 then 0x27 else if i = 1 then 0x10 else 0) 10000
      ⟨⟨10000 * 2 ^ 149⟩, ⟨0⟩, ⟨0⟩⟩ zero_cache ⟨List.replicate 10000 (ok_outcome (payload (fun i => if i = 0 then 0x27 else if i = 1 then 0x10 else 0))), tr, ao, go⟩ hanswered (constant_bus_replicate _ _)
    have hcal2 : mpu6050_calibrate ⟨0xD0, 0x6B, 0x1C, 0x1B, 0x3B, ⟨2 ^ 136⟩, ⟨2 ^ 149⟩⟩ ⟨⟨10000 * 2 ^ 149⟩, ⟨0⟩, ⟨0⟩⟩ zero_cache
        ⟨List.replicate 10000 (ok_outcome (payload (fun i => if i = 0 then 0x27 else if i = 1 then 0x10 else 0))), tr, ao, go⟩ = some s1 := hcal
    rw [hcal2, Option.map_some', hao, hgo, hs,
      z0 2 3 (by decide) (by decide) (by decide) (by decide),
      z0 4 5 (by decide) (by decide) (by decide) (by decide),
      z0 8 9 (by decide) (by decide) (by decide) (by decide),
      z0 10 11 (by decide) (by decide) (by decide) (by decide),
      z0 12 13 (by decide) (by decide) (by decide) (by decide)]
    simp only [zero_cache, accumulate_ten_thousand_from_leftover, accumulate_sample_zero,
      truncated_twenty_thousand, truncated_sample_zero]
    rfl

end Mpu6050
